import Mathlib

/-!
# SistemaPlaneaciones: report aggregation (`reporteController.js`)

Shallow embedding of the report controller of the academic-planning backend, of the role
middlewares of `auth.js` and of the global error handler of `server.js`.

Modelling conventions.

* A JavaScript number is the rational it denotes, and arithmetic is that of IEEE-754
  binary64: the result of `+`, `*` and `/` is the exact result rounded to the nearest double,
  a tie going to the even significand (`aDoble`). Subnormal numbers are represented; a result
  whose magnitude reaches `2^1024` (`Infinity` in JavaScript), `NaN` and the sign of zero are
  not.
* A numeric field of a stored record is given by a rational and is read as the nearest
  double, which is the field itself when the field is a double.
* A field that may be `null`, `undefined` or absent is an `Option`; JavaScript truthiness of
  such a field is `esVerdadero`.
* `new Set(xs)` is the list of the distinct elements of `xs` in insertion order.
* A plain object used as a frequency table is the list of its own properties in insertion
  order (`Objeto`); reads fall back to the properties inherited from `Object.prototype`.
* The record store (the Mongoose models, which live outside this development) is a record
  of three query functions that either return a list of plain records or reject with an
  error message; every call is logged so that "no query is issued" can be stated.
* `new Date().toISOString()` is the parameter `ahora`.
-/

set_option autoImplicit false

namespace SistemaPlaneaciones

/-! ## Data model -/

/-- Plan record as returned by `Planeacion.find(..).lean()`. -/
structure Planeacion where
  profesor : Option String
  materia : String
  estado : String
  cicloEscolar : String
  deriving DecidableEq

/-- Progress record as returned by `Avance.find(..).lean()`; `porcentajeAvance` is read as
the double nearest to the given rational. -/
structure Avance where
  profesor : Option String
  materia : String
  porcentajeAvance : ℚ
  cumplimiento : String
  cicloEscolar : String
  deriving DecidableEq

/-- Evidence record as returned by `Evidencia.find(..).lean()`; `horasAcreditadas` may be
missing, and is otherwise read as the double nearest to the given rational. -/
structure Evidencia where
  profesor : Option String
  nombre : String
  horasAcreditadas : Option ℚ
  estado : String
  cicloEscolar : String
  deriving DecidableEq

/-! ## JavaScript primitives used by the controller -/

/-- JavaScript truthiness of a value that is a string, `null` or `undefined`. -/
def esVerdadero : Option String → Bool
  | none => false
  | some s => s != ""

/-- The expression `v || d` for a string-or-missing `v` and a string default `d`. -/
def oCadena (v : Option String) (d : String) : String :=
  match v with
  | none => d
  | some s => if s = "" then d else s

/-- Nearest integer, a tie going to the even one. -/
def redondeoPar (t : ℚ) : ℤ :=
  if t - ⌊t⌋ < 1 / 2 then ⌊t⌋
  else if 1 / 2 < t - ⌊t⌋ then ⌊t⌋ + 1
  else if ⌊t⌋ % 2 = 0 then ⌊t⌋ else ⌊t⌋ + 1

/-- Binary exponent of `x` in binary64: the integer part of the base-2 logarithm of the
magnitude, and `-1022` for the subnormal numbers and zero below it. -/
def exponente (x : ℚ) : ℤ := max (Int.log 2 |x|) (-1022)

/-- Distance between consecutive doubles around `x`: the significand has 53 bits. -/
def cuanto (x : ℚ) : ℚ := (2 : ℚ) ^ (exponente x - 52)

/-- The double nearest to `x` (IEEE-754 binary64, round to nearest, ties to even). -/
def aDoble (x : ℚ) : ℚ := redondeoPar (x / cuanto x) * cuanto x

/-- The operator `+` on two numbers. -/
def sumar (a b : ℚ) : ℚ := aDoble (a + b)

/-- The operator `*` on two numbers. -/
def multiplicar (a b : ℚ) : ℚ := aDoble (a * b)

/-- The operator `/` on two numbers, the divisor not being zero. -/
def dividir (a b : ℚ) : ℚ := aDoble (a / b)

/-- The expression `h || 0` for a number-or-missing `h` read from a record. -/
def oCero (h : Option ℚ) : ℚ :=
  match h with
  | none => 0
  | some q => aDoble q

/-- The elements of `new Set(xs)` in iteration order: each value is added once, at the
position of its first occurrence. -/
def nuevoSet {α : Type} [DecidableEq α] (xs : List α) : List α :=
  xs.foldl (fun s x => if x ∈ s then s else s ++ [x]) []

/-- The call `.filter(Boolean)` on an array of string-or-missing values: keeps the
non-empty strings. -/
def filtrarBoolean (xs : List (Option String)) : List String :=
  xs.filterMap (fun o =>
    match o with
    | none => none
    | some s => if s = "" then none else some s)

/-- Property names every plain object inherits from `Object.prototype`. -/
def clavesHeredadas : List String :=
  ["constructor", "__proto__", "hasOwnProperty", "isPrototypeOf", "propertyIsEnumerable",
   "toLocaleString", "toString", "valueOf", "__defineGetter__", "__defineSetter__",
   "__lookupGetter__", "__lookupSetter__"]

/-- Value found in, or stored to, a property of a frequency table. -/
inductive ValorJS where
  /-- a number (a count) -/
  | numero (n : Nat)
  /-- a value that is not a number: an inherited function or object, or the string that
  `+ 1` makes of it -/
  | noNumerico
  deriving DecidableEq

/-- Plain object created by `{}`: its own properties in insertion order. -/
abbrev Objeto := List (String × ValorJS)

/-- Property read `acc[k]`: the own property, else the one inherited from
`Object.prototype`, else `undefined` (`none`). -/
def Objeto.leer (acc : Objeto) (k : String) : Option ValorJS :=
  match acc.find? (fun e => e.1 = k) with
  | some e => some e.2
  | none => if k ∈ clavesHeredadas then some .noNumerico else none

/-- The expression `(v || 0) + 1`: a number is incremented (`undefined` and `0` count as
`0`), anything else is concatenated with `"1"`. -/
def masUno : Option ValorJS → ValorJS
  | none => .numero 1
  | some (.numero n) => .numero (n + 1)
  | some .noNumerico => .noNumerico

/-- Property write `acc[k] = v`: overwrites the own property in place or appends a new
one; a write of a non-object to `__proto__` is ignored by its setter. -/
def Objeto.asignar (acc : Objeto) (k : String) (v : ValorJS) : Objeto :=
  if k = "__proto__" then acc
  else if acc.any (fun e => e.1 = k) then
    acc.map (fun e => if e.1 = k then (k, v) else e)
  else acc ++ [(k, v)]

/-- The reducer body `acc[k] = (acc[k] || 0) + 1; return acc`. -/
def incrementar (acc : Objeto) (k : String) : Objeto :=
  acc.asignar k (masUno (acc.leer k))

/-- JavaScript value of a percentage or average field of a report. -/
inductive Valor where
  /-- a number (the literal `0` of the empty branch) -/
  | numero (q : ℚ)
  /-- a string in fixed notation produced by `toFixed(2)` -/
  | cadena (s : String)
  /-- the string `toFixed(2)` produces for a magnitude of at least `10^21`: the exponent
  notation of `Number::toString`, whose characters are not modelled -/
  | exponencial (x : ℚ)
  deriving DecidableEq

/-- Character of a decimal digit. -/
def digitoChar (d : Nat) : Char := Char.ofNat (48 + d)

/-- Decimal representation of a natural number, most significant digit first. -/
def digitos (n : Nat) : List Char :=
  if n = 0 then ['0'] else (Nat.digits 10 n).reverse.map digitoChar

/-- The integer `n` for which `n / 100 - x` is closest to zero, the larger one on a tie
(`x` non-negative). -/
def centesimas (x : ℚ) : Nat := ⌊x * 100 + 1 / 2⌋.toNat

/-- Fixed notation of `n` hundredths: at least three digits, a point before the last
two. -/
def textoFijo (n : Nat) : List Char :=
  let m := digitos n
  let m := if m.length ≤ 2 then List.replicate (3 - m.length) '0' ++ m else m
  m.take (m.length - 2) ++ ['.'] ++ m.drop (m.length - 2)

/-- The method `Number.prototype.toFixed` with `fractionDigits = 2` (ECMAScript 21.1.3.3)
on the number `x`: sign, then exponent notation from `10^21` on, else the number of
hundredths nearest to `x` in fixed notation, the larger one when `x` lies exactly halfway. -/
def toFixed2 (x : ℚ) : Valor :=
  let s := if x < 0 then ['-'] else []
  let y := if x < 0 then -x else x
  if 10 ^ 21 ≤ y then .exponencial x
  else .cadena (String.mk (s ++ textoFijo (centesimas y)))

/-! ## The record store -/

/-- Query filter: exact match on the fields that are present. -/
structure Filtro where
  profesor : Option String
  cicloEscolar : Option String
  deriving DecidableEq

/-- One `find` call on one of the three models. -/
inductive Consulta where
  | planeacion (f : Filtro)
  | avance (f : Filtro)
  | evidencia (f : Filtro)
  deriving DecidableEq

/-- The three models: each `find(filtro).lean()` resolves to a list of records or rejects
with an error message. -/
structure Almacen where
  planeaciones : Filtro → Except String (List Planeacion)
  avances : Filtro → Except String (List Avance)
  evidencias : Filtro → Except String (List Evidencia)

/-- The `Promise.all([Planeacion.find(f).lean(), Avance.find(f).lean(),
Evidencia.find(f).lean()])` expression: the three queries are all issued; the result is the
triple of lists, or the rejection of a model that rejects. When several models reject,
JavaScript takes the one that rejects first in time, which the store does not tell; the
first in array order stands for it. -/
def buscarTodo (db : Almacen) (f : Filtro) :
    List Consulta × Except String (List Planeacion × List Avance × List Evidencia) :=
  ([.planeacion f, .avance f, .evidencia f],
    match db.planeaciones f, db.avances f, db.evidencias f with
    | .ok ps, .ok as, .ok es => .ok (ps, as, es)
    | .error e, _, _ => .error e
    | _, .error e, _ => .error e
    | _, _, .error e => .error e)

/-- A store whose queries resolve to the given lists whatever the filter. -/
def almacenFijo (ps : List Planeacion) (as : List Avance) (es : List Evidencia) : Almacen :=
  { planeaciones := fun _ => .ok ps
    avances := fun _ => .ok as
    evidencias := fun _ => .ok es }

/-! ## Institutional data for export: `obtenerDatosInstitucional` -/

/-- Per-teacher entry pushed to `reporteGeneral.docentes`. -/
structure DetalleProfesor where
  profesor : String
  totalPlaneaciones : Nat
  planeacionesPorEstado : Objeto
  totalAvances : Nat
  promedioAvance : Valor
  cumplimientoAvances : Objeto
  totalEvidencias : Nat
  horasCapacitacion : ℚ
  evidenciasValidadas : Nat
  deriving DecidableEq

/-- The `resumenGeneral` object of `obtenerDatosInstitucional`. -/
structure ResumenConteos where
  totalProfesores : Nat
  totalPlaneaciones : Nat
  totalAvances : Nat
  totalEvidencias : Nat
  deriving DecidableEq

/-- The `totales` object of `obtenerDatosInstitucional`. -/
structure Totales where
  planeacionesAprobadas : Nat
  porcentajeAprobacion : Valor
  avancesCumplidos : Nat
  porcentajeCumplimiento : Valor
  horasCapacitacionTotales : ℚ
  deriving DecidableEq

/-- The object returned by `obtenerDatosInstitucional`. -/
structure ReporteGeneral where
  tipo : String
  periodo : String
  fechaGeneracion : String
  resumenGeneral : ResumenConteos
  docentes : List DetalleProfesor
  totales : Totales
  deriving DecidableEq

/-- The teacher list: `[...new Set([...planeaciones.map(p => p.profesor),
...avances.map(a => a.profesor), ...evidencias.map(e => e.profesor)])].filter(Boolean)`. -/
def listaProfesores (planeaciones : List Planeacion) (avances : List Avance)
    (evidencias : List Evidencia) : List String :=
  filtrarBoolean (nuevoSet
    (planeaciones.map (fun p => p.profesor) ++ avances.map (fun a => a.profesor)
      ++ evidencias.map (fun e => e.profesor)))

/-- The expression `avs.reduce((a, b) => a + b.porcentajeAvance, 0)`: the additions are
done from left to right, each one rounded. -/
def sumaAvance (avs : List Avance) : ℚ :=
  avs.foldl (fun a b => sumar a (aDoble b.porcentajeAvance)) 0

/-- The expression `avs.reduce((a, b) => a + b.porcentajeAvance, 0) / avs.length`. -/
def mediaAvance (avs : List Avance) : ℚ := dividir (sumaAvance avs) avs.length

/-- The expression `avs.length ? (avs.reduce((a, b) => a + b.porcentajeAvance, 0) /
avs.length).toFixed(2) : 0`. -/
def promedioAvance (avs : List Avance) : Valor :=
  if avs.length ≠ 0 then toFixed2 (mediaAvance avs) else .numero 0

/-- The expression `evids.reduce((acc, e) => acc + (e.horasAcreditadas || 0), 0)`: the
additions are done from left to right, each one rounded. -/
def sumaHoras (evids : List Evidencia) : ℚ :=
  evids.foldl (fun acc e => sumar acc (oCero e.horasAcreditadas)) 0

/-- The expression `(parte / total) * 100` on two counts. -/
def razon (parte total : Nat) : ℚ := multiplicar (dividir parte total) 100

/-- The expression `total ? ((parte / total) * 100).toFixed(2) : 0`. -/
def porcentaje (parte total : Nat) : Valor :=
  if total ≠ 0 then toFixed2 (razon parte total) else .numero 0

/-- Body of the loop `for (const profesor of profesores)`: the `detalleProfesor` object. -/
def detalleProfesor (planeaciones : List Planeacion) (avances : List Avance)
    (evidencias : List Evidencia) (profesor : String) : DetalleProfesor :=
  let planes := planeaciones.filter (fun p => p.profesor = some profesor)
  let avs := avances.filter (fun a => a.profesor = some profesor)
  let evids := evidencias.filter (fun e => e.profesor = some profesor)
  let totalHoras := sumaHoras evids
  { profesor := profesor
    totalPlaneaciones := planes.length
    planeacionesPorEstado := planes.foldl (fun acc p => incrementar acc p.estado) []
    totalAvances := avs.length
    promedioAvance := promedioAvance avs
    cumplimientoAvances := avs.foldl (fun acc a => incrementar acc a.cumplimiento) []
    totalEvidencias := evids.length
    horasCapacitacion := totalHoras
    evidenciasValidadas := (evids.filter (fun e => e.estado = "validada")).length }

/-- The computation of `obtenerDatosInstitucional` after the three queries resolved. -/
def datosInstitucional (ciclo : Option String) (ahora : String)
    (planeaciones : List Planeacion) (avances : List Avance) (evidencias : List Evidencia) :
    ReporteGeneral :=
  let profesores := listaProfesores planeaciones avances evidencias
  let aprobadas := (planeaciones.filter (fun p => p.estado = "aprobado")).length
  let cumplidas := (avances.filter (fun a => a.cumplimiento = "cumplido")).length
  let horasTotales := sumaHoras evidencias
  { tipo := "institucional"
    periodo := oCadena ciclo "Todos"
    fechaGeneracion := ahora
    resumenGeneral :=
      { totalProfesores := profesores.length
        totalPlaneaciones := planeaciones.length
        totalAvances := avances.length
        totalEvidencias := evidencias.length }
    docentes := profesores.map (detalleProfesor planeaciones avances evidencias)
    totales :=
      { planeacionesAprobadas := aprobadas
        porcentajeAprobacion := porcentaje aprobadas planeaciones.length
        avancesCumplidos := cumplidas
        porcentajeCumplimiento := porcentaje cumplidas avances.length
        horasCapacitacionTotales := horasTotales } }

/-- The filter `ciclo ? { cicloEscolar: ciclo } : {}`. -/
def filtroCiclo (ciclo : Option String) : Filtro :=
  if esVerdadero ciclo then { profesor := none, cicloEscolar := ciclo }
  else { profesor := none, cicloEscolar := none }

/-- The helper `obtenerDatosInstitucional(ciclo)`: three queries, then the report; a
rejected query rejects the helper. -/
def obtenerDatosInstitucional (db : Almacen) (ahora : String) (ciclo : Option String) :
    List Consulta × Except String ReporteGeneral :=
  let r := buscarTodo db (filtroCiclo ciclo)
  (r.1,
    match r.2 with
    | .ok (planeaciones, avances, evidencias) =>
        .ok (datosInstitucional ciclo ahora planeaciones avances evidencias)
    | .error e => .error e)

/-! ## Institutional report as JSON: `obtenerReporteInstitucionalJSON` -/

/-- Entry of `planeaciones` in a teacher block of the JSON report. -/
structure PlaneacionVista where
  materia : String
  estado : String
  ciclo : String
  deriving DecidableEq

/-- Entry of `avances` in a teacher block of the JSON report. -/
structure AvanceVista where
  materia : String
  porcentaje : ℚ
  cumplimiento : String
  deriving DecidableEq

/-- Entry of `evidencias` in a teacher block of the JSON report. -/
structure EvidenciaVista where
  nombre : String
  horas : ℚ
  estado : String
  deriving DecidableEq

/-- The `resumen` object of a teacher block of the JSON report. -/
structure ResumenProfesor where
  totalPlaneaciones : Nat
  totalAvances : Nat
  totalEvidencias : Nat
  promedioAvance : Valor
  horasCapacitacion : ℚ
  deriving DecidableEq

/-- Teacher block of the JSON report (an element of `profesoresData`). -/
structure DocenteJSON where
  profesor : String
  planeaciones : List PlaneacionVista
  avances : List AvanceVista
  evidencias : List EvidenciaVista
  resumen : ResumenProfesor
  deriving DecidableEq

/-- The `resumenGeneral` object of the JSON report. -/
structure ResumenGeneral where
  totalProfesores : Nat
  totalPlaneaciones : Nat
  totalAvances : Nat
  totalEvidencias : Nat
  porcentajeAprobacion : Valor
  porcentajeCumplimiento : Valor
  horasCapacitacionTotales : ℚ
  deriving DecidableEq

/-- The `reporte` object sent by `obtenerReporteInstitucionalJSON`. -/
structure ReporteInstitucional where
  tipo : String
  periodo : String
  fechaGeneracion : String
  resumenGeneral : ResumenGeneral
  docentes : List DocenteJSON
  deriving DecidableEq

/-- The callback of `profesores.map(profesor => ...)` in the JSON endpoint. -/
def docenteJSON (planeaciones : List Planeacion) (avances : List Avance)
    (evidencias : List Evidencia) (profesor : String) : DocenteJSON :=
  let planes := planeaciones.filter (fun p => p.profesor = some profesor)
  let avs := avances.filter (fun a => a.profesor = some profesor)
  let evids := evidencias.filter (fun e => e.profesor = some profesor)
  { profesor := profesor
    planeaciones := planes.map (fun p =>
      { materia := p.materia, estado := p.estado, ciclo := p.cicloEscolar })
    avances := avs.map (fun a =>
      { materia := a.materia, porcentaje := aDoble a.porcentajeAvance
        cumplimiento := a.cumplimiento })
    evidencias := evids.map (fun e =>
      { nombre := e.nombre, horas := oCero e.horasAcreditadas, estado := e.estado })
    resumen :=
      { totalPlaneaciones := planes.length
        totalAvances := avs.length
        totalEvidencias := evids.length
        promedioAvance := promedioAvance avs
        horasCapacitacion := sumaHoras evids } }

/-- The computation of `obtenerReporteInstitucionalJSON` after the three queries
resolved. -/
def reporteInstitucional (ciclo : Option String) (ahora : String)
    (planeaciones : List Planeacion) (avances : List Avance) (evidencias : List Evidencia) :
    ReporteInstitucional :=
  let profesores := listaProfesores planeaciones avances evidencias
  let profesoresData := profesores.map (docenteJSON planeaciones avances evidencias)
  let aprobadas := (planeaciones.filter (fun p => p.estado = "aprobado")).length
  let cumplidas := (avances.filter (fun a => a.cumplimiento = "cumplido")).length
  let horasTotales := sumaHoras evidencias
  { tipo := "institucional"
    periodo := oCadena ciclo "Todos los ciclos"
    fechaGeneracion := ahora
    resumenGeneral :=
      { totalProfesores := profesores.length
        totalPlaneaciones := planeaciones.length
        totalAvances := avances.length
        totalEvidencias := evidencias.length
        porcentajeAprobacion := porcentaje aprobadas planeaciones.length
        porcentajeCumplimiento := porcentaje cumplidas avances.length
        horasCapacitacionTotales := horasTotales }
    docentes := profesoresData }

/-! ## Teacher report -/

/-- The `reporte` object sent by `obtenerReportePorProfesor`. -/
structure ReporteProfesor where
  tipo : String
  profesor : String
  periodo : String
  fechaGeneracion : String
  planeaciones : Nat
  avances : Nat
  evidencias : Nat
  promedioAvance : Valor
  deriving DecidableEq

/-- The object returned by `obtenerDatosProfesor`. -/
structure DatosProfesor where
  tipo : String
  profesor : String
  periodo : String
  planeaciones : Nat
  avances : Nat
  evidencias : Nat
  promedioAvance : Valor
  deriving DecidableEq

/-- The filter `{ profesor }`, with `cicloEscolar` added when `ciclo` is truthy. -/
def filtroProfesor (profesor : String) (ciclo : Option String) : Filtro :=
  if esVerdadero ciclo then { profesor := some profesor, cicloEscolar := ciclo }
  else { profesor := some profesor, cicloEscolar := none }

/-- The helper `obtenerDatosProfesor(profesor, ciclo)`. -/
def obtenerDatosProfesor (db : Almacen) (profesor : String) (ciclo : Option String) :
    List Consulta × Except String DatosProfesor :=
  let r := buscarTodo db (filtroProfesor profesor ciclo)
  (r.1,
    match r.2 with
    | .ok (planeaciones, avances, evidencias) =>
        .ok { tipo := "profesor"
              profesor := profesor
              periodo := oCadena ciclo "Todos"
              planeaciones := planeaciones.length
              avances := avances.length
              evidencias := evidencias.length
              promedioAvance := promedioAvance avances }
    | .error e => .error e)

/-! ## HTTP handlers -/

/-- The query string `req.query` of a report request. -/
structure Peticion where
  tipo : Option String
  formato : Option String
  ciclo : Option String
  profesor : Option String
  deriving DecidableEq

/-- Report data handed to the file generator. -/
inductive DatosExportar where
  | institucional (r : ReporteGeneral)
  | profesor (r : DatosProfesor)
  deriving DecidableEq

/-- The argument `data` of `generarArchivo` as a JavaScript value: `null` or `undefined`, an
array of a given length, or a report object. -/
inductive DatoJS where
  | nulo
  | arreglo (longitud : Nat)
  | objeto (d : DatosExportar)
  deriving DecidableEq

/-- Body written to the response. -/
inductive Cuerpo where
  /-- JSON object with a `message` -/
  | mensaje (m : String)
  /-- JSON institutional report -/
  | institucional (r : ReporteInstitucional)
  /-- JSON teacher report -/
  | profesor (r : ReporteProfesor)
  /-- file attachment: the `Content-Type` and `Content-Disposition` headers and the data
  rendered into the document, whose bytes are not modelled -/
  | archivo (contentType : String) (contentDisposition : String) (data : DatoJS)
  /-- nothing was sent: `generarArchivo` threw, and `exportarReporte`, which returns its
  promise without awaiting it, does not catch the rejection -/
  | sinRespuesta
  deriving DecidableEq

/-- What a handler did with `res`: the status code (200 unless `res.status` was called)
and the body. With the body `sinRespuesta` the status code was never sent. -/
structure Respuesta where
  status : Nat
  cuerpo : Cuerpo
  deriving DecidableEq

/-- Outcome of handling one request: the store queries issued, in order, and the
response. -/
structure Resultado where
  consultas : List Consulta
  respuesta : Respuesta
  deriving DecidableEq

/-- The handler `obtenerReporteInstitucionalJSON(req, res)`. -/
def obtenerReporteInstitucionalJSON (db : Almacen) (ahora : String) (req : Peticion) :
    Resultado :=
  let r := buscarTodo db (filtroCiclo req.ciclo)
  match r.2 with
  | .ok (planeaciones, avances, evidencias) =>
      { consultas := r.1
        respuesta :=
          { status := 200
            cuerpo := .institucional
              (reporteInstitucional req.ciclo ahora planeaciones avances evidencias) } }
  | .error e => { consultas := r.1, respuesta := { status := 500, cuerpo := .mensaje e } }

/-- The handler `obtenerReportePorProfesor(req, res)`. -/
def obtenerReportePorProfesor (db : Almacen) (ahora : String) (req : Peticion) : Resultado :=
  match req.profesor with
  | none =>
      { consultas := []
        respuesta := { status := 400, cuerpo := .mensaje "Se requiere el parámetro profesor" } }
  | some profesor =>
    if profesor = "" then
      { consultas := []
        respuesta := { status := 400, cuerpo := .mensaje "Se requiere el parámetro profesor" } }
    else
      let r := buscarTodo db (filtroProfesor profesor req.ciclo)
      match r.2 with
      | .ok (planeaciones, avances, evidencias) =>
          { consultas := r.1
            respuesta :=
              { status := 200
                cuerpo := .profesor
                  { tipo := "profesor"
                    profesor := profesor
                    periodo := oCadena req.ciclo "Todos los ciclos"
                    fechaGeneracion := ahora
                    planeaciones := planeaciones.length
                    avances := avances.length
                    evidencias := evidencias.length
                    promedioAvance := promedioAvance avances } } }
      | .error e => { consultas := r.1, respuesta := { status := 500, cuerpo := .mensaje e } }

/-- Characters that `res.setHeader` accepts in a header value (Node.js
`checkInvalidHeaderChar`): the tab, and the Latin-1 characters that are not controls. -/
def caracterDeCabecera (c : Char) : Bool :=
  c.toNat = 9 || (32 ≤ c.toNat && c.toNat ≤ 126) || (128 ≤ c.toNat && c.toNat ≤ 255)

/-- The header value is accepted by `res.setHeader`, which throws otherwise. -/
def cabeceraValida (s : String) : Bool := s.data.all caracterDeCabecera

/-- The helper `generarArchivo(formato, res, data, nombre, ciclo)`: 404 when `data` is
missing or an empty array; otherwise a PDF or a spreadsheet attachment named after `nombre`
for the two supported formats, and 400 for any other format. The call
`res.setHeader('Content-Disposition', ..)` throws when the file name has a character that a
header cannot carry, before anything is written. -/
def generarArchivo (formato : String) (data : DatoJS) (nombre : String) : Respuesta :=
  if data = .nulo ∨ data = .arreglo 0 then
    { status := 404, cuerpo := .mensaje "No hay datos para exportar." }
  else if formato = "pdf" then
    if cabeceraValida ("attachment; filename=" ++ nombre ++ ".pdf") then
      { status := 200
        cuerpo := .archivo "application/pdf" ("attachment; filename=" ++ nombre ++ ".pdf") data }
    else { status := 200, cuerpo := .sinRespuesta }
  else if formato = "excel" then
    if cabeceraValida ("attachment; filename=" ++ nombre ++ ".xlsx") then
      { status := 200
        cuerpo := .archivo "application/vnd.openxmlformats-officedocument.spreadsheetml.sheet"
          ("attachment; filename=" ++ nombre ++ ".xlsx") data }
    else { status := 200, cuerpo := .sinRespuesta }
  else
    { status := 400, cuerpo := .mensaje "Formato no soportado. Use \"excel\" o \"pdf\"." }

/-- The handler `exportarReporte(req, res)`. The `catch` answers 500 when a query rejects;
what `generarArchivo` does, it does after the handler has returned. -/
def exportarReporte (db : Almacen) (ahora : String) (req : Peticion) : Resultado :=
  if !esVerdadero req.tipo || !esVerdadero req.formato then
    { consultas := []
      respuesta := { status := 400, cuerpo := .mensaje "Debe especificar tipo y formato." } }
  else if req.tipo = some "institucional" then
    let r := obtenerDatosInstitucional db ahora req.ciclo
    match r.2 with
    | .ok data =>
        { consultas := r.1
          respuesta := generarArchivo (req.formato.getD "") (.objeto (.institucional data))
            "reporte-institucional" }
    | .error e => { consultas := r.1, respuesta := { status := 500, cuerpo := .mensaje e } }
  else if req.tipo = some "profesor" then
    match req.profesor with
    | none =>
        { consultas := []
          respuesta :=
            { status := 400, cuerpo := .mensaje "Debe especificar el nombre del profesor." } }
    | some profesor =>
      if profesor = "" then
        { consultas := []
          respuesta :=
            { status := 400, cuerpo := .mensaje "Debe especificar el nombre del profesor." } }
      else
        let r := obtenerDatosProfesor db profesor req.ciclo
        match r.2 with
        | .ok data =>
            { consultas := r.1
              respuesta := generarArchivo (req.formato.getD "") (.objeto (.profesor data))
                ("reporte-profesor-" ++ profesor) }
        | .error e => { consultas := r.1, respuesta := { status := 500, cuerpo := .mensaje e } }
  else
    { consultas := []
      respuesta := { status := 400, cuerpo := .mensaje "Tipo de reporte inválido." } }

/-! ## Role middlewares (`auth.js`) -/

/-- The user document that `autenticar` stores in `req.usuario`; only its role is read by
the role middlewares. A missing role is `none`. -/
structure Usuario where
  rol : Option String
  deriving DecidableEq

/-- What a middleware did: it called `next()`, or it answered the request itself. -/
inductive Paso where
  | siguiente
  | responde (r : Respuesta)
  deriving DecidableEq

/-- The middleware `esAdmin`. The argument is `req.usuario`; when it is absent, reading
`req.usuario.rol` throws and the `catch` answers 500. -/
def esAdmin (usuario : Option Usuario) : Paso :=
  match usuario with
  | none =>
      .responde
        { status := 500
          cuerpo := .mensaje "Error del servidor en verificación de rol de administrador." }
  | some u =>
    if u.rol ≠ some "admin" then
      .responde
        { status := 403
          cuerpo := .mensaje "Acceso denegado. Se requieren permisos de administrador." }
    else .siguiente

/-- The middleware `esCoordinadorOAdmin`: the test is
`!['coordinador', 'admin'].includes(req.usuario.rol)`. -/
def esCoordinadorOAdmin (usuario : Option Usuario) : Paso :=
  match usuario with
  | none =>
      .responde
        { status := 500, cuerpo := .mensaje "Error del servidor en verificación de permisos." }
  | some u =>
    if u.rol ∉ [some "coordinador", some "admin"] then
      .responde
        { status := 403
          cuerpo := .mensaje
            "Acceso denegado. Se requieren permisos de coordinador o administrador." }
    else .siguiente

/-- The middleware `esAdminOCoordinador`: the test is
`req.usuario.rol !== 'admin' && req.usuario.rol !== 'coordinador'`. -/
def esAdminOCoordinador (usuario : Option Usuario) : Paso :=
  match usuario with
  | none =>
      .responde
        { status := 500, cuerpo := .mensaje "Error del servidor en verificación de permisos." }
  | some u =>
    if u.rol ≠ some "admin" ∧ u.rol ≠ some "coordinador" then
      .responde
        { status := 403
          cuerpo := .mensaje
            "Acceso denegado. Solo administradores o coordinadores pueden realizar esta acción." }
    else .siguiente

/-! ## Global error handler (`server.js`) -/

/-- An error object as the global handler reads it: `name`, `message`, `stack` and the
messages of `errors` (for validation errors). -/
structure ErrorJS where
  name : String
  message : String
  stack : String
  errors : List String
  deriving DecidableEq

/-- JSON body sent by the global error handler; an absent or `undefined` field is `none`. -/
structure CuerpoError where
  message : String
  errors : Option (List String)
  error : Option String
  details : Option String
  deriving DecidableEq

/-- The error middleware `app.use((error, req, res, next) => ...)`: status and body. The
argument `nodeEnv` is `process.env.NODE_ENV`. -/
def manejadorGlobal (nodeEnv : Option String) (e : ErrorJS) : Nat × CuerpoError :=
  if e.name = "ValidationError" then
    (400, { message := "Error de validación", errors := some e.errors, error := none,
            details := none })
  else if e.name = "CastError" then
    (400, { message := "ID inválido", errors := none, error := none, details := none })
  else
    (500, { message := "Error interno del servidor"
            errors := none
            error := some (if nodeEnv = some "development" then e.message
              else "Something went wrong")
            details := if nodeEnv = some "development" then some e.stack else none })

/-! ## Vocabulary of the statements

Notions the properties are stated with; none of them is part of the controller. -/

/-- Value of a string of decimal digits. -/
def valorDigitos (cs : List Char) : Nat :=
  cs.foldl (fun acc c => 10 * acc + (c.toNat - 48)) 0

/-- A non-empty string of decimal digits read as a natural number. -/
def leerNatural (cs : List Char) : Option Nat :=
  if cs ≠ [] ∧ cs.all Char.isDigit then some (valorDigitos cs) else none

/-- A decimal literal (optional minus sign, digits, optionally a point and digits) read as
a number. -/
def leerDecimal (s : String) : Option ℚ :=
  let neg := s.data.head? = some '-'
  let cs := if neg then s.data.drop 1 else s.data
  let ent := cs.takeWhile (fun c => c ≠ '.')
  let resto := cs.dropWhile (fun c => c ≠ '.')
  match leerNatural ent with
  | none => none
  | some e =>
    let fraccion : Option ℚ :=
      match resto with
      | [] => some 0
      | _ :: frac => (leerNatural frac).map (fun n => (n : ℚ) / 10 ^ frac.length)
    match fraccion with
    | none => none
    | some f => some (if neg then -((e : ℚ) + f) else (e : ℚ) + f)

/-- The text has the shape: optional minus sign, one or more digits, a point, exactly two
digits. -/
def tieneDosDecimales (s : String) : Bool :=
  let cs := if s.data.head? = some '-' then s.data.drop 1 else s.data
  let ent := cs.takeWhile (fun c => c ≠ '.')
  let resto := cs.dropWhile (fun c => c ≠ '.')
  !ent.isEmpty && ent.all Char.isDigit &&
    match resto with
    | [_, a, b] => a.isDigit && b.isDigit
    | _ => false

/-- The number a field value denotes; `none` for text that is not a decimal literal. -/
def Valor.aNumero : Valor → Option ℚ
  | .numero q => some q
  | .cadena s => leerDecimal s
  | .exponencial x => some x

/-- The characters that stand for the value in the JSON body: a string stands for itself
and the number 0 is written `0`; other numbers and exponent notation are not modelled. -/
def Valor.textoJSON : Valor → Option String
  | .cadena s => some s
  | .numero q => if q = 0 then some "0" else none
  | .exponencial _ => none

/-- Rounding to two decimal places, a tie going away from zero. -/
def redondear2 (x : ℚ) : ℚ :=
  if x < 0 then -((centesimas (-x) : ℚ) / 100) else (centesimas x : ℚ) / 100

/-- The shape of a percentage or average field whose `toFixed` argument is the number `x`,
computed over a collection: the number 0 when the collection is empty, and otherwise text
with exactly two decimals that reads back as `x` rounded to two decimal places. -/
def ceroOFijo (v : Valor) (vacio : Bool) (x : ℚ) : Bool :=
  match v with
  | .numero q => vacio && decide (q = 0)
  | .cadena s =>
      !vacio && tieneDosDecimales s && decide (leerDecimal s = some (redondear2 x))
  | .exponencial _ => false

/-- Every query of the store resolves, whatever the filter. -/
def Almacen.resuelve (db : Almacen) : Prop :=
  ∀ f, (∃ ps, db.planeaciones f = .ok ps) ∧ (∃ as, db.avances f = .ok as) ∧
    ∃ es, db.evidencias f = .ok es

/-- Position of the first occurrence of `x` in `l` (the length of `l` if there is none). -/
def posicion {α : Type} [DecidableEq α] (x : α) (l : List α) : Nat :=
  l.findIdx (fun y => decide (y = x))

/-- Exact arithmetic mean of the `porcentajeAvance` values read from a list of progress
records. -/
def media (avs : List Avance) : ℚ :=
  (avs.map (fun a => aDoble a.porcentajeAvance)).sum / avs.length

/-- Exact sum of the `horasAcreditadas` values read from a list of evidence records, a
missing value counting as 0. -/
def sumaExacta (evids : List Evidencia) : ℚ :=
  (evids.map (fun e => oCero e.horasAcreditadas)).sum

/-- The number is a double: a significand of at most 53 bits times a power of two that is
at least `2^(-1074)`. -/
def esDoble (r : ℚ) : Prop := ∃ m e : ℤ, |m| ≤ 2 ^ 53 ∧ -1074 ≤ e ∧ r = m * (2 : ℚ) ^ e

/-- The file name of an export request can be carried by a header: the report is the
institutional one, or every character of the teacher name is accepted. -/
def nombreValido (req : Peticion) : Prop :=
  req.tipo = some "institucional" ∨ ∃ p, req.profesor = some p ∧ cabeceraValida p = true

/-- The value `v` of an average field computed over the progress records `avs`: it denotes
a number of hundredths that differs from the exact mean of the numbers read by at most 0.005
plus the rounding errors of the additions and of the division, and by at most 0.005 when
every percentage is a whole number. -/
def promedioCercano (v : Valor) (avs : List Avance) : Prop :=
  ∃ k : ℕ, v.aNumero = some ((k : ℚ) / 100) ∧
    |(k : ℚ) / 100 - media avs| ≤ 1 / 200 + (((avs.length : ℚ) + 1) * 100) / 2 ^ 53 ∧
    ((∀ a ∈ avs, ∃ m : ℕ, a.porcentajeAvance = m) → |(k : ℚ) / 100 - media avs| ≤ 1 / 200)

/-! ## Records used in the examples -/

/-- The two plans of the Ana scenario. -/
def planesAna : List Planeacion :=
  [{ profesor := some "Ana", materia := "Algebra", estado := "aprobado", cicloEscolar := "2024" },
   { profesor := some "Ana", materia := "Fisica", estado := "rechazado", cicloEscolar := "2024" }]

/-- The progress record of the Ana scenario. -/
def avancesAna : List Avance :=
  [{ profesor := some "Ana", materia := "Algebra", porcentajeAvance := 80,
     cumplimiento := "cumplido", cicloEscolar := "2024" }]

/-- A single progress record, of teacher "Eva". -/
def avancesEva : List Avance :=
  [{ profesor := some "Eva", materia := "Historia", porcentajeAvance := 10,
     cumplimiento := "parcial", cicloEscolar := "2024" }]

/-- Progress records of two teachers: Ana at 80, 85 and 86 percent, Eva at 10. -/
def avancesMixtos : List Avance :=
  [{ profesor := some "Ana", materia := "Algebra", porcentajeAvance := 80,
     cumplimiento := "cumplido", cicloEscolar := "2024" },
   { profesor := some "Eva", materia := "Historia", porcentajeAvance := 10,
     cumplimiento := "parcial", cicloEscolar := "2024" },
   { profesor := some "Ana", materia := "Fisica", porcentajeAvance := 85,
     cumplimiento := "parcial", cicloEscolar := "2024" },
   { profesor := some "Ana", materia := "Quimica", porcentajeAvance := 86,
     cumplimiento := "cumplido", cicloEscolar := "2024" }]

/-- The evidence record of the Ana scenario. -/
def evidenciasAna : List Evidencia :=
  [{ profesor := some "Ana", nombre := "Curso", horasAcreditadas := some 5,
     estado := "validada", cicloEscolar := "2024" }]

/-- Three plans, one of them approved. -/
def planesTercio : List Planeacion :=
  [{ profesor := some "Ana", materia := "Algebra", estado := "aprobado", cicloEscolar := "2024" },
   { profesor := some "Ana", materia := "Fisica", estado := "pendiente", cicloEscolar := "2024" },
   { profesor := none, materia := "Quimica", estado := "pendiente", cicloEscolar := "2024" }]

/-- Evidence of two teachers, one record without `horasAcreditadas`. -/
def evidenciasMixtas : List Evidencia :=
  [{ profesor := some "Ana", nombre := "Curso", horasAcreditadas := some 5,
     estado := "validada", cicloEscolar := "2024" },
   { profesor := some "Eva", nombre := "Taller", horasAcreditadas := some (3 / 2),
     estado := "pendiente", cicloEscolar := "2024" },
   { profesor := some "Ana", nombre := "Diplomado", horasAcreditadas := none,
     estado := "pendiente", cicloEscolar := "2024" }]

/-- Plan of teacher "A". -/
def planDeA : Planeacion :=
  { profesor := some "A", materia := "Algebra", estado := "aprobado", cicloEscolar := "2024" }

/-- Progress record whose teacher is `null`. -/
def avanceSinProfesor : Avance :=
  { profesor := none, materia := "Algebra", porcentajeAvance := 50, cumplimiento := "parcial",
    cicloEscolar := "2024" }

/-- Evidence whose teacher is the empty string. -/
def evidenciaProfesorVacio : Evidencia :=
  { profesor := some "", nombre := "Curso", horasAcreditadas := some 2, estado := "pendiente",
    cicloEscolar := "2024" }

/-- A store whose plan query rejects with the message `e`. -/
def almacenCaido (e : String) : Almacen :=
  { planeaciones := fun _ => .error e
    avances := fun _ => .ok []
    evidencias := fun _ => .ok [] }

/-- An approved plan of "Ana". -/
def planAprobado : Planeacion :=
  { profesor := some "Ana", materia := "Algebra", estado := "aprobado", cicloEscolar := "2024" }

/-- A pending plan of "Ana". -/
def planPendiente : Planeacion :=
  { profesor := some "Ana", materia := "Fisica", estado := "pendiente", cicloEscolar := "2024" }

/-- A list of 25000 plans of which 24999 are approved. -/
def planesCasiTodos : List Planeacion :=
  List.replicate 24999 planAprobado ++ [planPendiente]

/-- Export request of the teacher report of "Nonexistent" as PDF. -/
def peticionSinDatos : Peticion :=
  { tipo := some "profesor", formato := some "pdf", ciclo := none,
    profesor := some "Nonexistent" }

/-- Export request of the institutional report in the format "csv". -/
def peticionCsv : Peticion :=
  { tipo := some "institucional", formato := some "csv", ciclo := none, profesor := none }

/-- A progress record of "Ana" at the given percentage. -/
def avanceDe (q : ℚ) : Avance :=
  { profesor := some "Ana", materia := "Algebra", porcentajeAvance := q,
    cumplimiento := "parcial", cicloEscolar := "2024" }

/-- Forty progress records of "Ana": three at 1 percent and thirty-seven at 0 percent. -/
def avancesCuarenta : List Avance :=
  List.replicate 3 (avanceDe 1) ++ List.replicate 37 (avanceDe 0)

/-- Two progress records of "Ana": at 99.99 percent and at 100 percent. -/
def avancesCasiCien : List Avance := [avanceDe (9999 / 100), avanceDe 100]

/-- Request of the teacher report of "Ana". -/
def peticionAna : Peticion :=
  { tipo := none, formato := none, ciclo := none, profesor := some "Ana" }

/-- Two evidence records of "Ana", worth 0.1 and 0.2 hours. -/
def evidenciasDecimales : List Evidencia :=
  [{ profesor := some "Ana", nombre := "Curso", horasAcreditadas := some (1 / 10),
     estado := "validada", cicloEscolar := "2024" },
   { profesor := some "Ana", nombre := "Taller", horasAcreditadas := some (1 / 5),
     estado := "validada", cicloEscolar := "2024" }]

/-- An export request for the teacher report of "Łukasz" as PDF. -/
def peticionLukasz : Peticion :=
  { tipo := some "profesor", formato := some "pdf", ciclo := none, profesor := some "Łukasz" }

/-! ## Supporting lemmas -/

/-! ### Rounding to the nearest double -/

theorem redondeoPar_cerca (t : ℚ) : |(redondeoPar t : ℚ) - t| ≤ 1 / 2 := by
  have h1 := Int.floor_le t
  have h2 := Int.lt_floor_add_one t
  unfold redondeoPar
  split_ifs with a b c
  · rw [abs_le]; constructor <;> linarith
  · push_cast; rw [abs_le]; constructor <;> linarith
  · rw [abs_le]; constructor <;> linarith
  · push_cast; rw [abs_le]; constructor <;> linarith

theorem redondeoPar_min (t : ℚ) (k : ℤ) : |(redondeoPar t : ℚ) - t| ≤ |(k : ℚ) - t| := by
  by_cases h : k = redondeoPar t
  · rw [h]
  · have h1 := redondeoPar_cerca t
    have h2 : (1 : ℚ) ≤ |(k : ℚ) - redondeoPar t| := by
      have : (1 : ℤ) ≤ |k - redondeoPar t| := Int.one_le_abs (sub_ne_zero.mpr h)
      exact_mod_cast this
    have h3 : |(k : ℚ) - redondeoPar t| ≤ |(k : ℚ) - t| + |(redondeoPar t : ℚ) - t| := by
      have := abs_sub_le (k : ℚ) t (redondeoPar t)
      rwa [abs_sub_comm t _] at this
    linarith

theorem redondeoPar_unico (t : ℚ) (n : ℤ) (h : |t - n| < 1 / 2) : redondeoPar t = n := by
  have h1 := redondeoPar_cerca t
  have h2 : |(redondeoPar t : ℚ) - n| < 1 := by
    have := abs_sub_le (redondeoPar t : ℚ) t n
    linarith
  have h3 : |redondeoPar t - n| < 1 := by exact_mod_cast h2
  have h4 := Int.abs_lt_one_iff.mp h3
  omega

theorem redondeoPar_entero (n : ℤ) : redondeoPar n = n :=
  redondeoPar_unico _ n (by simp)

theorem cuanto_pos (x : ℚ) : 0 < cuanto x := by
  unfold cuanto; positivity

theorem exponente_min (x : ℚ) : -1022 ≤ exponente x := le_max_right _ _

theorem exponente_sup (x : ℚ) : |x| < (2 : ℚ) ^ (exponente x + 1) := by
  have h := Int.lt_zpow_succ_log_self (R := ℚ) (b := 2) (by norm_num) |x|
  have h2 : ((2 : ℕ) : ℚ) ^ (Int.log 2 |x| + 1) ≤ (2 : ℚ) ^ (exponente x + 1) := by
    rw [Nat.cast_ofNat]
    exact zpow_le_zpow_right₀ (by norm_num) (by unfold exponente; have := le_max_left (Int.log 2 |x|) (-1022); omega)
  exact lt_of_lt_of_le h h2

theorem exponente_inf (x : ℚ) (hx : x ≠ 0) (h : -1022 < exponente x) :
    (2 : ℚ) ^ exponente x ≤ |x| := by
  have he : exponente x = Int.log 2 |x| := by
    unfold exponente at h ⊢
    rcases max_cases (Int.log 2 |x|) (-1022) with ⟨h1, _⟩ | ⟨h1, _⟩
    · exact h1
    · rw [h1] at h; exact absurd h (lt_irrefl _)
  rw [he]
  have := Int.zpow_log_le_self (R := ℚ) (b := 2) (by norm_num) (abs_pos.mpr hx)
  rwa [Nat.cast_ofNat] at this

theorem aDoble_cero : aDoble 0 = 0 := by
  unfold aDoble
  rw [zero_div]
  have := redondeoPar_entero 0
  simp only [Int.cast_zero] at this
  rw [this]; simp

/-- Among the multiples of the quantum, the rounded value is nearest. -/
theorem aDoble_multiplo (x : ℚ) (k : ℤ) : |aDoble x - x| ≤ |(k : ℚ) * cuanto x - x| := by
  have hq := cuanto_pos x
  have e1 : aDoble x - x = cuanto x * ((redondeoPar (x / cuanto x) : ℚ) - x / cuanto x) := by
    unfold aDoble; field_simp
  have e2 : (k : ℚ) * cuanto x - x = cuanto x * ((k : ℚ) - x / cuanto x) := by
    field_simp
  rw [e1, e2, abs_mul, abs_mul, abs_of_pos hq]
  exact mul_le_mul_of_nonneg_left (redondeoPar_min _ k) hq.le

theorem aDoble_esDoble (x : ℚ) : esDoble (aDoble x) := by
  have hq := cuanto_pos x
  refine ⟨redondeoPar (x / cuanto x), exponente x - 52, ?_, ?_, rfl⟩
  · have h1 := redondeoPar_cerca (x / cuanto x)
    have h2 : |x / cuanto x| < 2 ^ 53 := by
      rw [abs_div, abs_of_pos hq, div_lt_iff₀ hq]
      have := exponente_sup x
      have e : (2 : ℚ) ^ 53 * cuanto x = (2 : ℚ) ^ (exponente x + 1) := by
        unfold cuanto
        rw [show (2 : ℚ) ^ 53 = (2 : ℚ) ^ (53 : ℤ) by norm_cast, ← zpow_add₀ (by norm_num)]
        congr 1; ring
      rw [e]; exact this
    have h3 : |(redondeoPar (x / cuanto x) : ℚ)| < 2 ^ 53 + 1 := by
      have := abs_sub_abs_le_abs_sub (redondeoPar (x / cuanto x) : ℚ) (x / cuanto x)
      linarith
    have h4 : |redondeoPar (x / cuanto x)| < 2 ^ 53 + 1 := by exact_mod_cast h3
    omega
  · have := exponente_min x; omega

theorem aDoble_cercano (x r : ℚ) (hr : esDoble r) : |aDoble x - x| ≤ |r - x| := by
  by_cases hx : x = 0
  · subst hx; rw [aDoble_cero]; simp
  obtain ⟨m, e, hm, he, rfl⟩ := hr
  by_cases hc : exponente x - 52 ≤ e
  · have e1 : (m : ℚ) * (2 : ℚ) ^ e
        = ((m * 2 ^ (e - (exponente x - 52)).toNat : ℤ) : ℚ) * cuanto x := by
      unfold cuanto
      push_cast
      rw [mul_assoc, ← zpow_natCast, ← zpow_add₀ (by norm_num)]
      congr 2
      rw [Int.toNat_of_nonneg (by omega)]; ring
    rw [e1]
    exact aDoble_multiplo x _
  · have hE : -1022 < exponente x := by omega
    have h1 := exponente_inf x hx hE
    have h2 : |(m : ℚ) * (2 : ℚ) ^ e| ≤ (2 : ℚ) ^ exponente x := by
      rw [abs_mul, abs_of_pos (by positivity : (0 : ℚ) < (2 : ℚ) ^ e)]
      have hm2 : |(m : ℚ)| ≤ 2 ^ 53 := by exact_mod_cast hm
      calc |(m : ℚ)| * (2 : ℚ) ^ e ≤ 2 ^ 53 * (2 : ℚ) ^ e :=
            mul_le_mul_of_nonneg_right hm2 (by positivity)
        _ = (2 : ℚ) ^ (53 + e) := by
            rw [show (2 : ℚ) ^ 53 = (2 : ℚ) ^ (53 : ℤ) by norm_cast, ← zpow_add₀ (by norm_num)]
        _ ≤ (2 : ℚ) ^ exponente x := zpow_le_zpow_right₀ (by norm_num) (by omega)
    have h3 : |x| - (2 : ℚ) ^ exponente x ≤ |(m : ℚ) * (2 : ℚ) ^ e - x| := by
      have := abs_sub_abs_le_abs_sub x ((m : ℚ) * (2 : ℚ) ^ e)
      rw [abs_sub_comm] at this
      linarith
    have eG : ((2 ^ 52 : ℤ) : ℚ) * cuanto x = (2 : ℚ) ^ exponente x := by
      unfold cuanto
      rw [Int.cast_pow, Int.cast_ofNat,
        show (2 : ℚ) ^ 52 = (2 : ℚ) ^ (52 : ℤ) by norm_cast, ← zpow_add₀ (by norm_num)]
      congr 1; ring
    rcases lt_or_gt_of_ne hx with hneg | hpos
    · have := aDoble_multiplo x (-(2 ^ 52))
      rw [Int.cast_neg, neg_mul, eG] at this
      rw [abs_of_neg hneg] at h1 h3
      have e3 : |-(2 : ℚ) ^ exponente x - x| = -x - (2 : ℚ) ^ exponente x := by
        rw [abs_of_nonneg (by linarith)]; ring
      rw [e3] at this
      linarith
    · have := aDoble_multiplo x (2 ^ 52)
      rw [eG] at this
      rw [abs_of_pos hpos] at h1 h3
      have e3 : |(2 : ℚ) ^ exponente x - x| = x - (2 : ℚ) ^ exponente x := by
        rw [abs_of_nonpos (by linarith)]; ring
      rw [e3] at this
      linarith

theorem aDoble_id (r : ℚ) (hr : esDoble r) : aDoble r = r := by
  have := aDoble_cercano r r hr
  rw [sub_self, abs_zero] at this
  have h2 := abs_nonneg (aDoble r - r)
  have h3 : |aDoble r - r| = 0 := le_antisymm this h2
  exact sub_eq_zero.mp (abs_eq_zero.mp h3)

theorem aDoble_mono (x y : ℚ) (h : x ≤ y) : aDoble x ≤ aDoble y := by
  by_contra hlt
  push_neg at hlt
  have hx1 := aDoble_cercano x (aDoble y) (aDoble_esDoble y)
  have hy1 := aDoble_cercano y (aDoble x) (aDoble_esDoble x)
  have a1 : aDoble y < x := by
    by_contra hc
    push_neg at hc
    rw [abs_of_nonneg (by linarith), abs_of_nonneg (by linarith)] at hx1
    linarith
  have a2 : y < aDoble x := by
    by_contra hc
    push_neg at hc
    rw [abs_of_nonpos (by linarith), abs_of_nonpos (by linarith)] at hy1
    linarith
  rw [abs_of_nonneg (by linarith), abs_of_nonpos (by linarith)] at hx1
  rw [abs_of_nonpos (by linarith), abs_of_nonneg (by linarith)] at hy1
  have hxy : x = y := by linarith
  subst hxy
  exact lt_irrefl _ hlt

theorem aDoble_le (x r : ℚ) (hr : esDoble r) (h : x ≤ r) : aDoble x ≤ r := by
  have := aDoble_mono x r h
  rwa [aDoble_id r hr] at this

theorem le_aDoble (x r : ℚ) (hr : esDoble r) (h : r ≤ x) : r ≤ aDoble x := by
  have := aDoble_mono r x h
  rwa [aDoble_id r hr] at this

theorem aDoble_error (x B : ℚ) (hB : (2 : ℚ) ^ (-1022 : ℤ) ≤ B) (hx : |x| ≤ B) :
    |aDoble x - x| ≤ B / 2 ^ 53 := by
  have hBpos : 0 < B := lt_of_lt_of_le (by positivity) hB
  by_cases h0 : x = 0
  · subst h0; rw [aDoble_cero]; simp; positivity
  have hq := cuanto_pos x
  have e1 : aDoble x - x = cuanto x * ((redondeoPar (x / cuanto x) : ℚ) - x / cuanto x) := by
    unfold aDoble; field_simp
  have h1 := redondeoPar_cerca (x / cuanto x)
  have h2 : |aDoble x - x| ≤ cuanto x * (1 / 2) := by
    rw [e1, abs_mul, abs_of_pos hq]
    exact mul_le_mul_of_nonneg_left h1 hq.le
  have h3 : (2 : ℚ) ^ exponente x ≤ B := by
    by_cases hE : -1022 < exponente x
    · exact le_trans (exponente_inf x h0 hE) hx
    · have : exponente x = -1022 := le_antisymm (by omega) (exponente_min x)
      rw [this]; exact hB
  have e2 : cuanto x * (1 / 2) = (2 : ℚ) ^ exponente x / 2 ^ 53 := by
    unfold cuanto
    rw [zpow_sub₀ (by norm_num)]
    norm_num
    ring
  rw [e2] at h2
  exact le_trans h2 (div_le_div_of_nonneg_right h3 (by positivity))

theorem aDoble_eq (x : ℚ) (n e : ℤ) (he : -1022 ≤ e) (h1 : (2 : ℚ) ^ e ≤ |x|)
    (h2 : |x| < (2 : ℚ) ^ (e + 1)) (hn : |x / (2 : ℚ) ^ (e - 52) - n| < 1 / 2) :
    aDoble x = n * (2 : ℚ) ^ (e - 52) := by
  have hpos : 0 < |x| := lt_of_lt_of_le (by positivity) h1
  have hl : Int.log 2 |x| = e := by
    apply le_antisymm
    · have := (Int.lt_zpow_iff_log_lt (R := ℚ) (b := 2) (by norm_num) hpos).mp
        (by rw [Nat.cast_ofNat]; exact h2)
      omega
    · exact (Int.zpow_le_iff_le_log (R := ℚ) (b := 2) (by norm_num) hpos).mp
        (by rw [Nat.cast_ofNat]; exact h1)
  have hE : exponente x = e := by
    unfold exponente; rw [hl]; exact max_eq_left he
  unfold aDoble cuanto
  rw [hE, redondeoPar_unico _ n hn]

theorem esDoble_natural (n : ℕ) (h : n ≤ 2 ^ 53) : esDoble n :=
  ⟨n, 0, by rw [abs_of_nonneg (by positivity)]; exact_mod_cast h, by norm_num, by simp⟩

/-! ### Fixed notation -/

theorem digitoChar_isDigit (d : Nat) (h : d < 10) : (digitoChar d).isDigit = true := by
  interval_cases d <;> decide

theorem digitoChar_valor (d : Nat) (h : d < 10) : (digitoChar d).toNat - 48 = d := by
  interval_cases d <;> decide

theorem isDigit_ne_punto (c : Char) (h : c.isDigit = true) : c ≠ '.' := by
  rintro rfl; exact absurd h (by decide)

theorem isDigit_ne_menos (c : Char) (h : c.isDigit = true) : c ≠ '-' := by
  rintro rfl; exact absurd h (by decide)

theorem valorDigitos_append (a b : List Char) :
    valorDigitos (a ++ b) = valorDigitos a * 10 ^ b.length + valorDigitos b := by
  induction b using List.reverseRecOn with
  | nil => simp [valorDigitos]
  | append_singleton b c ih =>
    have h1 : valorDigitos (a ++ (b ++ [c])) = 10 * valorDigitos (a ++ b) + (c.toNat - 48) := by
      simp [valorDigitos, List.foldl_append]
    have h2 : valorDigitos (b ++ [c]) = 10 * valorDigitos b + (c.toNat - 48) := by
      simp [valorDigitos, List.foldl_append]
    rw [h1, h2, ih, List.length_append, List.length_singleton, pow_succ]
    ring

theorem valorDigitos_map_reverse (ds : List Nat) (h : ∀ d ∈ ds, d < 10) :
    valorDigitos (ds.reverse.map digitoChar) = Nat.ofDigits 10 ds := by
  induction ds with
  | nil => simp [valorDigitos]
  | cons d ds ih =>
    have hd : d < 10 := h d (List.mem_cons_self _ _)
    have ih2 := ih (fun x hx => h x (List.mem_cons_of_mem _ hx))
    rw [List.reverse_cons, List.map_append, valorDigitos_append, ih2, Nat.ofDigits_cons]
    simp [valorDigitos, digitoChar_valor d hd]
    ring

theorem digitos_ne_nil (n : Nat) : digitos n ≠ [] := by
  unfold digitos
  split
  · simp
  · rename_i h
    simp [Nat.digits_ne_nil_iff_ne_zero, h]

theorem digitos_isDigit (n : Nat) : ∀ c ∈ digitos n, c.isDigit = true := by
  intro c hc
  unfold digitos at hc
  split at hc
  · simp at hc; subst hc; decide
  · simp only [List.mem_map, List.mem_reverse] at hc
    obtain ⟨d, hd, rfl⟩ := hc
    exact digitoChar_isDigit d (Nat.digits_lt_base (by norm_num) hd)

theorem valorDigitos_digitos (n : Nat) : valorDigitos (digitos n) = n := by
  unfold digitos
  split
  · rename_i h; subst h; decide
  · rw [valorDigitos_map_reverse _ (fun d hd => Nat.digits_lt_base (by norm_num) hd),
      Nat.ofDigits_digits]

theorem valorDigitos_replicate_cero (k : Nat) : valorDigitos (List.replicate k '0') = 0 := by
  induction k with
  | zero => rfl
  | succ k ih =>
    rw [List.replicate_succ', valorDigitos_append, ih]
    decide

/-- The digit string that `textoFijo` splits: the digits of `n`, padded with zeros to a
length of at least three. -/
theorem textoFijo_forma (n : Nat) :
    ∃ (ent : List Char) (d1 d2 : Char), textoFijo n = ent ++ ['.', d1, d2] ∧ ent ≠ [] ∧
      (∀ c ∈ ent, c.isDigit = true) ∧ d1.isDigit = true ∧ d2.isDigit = true ∧
      valorDigitos ent * 100 + valorDigitos [d1, d2] = n := by
  obtain ⟨m, hm, hlen, hdig, hval⟩ : ∃ m : List Char,
      textoFijo n = m.take (m.length - 2) ++ ['.'] ++ m.drop (m.length - 2) ∧ 3 ≤ m.length ∧
      (∀ c ∈ m, c.isDigit = true) ∧ valorDigitos m = n := by
    by_cases h : (digitos n).length ≤ 2
    · refine ⟨List.replicate (3 - (digitos n).length) '0' ++ digitos n, ?_, ?_, ?_, ?_⟩
      · simp only [textoFijo, h, if_true]
      · simp only [List.length_append, List.length_replicate]; omega
      · intro c hc
        rcases List.mem_append.mp hc with hc | hc
        · rw [List.eq_of_mem_replicate hc]; decide
        · exact digitos_isDigit n c hc
      · rw [valorDigitos_append, valorDigitos_replicate_cero, valorDigitos_digitos]; simp
    · exact ⟨digitos n, by simp only [textoFijo, h, if_false], by omega, digitos_isDigit n,
        valorDigitos_digitos n⟩
  have hdrop : (m.drop (m.length - 2)).length = 2 := by simp only [List.length_drop]; omega
  obtain ⟨d1, d2, hd⟩ : ∃ d1 d2, m.drop (m.length - 2) = [d1, d2] := by
    match hq : m.drop (m.length - 2), hdrop with
    | [a, b], _ => exact ⟨a, b, rfl⟩
  have hsplit : m = m.take (m.length - 2) ++ [d1, d2] := by
    rw [← hd, List.take_append_drop]
  refine ⟨m.take (m.length - 2), d1, d2, ?_, ?_, ?_, ?_, ?_, ?_⟩
  · rw [hm, hd]; simp
  · intro h0
    have := congrArg List.length h0
    simp only [List.length_take, List.length_nil] at this
    omega
  · exact fun c hc => hdig c (List.mem_of_mem_take hc)
  · exact hdig d1 (by rw [hsplit]; simp)
  · exact hdig d2 (by rw [hsplit]; simp)
  · have := valorDigitos_append (m.take (m.length - 2)) [d1, d2]
    rw [← hsplit, hval] at this
    simpa using this.symm

theorem takeWhile_punto (a b : List Char) (ha : ∀ c ∈ a, c.isDigit = true) :
    (a ++ '.' :: b).takeWhile (fun c => c ≠ '.') = a := by
  induction a with
  | nil => simp
  | cons x a ih =>
    have hx : decide (x ≠ '.') = true :=
      decide_eq_true (isDigit_ne_punto x (ha x (List.mem_cons_self _ _)))
    simp only [List.cons_append, List.takeWhile_cons, hx, if_true,
      ih (fun c hc => ha c (List.mem_cons_of_mem _ hc))]

theorem dropWhile_punto (a b : List Char) (ha : ∀ c ∈ a, c.isDigit = true) :
    (a ++ '.' :: b).dropWhile (fun c => c ≠ '.') = '.' :: b := by
  induction a with
  | nil => simp
  | cons x a ih =>
    have hx : decide (x ≠ '.') = true :=
      decide_eq_true (isDigit_ne_punto x (ha x (List.mem_cons_self _ _)))
    simp only [List.cons_append, List.dropWhile_cons, hx, if_true,
      ih (fun c hc => ha c (List.mem_cons_of_mem _ hc))]

theorem leerNatural_digitos (a : List Char) (h0 : a ≠ []) (ha : ∀ c ∈ a, c.isDigit = true) :
    leerNatural a = some (valorDigitos a) := by
  unfold leerNatural
  rw [if_pos]
  exact ⟨h0, by simpa [List.all_eq_true] using ha⟩

theorem head_no_menos (a b : List Char) (h0 : a ≠ []) (ha : ∀ c ∈ a, c.isDigit = true) :
    ¬ ((a ++ b).head? = some '-') := by
  cases a with
  | nil => exact absurd rfl h0
  | cons x a =>
    simp only [List.cons_append, List.head?_cons, Option.some.injEq]
    exact isDigit_ne_menos x (ha x (List.mem_cons_self _ _))

/-- Reading `ent.d1d2` gives the number of hundredths it spells, divided by 100. -/
theorem leerDecimal_fijo (ent : List Char) (d1 d2 : Char) (h0 : ent ≠ [])
    (ha : ∀ c ∈ ent, c.isDigit = true) (h1 : d1.isDigit = true) (h2 : d2.isDigit = true) :
    leerDecimal (String.mk (ent ++ ['.', d1, d2])) =
      some (((valorDigitos ent * 100 + valorDigitos [d1, d2] : ℕ) : ℚ) / 100) := by
  have hb : ∀ c ∈ [d1, d2], c.isDigit = true := by
    intro c hc; simp at hc; rcases hc with rfl | rfl <;> assumption
  unfold leerDecimal
  simp only [head_no_menos ent _ h0 ha, if_false, decide_False, Bool.false_eq_true,
    takeWhile_punto ent _ ha, dropWhile_punto ent _ ha, leerNatural_digitos ent h0 ha,
    leerNatural_digitos [d1, d2] (by simp) hb, Option.map_some']
  push_cast
  simp only [List.length_cons, List.length_nil]
  norm_num
  ring

/-- Reading `-ent.d1d2` gives the negated value. -/
theorem leerDecimal_fijo_neg (ent : List Char) (d1 d2 : Char) (h0 : ent ≠ [])
    (ha : ∀ c ∈ ent, c.isDigit = true) (h1 : d1.isDigit = true) (h2 : d2.isDigit = true) :
    leerDecimal (String.mk (['-'] ++ (ent ++ ['.', d1, d2]))) =
      some (-(((valorDigitos ent * 100 + valorDigitos [d1, d2] : ℕ) : ℚ) / 100)) := by
  have hb : ∀ c ∈ [d1, d2], c.isDigit = true := by
    intro c hc; simp at hc; rcases hc with rfl | rfl <;> assumption
  unfold leerDecimal
  simp only [List.singleton_append, List.head?_cons, if_true, decide_True, List.drop_succ_cons,
    List.drop_zero, takeWhile_punto ent _ ha, dropWhile_punto ent _ ha,
    leerNatural_digitos ent h0 ha, leerNatural_digitos [d1, d2] (by simp) hb, Option.map_some']
  push_cast
  simp only [List.length_cons, List.length_nil]
  norm_num
  ring

theorem tieneDosDecimales_fijo (ent : List Char) (d1 d2 : Char) (h0 : ent ≠ [])
    (ha : ∀ c ∈ ent, c.isDigit = true) (h1 : d1.isDigit = true) (h2 : d2.isDigit = true) :
    tieneDosDecimales (String.mk (ent ++ ['.', d1, d2])) = true := by
  unfold tieneDosDecimales
  simp only [head_no_menos ent _ h0 ha, if_false, takeWhile_punto ent _ ha,
    dropWhile_punto ent _ ha, h1, h2, Bool.and_self, Bool.and_true, Bool.and_eq_true,
    Bool.not_eq_true', List.isEmpty_eq_false, List.all_eq_true]
  exact ⟨h0, ha⟩

theorem tieneDosDecimales_fijo_neg (ent : List Char) (d1 d2 : Char) (h0 : ent ≠ [])
    (ha : ∀ c ∈ ent, c.isDigit = true) (h1 : d1.isDigit = true) (h2 : d2.isDigit = true) :
    tieneDosDecimales (String.mk (['-'] ++ (ent ++ ['.', d1, d2]))) = true := by
  unfold tieneDosDecimales
  simp only [List.singleton_append, List.head?_cons, if_true, List.drop_succ_cons,
    List.drop_zero, takeWhile_punto ent _ ha,
    dropWhile_punto ent _ ha, h1, h2, Bool.and_self, Bool.and_true, Bool.and_eq_true,
    Bool.not_eq_true', List.isEmpty_eq_false, List.all_eq_true]
  exact ⟨h0, ha⟩

theorem centesimas_eq (x : ℚ) (n : ℕ) (h1 : (n : ℚ) ≤ x * 100 + 1 / 2)
    (h2 : x * 100 + 1 / 2 < n + 1) : centesimas x = n := by
  unfold centesimas
  have : ⌊x * 100 + 1 / 2⌋ = (n : ℤ) := by
    rw [Int.floor_eq_iff]; exact ⟨by exact_mod_cast h1, by exact_mod_cast h2⟩
  rw [this]; simp

theorem centesimas_cota (x : ℚ) (h0 : 0 ≤ x) :
    (centesimas x : ℚ) ≤ x * 100 + 1 / 2 ∧ x * 100 + 1 / 2 < (centesimas x : ℚ) + 1 := by
  have hpos : 0 ≤ ⌊x * 100 + 1 / 2⌋ := Int.floor_nonneg.mpr (by positivity)
  have hcast : ((centesimas x : ℕ) : ℚ) = ((⌊x * 100 + 1 / 2⌋ : ℤ) : ℚ) := by
    unfold centesimas
    have : ((⌊x * 100 + 1 / 2⌋.toNat : ℕ) : ℤ) = ⌊x * 100 + 1 / 2⌋ := Int.toNat_of_nonneg hpos
    exact_mod_cast congrArg (fun z : ℤ => (z : ℚ)) this
  rw [hcast]
  exact ⟨Int.floor_le _, Int.lt_floor_add_one _⟩

theorem redondear2_cerca (x : ℚ) : |redondear2 x - x| ≤ 1 / 200 := by
  unfold redondear2
  split
  · rename_i h
    obtain ⟨h1, h2⟩ := centesimas_cota (-x) (by linarith)
    rw [abs_le]; constructor <;> linarith
  · rename_i h
    obtain ⟨h1, h2⟩ := centesimas_cota x (not_lt.mp h)
    rw [abs_le]; constructor <;> linarith

/-- Below `10^21`, `toFixed2` gives text with exactly two decimals that reads back as the
argument rounded to two decimal places. -/
theorem toFixed2_fijo (x : ℚ) (hx : |x| < 10 ^ 21) :
    ∃ s, toFixed2 x = .cadena s ∧ tieneDosDecimales s = true ∧
      leerDecimal s = some (redondear2 x) := by
  obtain ⟨hlo, hhi⟩ := abs_lt.mp hx
  by_cases hneg : x < 0
  · obtain ⟨ent, d1, d2, hf, h0, ha, h1, h2, hv⟩ := textoFijo_forma (centesimas (-x))
    refine ⟨String.mk (['-'] ++ textoFijo (centesimas (-x))), ?_, ?_, ?_⟩
    · unfold toFixed2
      simp only [hneg, if_true]
      rw [if_neg (by linarith)]
    · rw [hf]; exact tieneDosDecimales_fijo_neg ent d1 d2 h0 ha h1 h2
    · rw [hf, leerDecimal_fijo_neg ent d1 d2 h0 ha h1 h2, hv]
      simp only [redondear2, hneg, if_true]
  · obtain ⟨ent, d1, d2, hf, h0, ha, h1, h2, hv⟩ := textoFijo_forma (centesimas x)
    refine ⟨String.mk (textoFijo (centesimas x)), ?_, ?_, ?_⟩
    · unfold toFixed2
      simp only [hneg, if_false, List.nil_append]
      rw [if_neg (by linarith)]
    · rw [hf]; exact tieneDosDecimales_fijo ent d1 d2 h0 ha h1 h2
    · rw [hf, leerDecimal_fijo ent d1 d2 h0 ha h1 h2, hv]
      simp only [redondear2, hneg, if_false]

theorem toFixed2_aNumero (x : ℚ) (hx : |x| < 10 ^ 21) :
    (toFixed2 x).aNumero = some (redondear2 x) := by
  obtain ⟨s, hs, _, hl⟩ := toFixed2_fijo x hx
  rw [hs]; exact hl

/-- Whatever the magnitude, the number `toFixed2 x` denotes is within `0.005` of `x`. -/
theorem toFixed2_cerca (x : ℚ) : ∃ v, (toFixed2 x).aNumero = some v ∧ |v - x| ≤ 1 / 200 := by
  by_cases hx : |x| < 10 ^ 21
  · exact ⟨redondear2 x, toFixed2_aNumero x hx, redondear2_cerca x⟩
  · refine ⟨x, ?_, by simp⟩
    have hge : (10 : ℚ) ^ 21 ≤ if x < 0 then -x else x := by
      have := not_lt.mp hx
      split
      · rename_i h; rwa [abs_of_neg h] at this
      · rename_i h; rwa [abs_of_nonneg (not_lt.mp h)] at this
    unfold toFixed2
    simp only [hge, if_true, Valor.aNumero]

theorem toFixed2_of_nonneg (x : ℚ) (h0 : 0 ≤ x) (h1 : x < 10 ^ 21) :
    toFixed2 x = .cadena (String.mk (textoFijo (centesimas x))) := by
  unfold toFixed2
  simp only [not_lt.mpr h0, if_false, not_le.mpr h1, List.nil_append]

theorem toFixed2_80 : toFixed2 80 = .cadena "80.00" := by
  rw [toFixed2_of_nonneg _ (by norm_num) (by norm_num),
    centesimas_eq 80 8000 (by norm_num) (by norm_num)]
  simp [textoFijo, digitos]
  decide

theorem toFixed2_50 : toFixed2 50 = .cadena "50.00" := by
  rw [toFixed2_of_nonneg _ (by norm_num) (by norm_num),
    centesimas_eq _ 5000 (by norm_num) (by norm_num)]
  simp [textoFijo, digitos]
  decide

theorem toFixed2_100 : toFixed2 100 = .cadena "100.00" := by
  rw [toFixed2_of_nonneg _ (by norm_num) (by norm_num),
    centesimas_eq _ 10000 (by norm_num) (by norm_num)]
  simp [textoFijo, digitos]
  decide

/-! ### Arithmetic on doubles -/

theorem esDoble_cero : esDoble 0 := ⟨0, 0, by norm_num, by norm_num, by simp⟩

theorem esDoble_uno : esDoble 1 := ⟨1, 0, by norm_num, by norm_num, by simp⟩

theorem esDoble_cien : esDoble 100 := ⟨100, 0, by norm_num, by norm_num, by simp⟩

theorem esDoble_fraccion (m j : ℕ) (hm : m ≤ 2 ^ 53) (hj : j ≤ 1074) :
    esDoble ((m : ℚ) / 2 ^ j) := by
  refine ⟨m, -(j : ℤ), ?_, by omega, ?_⟩
  · rw [abs_of_nonneg (by positivity)]; exact_mod_cast hm
  · rw [zpow_neg, zpow_natCast, Int.cast_natCast]; rfl

theorem aDoble_natural (n : ℕ) (h : n ≤ 2 ^ 53) : aDoble n = n :=
  aDoble_id _ (esDoble_natural n h)

theorem aDoble_nonneg (x : ℚ) (h : 0 ≤ x) : 0 ≤ aDoble x := le_aDoble x 0 esDoble_cero h

theorem minimo_le (B : ℚ) (h : 1 ≤ B) : (2 : ℚ) ^ (-1022 : ℤ) ≤ B := by
  have : (2 : ℚ) ^ (-1022 : ℤ) ≤ (2 : ℚ) ^ (0 : ℤ) :=
    zpow_le_zpow_right₀ (by norm_num) (by norm_num)
  rw [zpow_zero] at this
  exact le_trans this h

theorem cociente_rango (parte total : Nat) (h : parte ≤ total) :
    (0 : ℚ) ≤ (parte : ℚ) / total ∧ (parte : ℚ) / total ≤ 1 := by
  refine ⟨by positivity, ?_⟩
  rcases Nat.eq_zero_or_pos total with ht | ht
  · subst ht; simp
  · rw [div_le_one (by exact_mod_cast ht)]; exact_mod_cast h

theorem dividir_rango (parte total : Nat) (h : parte ≤ total) :
    0 ≤ dividir parte total ∧ dividir parte total ≤ 1 := by
  obtain ⟨h0, h1⟩ := cociente_rango parte total h
  exact ⟨aDoble_nonneg _ h0, aDoble_le _ 1 esDoble_uno h1⟩

/-- The percentage computed from two counts lies in [0, 100]. -/
theorem razon_rango (parte total : Nat) (h : parte ≤ total) :
    0 ≤ razon parte total ∧ razon parte total ≤ 100 := by
  obtain ⟨h0, h1⟩ := dividir_rango parte total h
  unfold razon multiplicar
  exact ⟨aDoble_nonneg _ (by positivity), aDoble_le _ 100 esDoble_cien (by linarith)⟩

/-- The percentage computed from two counts differs from the exact one by the two rounding
errors of the quotient and of the product. -/
theorem razon_error (parte total : Nat) (h : parte ≤ total) :
    |razon parte total - (parte : ℚ) / total * 100| ≤ 200 / 2 ^ 53 := by
  obtain ⟨h0, h1⟩ := cociente_rango parte total h
  obtain ⟨d0, d1⟩ := dividir_rango parte total h
  have e1 : |dividir parte total - (parte : ℚ) / total| ≤ 1 / 2 ^ 53 :=
    aDoble_error _ 1 (minimo_le 1 le_rfl) (by rw [abs_of_nonneg h0]; exact h1)
  have e2 : |razon parte total - dividir parte total * 100| ≤ 100 / 2 ^ 53 :=
    aDoble_error _ 100 (minimo_le 100 (by norm_num))
      (by rw [abs_of_nonneg (by positivity)]; linarith)
  rw [abs_le] at e1 e2 ⊢
  constructor <;> linarith [e1.1, e1.2, e2.1, e2.2]

/-- A percentage computed from two counts stays below the exponent-notation threshold. -/
theorem razon_cota (parte total : Nat) (h : parte ≤ total) :
    |razon parte total| < 10 ^ 21 := by
  obtain ⟨h0, h1⟩ := razon_rango parte total h
  rw [abs_of_nonneg h0]
  calc razon parte total ≤ 100 := h1
    _ < 10 ^ 21 := by norm_num

/-- A rounded sum of numbers between 0 and `B` stays between 0 and the number of terms
times `B`, as long as that bound is a double. -/
theorem foldl_sumar_cota {α : Type} (f : α → ℚ) (B : ℕ) (l : List α) :
    ∀ (a : ℚ) (k : ℕ), (∀ x ∈ l, 0 ≤ f x ∧ f x ≤ B) → 0 ≤ a → a ≤ (k : ℚ) * B →
      (k + l.length) * B ≤ 2 ^ 53 →
      0 ≤ l.foldl (fun a b => sumar a (f b)) a ∧
        l.foldl (fun a b => sumar a (f b)) a ≤ ((k + l.length : ℕ) : ℚ) * B := by
  induction l with
  | nil => intro a k _ h0 h1 _; simpa using ⟨h0, h1⟩
  | cons x l ih =>
    intro a k hf h0 h1 hk
    obtain ⟨x0, x1⟩ := hf x (List.mem_cons_self _ _)
    have hk2 : (k + 1 + l.length) * B ≤ 2 ^ 53 := by
      simp only [List.length_cons] at hk
      have : k + 1 + l.length = k + (l.length + 1) := by omega
      rw [this]; exact hk
    have hk3 : (k + 1) * B ≤ 2 ^ 53 :=
      le_trans (Nat.mul_le_mul_right B (by omega)) hk2
    have s0 : 0 ≤ sumar a (f x) := aDoble_nonneg _ (by linarith)
    have s1 : sumar a (f x) ≤ ((k + 1 : ℕ) : ℚ) * B := by
      have := aDoble_le (a + f x) (((k + 1) * B : ℕ) : ℚ) (esDoble_natural _ hk3)
        (by push_cast; linarith)
      simpa [sumar] using this
    have := ih (sumar a (f x)) (k + 1) (fun y hy => hf y (List.mem_cons_of_mem _ hy)) s0 s1 hk2
    simp only [List.foldl_cons, List.length_cons]
    have e : k + 1 + l.length = k + (l.length + 1) := by omega
    rw [e] at this
    exact this

/-- The error of a rounded sum of numbers between 0 and `B`. -/
theorem foldl_sumar_error {α : Type} (f : α → ℚ) (B : ℕ) (hB : 0 < B) (l : List α) :
    ∀ (a : ℚ) (k : ℕ), (∀ x ∈ l, 0 ≤ f x ∧ f x ≤ B) → 0 ≤ a → a ≤ (k : ℚ) * B →
      (k + l.length) * B ≤ 2 ^ 53 →
      |l.foldl (fun a b => sumar a (f b)) a - (a + (l.map f).sum)|
        ≤ ((l.length : ℚ) * (k + l.length) * B) / 2 ^ 53 := by
  induction l with
  | nil => intro a k _ _ _ _; simp
  | cons x l ih =>
    intro a k hf h0 h1 hk
    obtain ⟨x0, x1⟩ := hf x (List.mem_cons_self _ _)
    have hk2 : (k + 1 + l.length) * B ≤ 2 ^ 53 := by
      simp only [List.length_cons] at hk
      have : k + 1 + l.length = k + (l.length + 1) := by omega
      rw [this]; exact hk
    have hk3 : (k + 1) * B ≤ 2 ^ 53 :=
      le_trans (Nat.mul_le_mul_right B (by omega)) hk2
    have s0 : 0 ≤ sumar a (f x) := aDoble_nonneg _ (by linarith)
    have s1 : sumar a (f x) ≤ ((k + 1 : ℕ) : ℚ) * B := by
      have := aDoble_le (a + f x) (((k + 1) * B : ℕ) : ℚ) (esDoble_natural _ hk3)
        (by push_cast; linarith)
      simpa [sumar] using this
    have hB1 : (1 : ℚ) ≤ B := by exact_mod_cast hB
    have hk0 : (0 : ℚ) ≤ k := by positivity
    have e1 : |sumar a (f x) - (a + f x)| ≤ ((k + 1 : ℚ) * B) / 2 ^ 53 :=
      aDoble_error _ _ (minimo_le _ (by nlinarith))
        (by rw [abs_of_nonneg (by linarith)]; linarith)
    have e2 := ih (sumar a (f x)) (k + 1) (fun y hy => hf y (List.mem_cons_of_mem _ hy))
      s0 s1 hk2
    simp only [List.foldl_cons, List.length_cons, List.map_cons, List.sum_cons]
    push_cast at e2 ⊢
    have hl0 : (0 : ℚ) ≤ l.length := by positivity
    have key : ((k + 1 : ℚ) * B) / 2 ^ 53 + ((l.length : ℚ) * (k + 1 + l.length) * B) / 2 ^ 53
        ≤ (((l.length : ℚ) + 1) * (k + (l.length + 1)) * B) / 2 ^ 53 := by
      rw [← add_div]
      apply div_le_div_of_nonneg_right _ (by positivity)
      nlinarith
    rw [abs_le] at e1 e2 ⊢
    constructor <;> linarith [e1.1, e1.2, e2.1, e2.2]

/-- A rounded sum of multiples of `1 / 2^j` is exact as long as the exact sum is at most
`2^53 / 2^j`. -/
theorem foldl_sumar_exacta {α : Type} (f : α → ℚ) (j : ℕ) (hj : j ≤ 1074) (l : List α) :
    ∀ (a : ℚ), (∃ m : ℕ, a = (m : ℚ) / 2 ^ j) → (∀ x ∈ l, ∃ m : ℕ, f x = (m : ℚ) / 2 ^ j) →
      a + (l.map f).sum ≤ 2 ^ 53 / 2 ^ j →
      l.foldl (fun a b => sumar a (f b)) a = a + (l.map f).sum := by
  induction l with
  | nil => intro a _ _ _; simp
  | cons x l ih =>
    intro a ha hf hs
    obtain ⟨ma, rfl⟩ := ha
    obtain ⟨mx, hx⟩ := hf x (List.mem_cons_self _ _)
    have hrest : 0 ≤ (l.map f).sum := by
      apply List.sum_nonneg
      intro y hy
      obtain ⟨z, hz, rfl⟩ := List.mem_map.mp hy
      obtain ⟨mz, hmz⟩ := hf z (List.mem_cons_of_mem _ hz)
      rw [hmz]; positivity
    simp only [List.map_cons, List.sum_cons] at hs
    have e : (ma : ℚ) / 2 ^ j + f x = ((ma + mx : ℕ) : ℚ) / 2 ^ j := by
      rw [hx]; push_cast; ring
    have hle : ((ma + mx : ℕ) : ℚ) / 2 ^ j ≤ 2 ^ 53 / 2 ^ j := by
      rw [← e]; linarith
    have hm : ma + mx ≤ 2 ^ 53 := by
      have h2 := (div_le_div_iff_of_pos_right (by positivity : (0 : ℚ) < 2 ^ j)).mp hle
      exact_mod_cast h2
    have hs1 : sumar ((ma : ℚ) / 2 ^ j) (f x) = ((ma + mx : ℕ) : ℚ) / 2 ^ j := by
      unfold sumar
      rw [e]
      exact aDoble_id _ (esDoble_fraccion _ _ hm hj)
    simp only [List.foldl_cons, List.map_cons, List.sum_cons]
    rw [hs1, ih _ ⟨_, rfl⟩ (fun y hy => hf y (List.mem_cons_of_mem _ hy))
      (by rw [← e]; linarith), ← e]
    ring

/-- Terms that are zero can be left out of a rounded sum. -/
theorem foldl_sumar_filtro {α : Type} (f : α → ℚ) (p : α → Bool)
    (hp : ∀ x, p x = false → f x = 0) (l : List α) :
    ∀ (a : ℚ), esDoble a →
      l.foldl (fun a b => sumar a (f b)) a
        = (l.filter p).foldl (fun a b => sumar a (f b)) a := by
  induction l with
  | nil => intro a _; rfl
  | cons x l ih =>
    intro a ha
    cases hx : p x with
    | false =>
      have h0 : sumar a (f x) = a := by
        unfold sumar; rw [hp x hx, add_zero]; exact aDoble_id a ha
      simp only [List.foldl_cons, List.filter_cons, hx, h0, Bool.false_eq_true, if_false]
      exact ih a ha
    | true =>
      simp only [List.foldl_cons, List.filter_cons, hx, if_true]
      exact ih _ (aDoble_esDoble _)

/-- The number of hundredths nearest to a number that approximates a quotient of two
naturals is nearest to the quotient itself, up to the choice at a tie. -/
theorem centesimas_cercano (y : ℚ) (s n : ℕ) (hn : 0 < n) (hn2 : n < 2 ^ 32) (hy : 0 ≤ y)
    (herr : |y - (s : ℚ) / n| ≤ 1 / 2 ^ 41) :
    |(centesimas y : ℚ) / 100 - (s : ℚ) / n| ≤ 1 / 200 := by
  obtain ⟨c1, c2⟩ := centesimas_cota y hy
  have hnq : (0 : ℚ) < n := by exact_mod_cast hn
  have hn3 : (n : ℚ) < 2 ^ 32 := by exact_mod_cast hn2
  rw [abs_le] at herr
  obtain ⟨e1, e2⟩ := herr
  have hs : (s : ℚ) / n * n = s := by field_simp
  -- upper bound on y * n and lower bound
  have u1 : y * n ≤ s + n / 2 ^ 41 := by
    have := mul_le_mul_of_nonneg_right (by linarith : y ≤ (s : ℚ) / n + 1 / 2 ^ 41) hnq.le
    rw [add_mul, hs] at this
    linarith
  have u2 : (s : ℚ) - n / 2 ^ 41 ≤ y * n := by
    have := mul_le_mul_of_nonneg_right (by linarith : (s : ℚ) / n - 1 / 2 ^ 41 ≤ y) hnq.le
    rw [sub_mul, hs] at this
    linarith
  have k1 : ((centesimas y : ℚ) - 1 / 2) * n ≤ 100 * (y * n) := by nlinarith
  have k2 : 100 * (y * n) < ((centesimas y : ℚ) + 1 / 2) * n := by nlinarith
  -- integer inequalities
  have i1 : (2 * (centesimas y : ℤ) - 1) * n ≤ 200 * s := by
    have hq : ((2 * (centesimas y : ℤ) - 1) * n : ℚ) < 200 * s + 1 := by
      push_cast
      have : (200 : ℚ) * (n / 2 ^ 41) < 1 := by
        rw [← mul_div_assoc, div_lt_one (by positivity)]
        calc (200 : ℚ) * n < 200 * 2 ^ 32 := by linarith
          _ < 2 ^ 41 := by norm_num
      nlinarith
    have hz : (2 * (centesimas y : ℤ) - 1) * n < 200 * s + 1 := by exact_mod_cast hq
    omega
  have i2 : 200 * (s : ℤ) ≤ (2 * (centesimas y : ℤ) + 1) * n := by
    have hq : (200 * s : ℚ) < ((2 * (centesimas y : ℤ) + 1) * n : ℚ) + 1 := by
      push_cast
      have : (200 : ℚ) * (n / 2 ^ 41) < 1 := by
        rw [← mul_div_assoc, div_lt_one (by positivity)]
        calc (200 : ℚ) * n < 200 * 2 ^ 32 := by linarith
          _ < 2 ^ 41 := by norm_num
      nlinarith
    have hz : 200 * (s : ℤ) < (2 * (centesimas y : ℤ) + 1) * n + 1 := by exact_mod_cast hq
    omega
  have j1 : ((2 * (centesimas y : ℚ) - 1) * n) ≤ 200 * s := by exact_mod_cast i1
  have j2 : (200 * (s : ℚ)) ≤ (2 * (centesimas y : ℚ) + 1) * n := by exact_mod_cast i2
  have d1 : (s : ℚ) / n ≤ (2 * (centesimas y : ℚ) + 1) / 200 := by
    rw [div_le_iff₀ hnq]; linarith
  have d2 : (2 * (centesimas y : ℚ) - 1) / 200 ≤ (s : ℚ) / n := by
    rw [le_div_iff₀ hnq]; linarith
  rw [abs_le]
  constructor <;> linarith

/-! ### Evaluation of the rounding at given numbers -/

theorem exponente_eq (x : ℚ) (e : ℤ) (he : -1022 ≤ e) (h1 : (2 : ℚ) ^ e ≤ |x|)
    (h2 : |x| < (2 : ℚ) ^ (e + 1)) : exponente x = e := by
  have hpos : 0 < |x| := lt_of_lt_of_le (by positivity) h1
  have hl : Int.log 2 |x| = e := by
    apply le_antisymm
    · have := (Int.lt_zpow_iff_log_lt (R := ℚ) (b := 2) (by norm_num) hpos).mp
        (by rw [Nat.cast_ofNat]; exact h2)
      omega
    · exact (Int.zpow_le_iff_le_log (R := ℚ) (b := 2) (by norm_num) hpos).mp
        (by rw [Nat.cast_ofNat]; exact h1)
  unfold exponente; rw [hl]; exact max_eq_left he

theorem redondeoPar_empate (f : ℤ) :
    redondeoPar ((f : ℚ) + 1 / 2) = if f % 2 = 0 then f else f + 1 := by
  have hfl : ⌊(f : ℚ) + 1 / 2⌋ = f := by
    rw [Int.floor_eq_iff]; constructor <;> norm_num
  unfold redondeoPar
  rw [hfl, if_neg (by norm_num), if_neg (by norm_num)]

/-- The double nearest to `x`, for `x` exactly halfway between two doubles. -/
theorem aDoble_empate (x : ℚ) (f e : ℤ) (he : -1022 ≤ e) (h1 : (2 : ℚ) ^ e ≤ |x|)
    (h2 : |x| < (2 : ℚ) ^ (e + 1)) (hf : x / (2 : ℚ) ^ (e - 52) = f + 1 / 2) :
    aDoble x = ((if f % 2 = 0 then f else f + 1 : ℤ) : ℚ) * (2 : ℚ) ^ (e - 52) := by
  unfold aDoble cuanto
  rw [exponente_eq x e he h1 h2, hf, redondeoPar_empate]

/-- The double nearest to a positive `x` that is not halfway between two doubles. -/
theorem aDoble_valor (x r : ℚ) (n e : ℤ) (he : -1022 ≤ e) (h1 : (2 : ℚ) ^ e ≤ x)
    (h2 : x < (2 : ℚ) ^ (e + 1)) (hn : |x / (2 : ℚ) ^ (e - 52) - n| < 1 / 2)
    (hr : r = n * (2 : ℚ) ^ (e - 52)) : aDoble x = r := by
  have hpos : 0 < x := lt_of_lt_of_le (by positivity) h1
  rw [hr]
  exact aDoble_eq x n e he (by rwa [abs_of_pos hpos]) (by rwa [abs_of_pos hpos]) hn

/-- The double nearest to a positive `x` that is halfway between the doubles of
significands `f` and `f + 1`: the even significand is taken. -/
theorem aDoble_valor_empate (x r : ℚ) (f n e : ℤ) (he : -1022 ≤ e) (h1 : (2 : ℚ) ^ e ≤ x)
    (h2 : x < (2 : ℚ) ^ (e + 1)) (hf : x / (2 : ℚ) ^ (e - 52) = f + 1 / 2)
    (hpar : n % 2 = 0) (hn : n = f ∨ n = f + 1)
    (hr : r = n * (2 : ℚ) ^ (e - 52)) : aDoble x = r := by
  have hpos : 0 < x := lt_of_lt_of_le (by positivity) h1
  rw [hr, aDoble_empate x f e he (by rwa [abs_of_pos hpos]) (by rwa [abs_of_pos hpos]) hf]
  congr 2
  rcases hn with rfl | rfl
  · rw [if_pos hpar]
  · have : ¬ (f % 2 = 0) := by omega
    rw [if_neg this]

/-! ### Sums and averages of the reports -/

theorem oCero_esDoble (h : Option ℚ) : esDoble (oCero h) := by
  cases h with
  | none => exact esDoble_cero
  | some q => exact aDoble_esDoble q

theorem sumaHoras_nil : sumaHoras [] = 0 := rfl

/-- Records without `horasAcreditadas` do not change the total. -/
theorem sumaHoras_filtro (evids : List Evidencia) :
    sumaHoras evids = sumaHoras (evids.filter (fun e => e.horasAcreditadas.isSome)) := by
  unfold sumaHoras
  exact foldl_sumar_filtro (fun e : Evidencia => oCero e.horasAcreditadas)
    (fun e => e.horasAcreditadas.isSome)
    (by
      intro e he
      have he2 : e.horasAcreditadas.isSome = false := he
      show oCero e.horasAcreditadas = 0
      cases hh : e.horasAcreditadas with
      | none => rfl
      | some q => rw [hh] at he2; exact absurd he2 (by simp))
    evids 0 esDoble_cero

theorem termino_le_suma (l : List ℚ) (h : ∀ x ∈ l, 0 ≤ x) (x : ℚ) (hx : x ∈ l) : x ≤ l.sum := by
  induction l with
  | nil => exact absurd hx (List.not_mem_nil _)
  | cons y l ih =>
    have hy := h y (List.mem_cons_self _ _)
    have hl : 0 ≤ l.sum := List.sum_nonneg (fun z hz => h z (List.mem_cons_of_mem _ hz))
    rw [List.sum_cons]
    rcases List.mem_cons.mp hx with rfl | hx2
    · linarith
    · have := ih (fun z hz => h z (List.mem_cons_of_mem _ hz)) hx2
      linarith

/-- Hours that are multiples of `1 / 2^j` are added without error as long as their sum is at
most `2^53 / 2^j`. -/
theorem sumaHoras_exacta (j : ℕ) (hj : j ≤ 1074) (evids : List Evidencia)
    (hm : ∀ e ∈ evids, ∀ h, e.horasAcreditadas = some h → ∃ m : ℕ, h = (m : ℚ) / 2 ^ j)
    (hs : (evids.map (fun e => e.horasAcreditadas.getD 0)).sum ≤ 2 ^ 53 / 2 ^ j) :
    sumaHoras evids = (evids.map (fun e => e.horasAcreditadas.getD 0)).sum := by
  have hg : ∀ e ∈ evids, ∃ m : ℕ, e.horasAcreditadas.getD 0 = (m : ℚ) / 2 ^ j := by
    intro e he
    cases hh : e.horasAcreditadas with
    | none => exact ⟨0, by simp⟩
    | some q =>
      obtain ⟨m, hq⟩ := hm e he q hh
      exact ⟨m, by simpa using hq⟩
  have hnn : ∀ x ∈ evids.map (fun e => e.horasAcreditadas.getD 0), (0 : ℚ) ≤ x := by
    intro x hx
    obtain ⟨e, he, rfl⟩ := List.mem_map.mp hx
    obtain ⟨m, hq⟩ := hg e he
    rw [hq]; positivity
  have ho : ∀ e ∈ evids, oCero e.horasAcreditadas = e.horasAcreditadas.getD 0 := by
    intro e he
    cases hh : e.horasAcreditadas with
    | none => rfl
    | some q =>
      obtain ⟨m, hq⟩ := hm e he q hh
      have hle : q ≤ 2 ^ 53 / 2 ^ j := by
        have := termino_le_suma _ hnn q
          (List.mem_map.mpr ⟨e, he, by rw [hh]; rfl⟩)
        linarith
      have hm2 : m ≤ 2 ^ 53 := by
        rw [hq] at hle
        have h2 := (div_le_div_iff_of_pos_right (by positivity : (0 : ℚ) < 2 ^ j)).mp hle
        exact_mod_cast h2
      simp only [oCero, Option.getD_some]
      rw [hq]
      exact aDoble_id _ (esDoble_fraccion m j hm2 hj)
  unfold sumaHoras
  have hext : evids.foldl (fun acc e => sumar acc (oCero e.horasAcreditadas)) 0
      = evids.foldl (fun acc e => sumar acc (e.horasAcreditadas.getD 0)) 0 :=
    List.foldl_ext _ _ 0 (fun acc e he => by rw [ho e he])
  rw [hext]
  have := foldl_sumar_exacta (fun e : Evidencia => e.horasAcreditadas.getD 0) j hj evids 0
    ⟨0, by simp⟩ hg (by rw [zero_add]; exact hs)
  rw [zero_add] at this
  exact this

/-- The total of hours between 0 and `B` differs from the exact sum of the numbers read by
at most the accumulated rounding error. -/
theorem sumaHoras_error (B : ℕ) (hB : 0 < B) (evids : List Evidencia)
    (hr : ∀ e ∈ evids, ∀ h, e.horasAcreditadas = some h → 0 ≤ h ∧ h ≤ B)
    (hn : evids.length * B ≤ 2 ^ 53) :
    |sumaHoras evids - sumaExacta evids|
      ≤ ((evids.length : ℚ) * evids.length * B) / 2 ^ 53 := by
  have hB2 : B ≤ 2 ^ 53 ∨ evids = [] := by
    cases evids with
    | nil => exact Or.inr rfl
    | cons e l =>
      left
      simp only [List.length_cons] at hn
      calc B = 1 * B := by ring
        _ ≤ (l.length + 1) * B := Nat.mul_le_mul_right B (by omega)
        _ ≤ 2 ^ 53 := hn
  rcases hB2 with hB2 | rfl
  · have hf : ∀ e ∈ evids, 0 ≤ oCero e.horasAcreditadas ∧ oCero e.horasAcreditadas ≤ B := by
      intro e he
      cases hh : e.horasAcreditadas with
      | none => exact ⟨le_rfl, by simp [oCero]⟩
      | some q =>
        obtain ⟨q0, q1⟩ := hr e he q hh
        exact ⟨aDoble_nonneg _ q0, aDoble_le _ _ (esDoble_natural B hB2) q1⟩
    have := foldl_sumar_error (fun e : Evidencia => oCero e.horasAcreditadas) B hB evids 0 0
      hf le_rfl (by simp) (by simpa using hn)
    simpa [sumaHoras, sumaExacta] using this
  · simp [sumaHoras, sumaExacta]

theorem promedioAvance_vacio : promedioAvance [] = .numero 0 := by
  simp [promedioAvance]

theorem promedioAvance_eq (avs : List Avance) (h : avs ≠ []) :
    promedioAvance avs = toFixed2 (mediaAvance avs) := by
  have hl : avs.length ≠ 0 := fun h0 => h (List.length_eq_zero.mp h0)
  unfold promedioAvance
  rw [if_pos hl]

theorem leido_rango (q : ℚ) (h : 0 ≤ q ∧ q ≤ 100) : 0 ≤ aDoble q ∧ aDoble q ≤ 100 :=
  ⟨aDoble_nonneg _ h.1, aDoble_le _ 100 esDoble_cien h.2⟩

/-- The rounded sum of percentages between 0 and 100, for a list shorter than `2^32`. -/
theorem sumaAvance_rango (avs : List Avance)
    (h : ∀ a ∈ avs, 0 ≤ a.porcentajeAvance ∧ a.porcentajeAvance ≤ 100)
    (hn : avs.length < 2 ^ 32) :
    0 ≤ sumaAvance avs ∧ sumaAvance avs ≤ (avs.length : ℚ) * 100 := by
  have hk : (0 + avs.length) * 100 ≤ 2 ^ 53 := by rw [Nat.zero_add]; norm_num at hn ⊢; omega
  have := foldl_sumar_cota (fun a : Avance => aDoble a.porcentajeAvance) 100 avs 0 0
    (fun a ha => by simpa using leido_rango _ (h a ha)) le_rfl (by simp) hk
  simpa [sumaAvance] using this

/-- The average of percentages between 0 and 100, for a list shorter than `2^32`, lies
between 0 and 100. -/
theorem mediaAvance_rango (avs : List Avance)
    (h : ∀ a ∈ avs, 0 ≤ a.porcentajeAvance ∧ a.porcentajeAvance ≤ 100)
    (hn : avs.length < 2 ^ 32) :
    0 ≤ mediaAvance avs ∧ mediaAvance avs ≤ 100 := by
  obtain ⟨s0, s1⟩ := sumaAvance_rango avs h hn
  unfold mediaAvance dividir
  refine ⟨aDoble_nonneg _ (by positivity), aDoble_le _ 100 esDoble_cien ?_⟩
  rcases Nat.eq_zero_or_pos avs.length with h0 | h0
  · rw [h0]; simp
  · have hq : (0 : ℚ) < avs.length := by exact_mod_cast h0
    rw [div_le_iff₀ hq]; linarith

theorem media_rango (avs : List Avance)
    (h : ∀ a ∈ avs, 0 ≤ a.porcentajeAvance ∧ a.porcentajeAvance ≤ 100) :
    0 ≤ (avs.map (fun a => aDoble a.porcentajeAvance)).sum ∧
      (avs.map (fun a => aDoble a.porcentajeAvance)).sum ≤ (avs.length : ℚ) * 100 := by
  constructor
  · apply List.sum_nonneg
    intro x hx
    obtain ⟨a, ha, rfl⟩ := List.mem_map.mp hx
    exact (leido_rango _ (h a ha)).1
  · have := List.sum_le_card_nsmul (avs.map (fun a => aDoble a.porcentajeAvance)) 100 (by
      intro x hx
      obtain ⟨a, ha, rfl⟩ := List.mem_map.mp hx
      exact (leido_rango _ (h a ha)).2)
    simpa using this

/-- The computed average of percentages between 0 and 100 differs from the exact mean of
the numbers read by at most `(n + 1) * 100 / 2^53`, for `n < 2^32` records. -/
theorem mediaAvance_error (avs : List Avance) (hne : avs ≠ [])
    (h : ∀ a ∈ avs, 0 ≤ a.porcentajeAvance ∧ a.porcentajeAvance ≤ 100)
    (hn : avs.length < 2 ^ 32) :
    |mediaAvance avs - media avs| ≤ (((avs.length : ℚ) + 1) * 100) / 2 ^ 53 := by
  have hlen : 0 < avs.length := List.length_pos.mpr hne
  have hq : (0 : ℚ) < avs.length := by exact_mod_cast hlen
  obtain ⟨s0, s1⟩ := sumaAvance_rango avs h hn
  have hk : (0 + avs.length) * 100 ≤ 2 ^ 53 := by rw [Nat.zero_add]; norm_num at hn ⊢; omega
  have e1 := foldl_sumar_error (fun a : Avance => aDoble a.porcentajeAvance) 100 (by norm_num)
    avs 0 0 (fun a ha => by simpa using leido_rango _ (h a ha)) le_rfl (by simp) hk
  have e1b : |sumaAvance avs - (avs.map (fun a => aDoble a.porcentajeAvance)).sum|
      ≤ ((avs.length : ℚ) * avs.length * 100) / 2 ^ 53 := by
    simpa [sumaAvance] using e1
  have e2 : |mediaAvance avs - sumaAvance avs / avs.length| ≤ 100 / 2 ^ 53 := by
    unfold mediaAvance dividir
    apply aDoble_error _ 100 (minimo_le 100 (by norm_num))
    rw [abs_of_nonneg (by positivity), div_le_iff₀ hq]; linarith
  have e3 : |sumaAvance avs / avs.length - media avs|
      ≤ ((avs.length : ℚ) * 100) / 2 ^ 53 := by
    unfold media
    rw [← sub_div, abs_div, abs_of_pos hq, div_le_iff₀ hq]
    calc |sumaAvance avs - (avs.map (fun a => aDoble a.porcentajeAvance)).sum|
        ≤ ((avs.length : ℚ) * avs.length * 100) / 2 ^ 53 := e1b
      _ = (avs.length : ℚ) * 100 / 2 ^ 53 * avs.length := by ring
  rw [abs_le] at e2 e3 ⊢
  constructor
  · have : -((((avs.length : ℚ) + 1) * 100) / 2 ^ 53)
        = -(100 / 2 ^ 53) + -((avs.length : ℚ) * 100 / 2 ^ 53) := by ring
    rw [this]; linarith [e2.1, e3.1]
  · have : ((((avs.length : ℚ) + 1) * 100) / 2 ^ 53)
        = (100 / 2 ^ 53) + ((avs.length : ℚ) * 100 / 2 ^ 53) := by ring
    rw [this]; linarith [e2.2, e3.2]

theorem redondear2_nonneg (x : ℚ) (h : 0 ≤ x) : redondear2 x = (centesimas x : ℚ) / 100 := by
  simp only [redondear2, not_lt.mpr h, if_false]

theorem suma_natural {α : Type} (f : α → ℚ) (l : List α) (h : ∀ x ∈ l, ∃ m : ℕ, f x = m) :
    ∃ s : ℕ, (l.map f).sum = s := by
  induction l with
  | nil => exact ⟨0, by simp⟩
  | cons x l ih =>
    obtain ⟨m, hm⟩ := h x (List.mem_cons_self _ _)
    obtain ⟨s, hs⟩ := ih (fun y hy => h y (List.mem_cons_of_mem _ hy))
    exact ⟨m + s, by simp [hm, hs]⟩

/-- For whole percentages between 0 and 100 and fewer than `2^32` records, the average
rounded to two decimals is a number of hundredths nearest to the exact mean. -/
theorem mediaAvance_entera (avs : List Avance) (hne : avs ≠ [])
    (h : ∀ a ∈ avs, ∃ m : ℕ, m ≤ 100 ∧ a.porcentajeAvance = m)
    (hn : avs.length < 2 ^ 32) :
    |redondear2 (mediaAvance avs) - media avs| ≤ 1 / 200 := by
  have hlen : 0 < avs.length := List.length_pos.mpr hne
  have hq : (0 : ℚ) < avs.length := by exact_mod_cast hlen
  have hr : ∀ a ∈ avs, 0 ≤ a.porcentajeAvance ∧ a.porcentajeAvance ≤ 100 := by
    intro a ha
    obtain ⟨m, hm, hq⟩ := h a ha
    rw [hq]
    exact ⟨by positivity, by exact_mod_cast hm⟩
  have hd : ∀ a ∈ avs, ∃ m : ℕ, aDoble a.porcentajeAvance = m := by
    intro a ha
    obtain ⟨m, hm, hq⟩ := h a ha
    refine ⟨m, ?_⟩
    rw [hq]
    exact aDoble_natural m (le_trans hm (by norm_num))
  obtain ⟨s, hs⟩ := suma_natural (fun a : Avance => aDoble a.porcentajeAvance) avs hd
  obtain ⟨m0, m1⟩ := media_rango avs hr
  have hex : sumaAvance avs = s := by
    have := foldl_sumar_exacta (fun a : Avance => aDoble a.porcentajeAvance) 0 (by norm_num)
      avs 0 ⟨0, by simp⟩ (fun a ha => by simpa using hd a ha)
      (by
        rw [zero_add, pow_zero, div_one]
        calc (avs.map (fun a => aDoble a.porcentajeAvance)).sum
            ≤ (avs.length : ℚ) * 100 := m1
          _ ≤ 2 ^ 32 * 100 := by
              have : (avs.length : ℚ) < 2 ^ 32 := by exact_mod_cast hn
              linarith
          _ ≤ 2 ^ 53 := by norm_num)
    rw [zero_add, hs] at this
    exact this
  have hmedia : media avs = (s : ℚ) / avs.length := by unfold media; rw [hs]
  obtain ⟨r0, r1⟩ := mediaAvance_rango avs hr hn
  have e2 : |mediaAvance avs - (s : ℚ) / avs.length| ≤ 1 / 2 ^ 41 := by
    have : |mediaAvance avs - (s : ℚ) / avs.length| ≤ 100 / 2 ^ 53 := by
      unfold mediaAvance dividir
      rw [hex]
      apply aDoble_error _ 100 (minimo_le 100 (by norm_num))
      rw [abs_of_nonneg (by positivity), div_le_iff₀ hq, ← hs]; linarith
    exact le_trans this (by norm_num)
  rw [redondear2_nonneg _ r0, hmedia]
  exact centesimas_cercano _ s avs.length hlen hn r0 e2

theorem porcentaje_aNumero (parte total : Nat) (h : parte ≤ total) :
    (porcentaje parte total).aNumero =
      some (if total = 0 then 0 else redondear2 (razon parte total)) := by
  unfold porcentaje
  by_cases ht : total = 0
  · simp [ht, Valor.aNumero]
  · simp only [ht, ne_eq, not_false_eq_true, if_true, if_false]
    exact toFixed2_aNumero _ (razon_cota parte total h)

/-- For fewer than `2^32` elements, the percentage rounded to two decimals is a number of
hundredths nearest to the exact percentage. -/
theorem razon_cercano (parte total : Nat) (h : parte ≤ total) (ht : total ≠ 0)
    (hn : total < 2 ^ 32) :
    |redondear2 (razon parte total) - (parte : ℚ) / total * 100| ≤ 1 / 200 := by
  obtain ⟨r0, r1⟩ := razon_rango parte total h
  have e := razon_error parte total h
  have e2 : |razon parte total - ((100 * parte : ℕ) : ℚ) / total| ≤ 1 / 2 ^ 41 := by
    have : (((100 * parte : ℕ) : ℚ)) / total = (parte : ℚ) / total * 100 := by
      push_cast; ring
    rw [this]
    exact le_trans e (by norm_num)
  have := centesimas_cercano _ (100 * parte) total (Nat.pos_of_ne_zero ht) hn r0 e2
  rw [redondear2_nonneg _ r0]
  have e3 : (((100 * parte : ℕ) : ℚ)) / total = (parte : ℚ) / total * 100 := by
    push_cast; ring
  rw [e3] at this
  exact this

theorem length_filter_eq_countP {α : Type} (p : α → Bool) (l : List α) :
    (l.filter p).length = l.countP p := by
  rw [List.countP_eq_length_filter]

/-! ### Queries, teacher list and frequency tables -/

theorem buscarTodo_ok (db : Almacen) (f : Filtro) {ps : List Planeacion} {as : List Avance}
    {es : List Evidencia} (hp : db.planeaciones f = .ok ps) (ha : db.avances f = .ok as)
    (he : db.evidencias f = .ok es) : (buscarTodo db f).2 = .ok (ps, as, es) := by
  simp only [buscarTodo, hp, ha, he]

theorem obtenerDatosInstitucional_ok (db : Almacen) (ahora : String) (ciclo : Option String)
    {ps : List Planeacion} {as : List Avance} {es : List Evidencia}
    (hp : db.planeaciones (filtroCiclo ciclo) = .ok ps)
    (ha : db.avances (filtroCiclo ciclo) = .ok as)
    (he : db.evidencias (filtroCiclo ciclo) = .ok es) :
    (obtenerDatosInstitucional db ahora ciclo).2 =
      .ok (datosInstitucional ciclo ahora ps as es) := by
  simp only [obtenerDatosInstitucional, buscarTodo_ok db _ hp ha he]

theorem obtenerDatosProfesor_ok (db : Almacen) (profesor : String) (ciclo : Option String)
    {ps : List Planeacion} {as : List Avance} {es : List Evidencia}
    (hp : db.planeaciones (filtroProfesor profesor ciclo) = .ok ps)
    (ha : db.avances (filtroProfesor profesor ciclo) = .ok as)
    (he : db.evidencias (filtroProfesor profesor ciclo) = .ok es) :
    (obtenerDatosProfesor db profesor ciclo).2 =
      .ok { tipo := "profesor", profesor := profesor, periodo := oCadena ciclo "Todos",
            planeaciones := ps.length, avances := as.length, evidencias := es.length,
            promedioAvance := promedioAvance as } := by
  simp only [obtenerDatosProfesor, buscarTodo_ok db _ hp ha he]

theorem obtenerReportePorProfesor_ok (db : Almacen) (ahora : String) (req : Peticion)
    (profesor : String) (hq : req.profesor = some profesor) (hne : profesor ≠ "")
    {ps : List Planeacion} {as : List Avance} {es : List Evidencia}
    (hp : db.planeaciones (filtroProfesor profesor req.ciclo) = .ok ps)
    (ha : db.avances (filtroProfesor profesor req.ciclo) = .ok as)
    (he : db.evidencias (filtroProfesor profesor req.ciclo) = .ok es) :
    (obtenerReportePorProfesor db ahora req).respuesta =
      { status := 200
        cuerpo := .profesor
          { tipo := "profesor", profesor := profesor
            periodo := oCadena req.ciclo "Todos los ciclos", fechaGeneracion := ahora
            planeaciones := ps.length, avances := as.length, evidencias := es.length
            promedioAvance := promedioAvance as } } := by
  simp only [obtenerReportePorProfesor, hq, hne, if_false, buscarTodo_ok db _ hp ha he]

theorem foldl_set_mem {α : Type} [DecidableEq α] (l s : List α) (x : α) :
    x ∈ l.foldl (fun s x => if x ∈ s then s else s ++ [x]) s ↔ x ∈ s ∨ x ∈ l := by
  induction l generalizing s with
  | nil => simp
  | cons y l ih =>
    rw [List.foldl_cons, ih]
    by_cases hy : y ∈ s
    · simp only [hy, if_true, List.mem_cons]
      constructor
      · rintro (h | h)
        · exact Or.inl h
        · exact Or.inr (Or.inr h)
      · rintro (h | h | h)
        · exact Or.inl h
        · exact Or.inl (h ▸ hy)
        · exact Or.inr h
    · simp only [hy, if_false, List.mem_append, List.mem_singleton, List.mem_cons]
      tauto

theorem foldl_set_nodup {α : Type} [DecidableEq α] (l s : List α) (hs : s.Nodup) :
    (l.foldl (fun s x => if x ∈ s then s else s ++ [x]) s).Nodup := by
  induction l generalizing s with
  | nil => simpa using hs
  | cons y l ih =>
    rw [List.foldl_cons]
    apply ih
    by_cases hy : y ∈ s
    · simpa only [hy, if_true] using hs
    · simp only [hy, if_false]
      exact List.Nodup.append hs (List.nodup_singleton y) (by simpa using hy)

theorem nuevoSet_mem {α : Type} [DecidableEq α] (l : List α) (x : α) :
    x ∈ nuevoSet l ↔ x ∈ l := by
  simp [nuevoSet, foldl_set_mem]

theorem nuevoSet_nodup {α : Type} [DecidableEq α] (l : List α) : (nuevoSet l).Nodup :=
  foldl_set_nodup l [] List.nodup_nil

theorem foldl_set_eq {α : Type} [DecidableEq α] (l s : List α) :
    l.foldl (fun s x => if x ∈ s then s else s ++ [x]) s
      = s ++ (nuevoSet l).filter (fun y => decide (y ∉ s)) := by
  induction l generalizing s with
  | nil => simp [nuevoSet]
  | cons x l ih =>
    have hx : nuevoSet (x :: l) = [x] ++ (nuevoSet l).filter (fun y => decide (y ∉ [x])) := by
      simp only [nuevoSet, List.foldl_cons, List.not_mem_nil, if_false, List.nil_append]
      exact ih [x]
    rw [List.foldl_cons, ih, hx]
    by_cases hs : x ∈ s
    · simp only [hs, if_true, List.filter_append, List.filter_filter]
      have h1 : [x].filter (fun y => decide (y ∉ s)) = [] := by simp [hs]
      rw [h1, List.nil_append]
      congr 1
      apply List.filter_congr
      intro y _
      by_cases hy : y ∈ s
      · simp [hy]
      · have : y ≠ x := fun h => hy (h ▸ hs)
        simp [hy, this]
    · simp only [hs, if_false, List.filter_append, List.filter_filter]
      have h1 : [x].filter (fun y => decide (y ∉ s)) = [x] := by simp [hs]
      rw [h1, List.append_assoc]
      congr 2
      apply List.filter_congr
      intro y _
      by_cases hy : y ∈ s <;> by_cases hyx : y = x <;> simp [hy, hyx]

theorem nuevoSet_cons {α : Type} [DecidableEq α] (x : α) (l : List α) :
    nuevoSet (x :: l) = x :: (nuevoSet l).filter (fun y => decide (y ≠ x)) := by
  have h := foldl_set_eq l [x]
  simp only [nuevoSet, List.foldl_cons, List.not_mem_nil, if_false, List.nil_append] at h ⊢
  rw [h]
  simp

theorem posicion_cons_eq {α : Type} [DecidableEq α] {a b : α} (l : List α) (h : b = a) :
    posicion a (b :: l) = 0 := by
  simp [posicion, List.findIdx_cons, h]

theorem posicion_cons_ne {α : Type} [DecidableEq α] {a b : α} (l : List α) (h : b ≠ a) :
    posicion a (b :: l) = posicion a l + 1 := by
  simp [posicion, List.findIdx_cons, h]

theorem posicion_filterMap_lt {α β : Type} [DecidableEq α] [DecidableEq β] (f : α → Option β)
    (hinj : ∀ x y b, f x = some b → f y = some b → x = y) (a b : β) (a' b' : α)
    (ha : f a' = some a) (hb : f b' = some b) (l : List α) :
    posicion a (l.filterMap f) < posicion b (l.filterMap f) ↔ posicion a' l < posicion b' l := by
  induction l with
  | nil => simp [posicion]
  | cons y l ih =>
    cases hy : f y with
    | none =>
      have h1 : y ≠ a' := fun h => by rw [h, ha] at hy; exact Option.noConfusion hy
      have h2 : y ≠ b' := fun h => by rw [h, hb] at hy; exact Option.noConfusion hy
      rw [List.filterMap_cons_none hy, posicion_cons_ne _ h1, posicion_cons_ne _ h2]
      rw [ih]; omega
    | some c =>
      rw [List.filterMap_cons_some hy]
      by_cases hca : c = a
      · have hya : y = a' := hinj y a' a (hca ▸ hy) ha
        rw [posicion_cons_eq _ hca, posicion_cons_eq _ hya]
        by_cases hcb : c = b
        · have hyb : y = b' := hinj y b' b (hcb ▸ hy) hb
          rw [posicion_cons_eq _ hcb, posicion_cons_eq _ hyb]
        · have hyb : y ≠ b' := fun h => hcb (by
            rw [h, hb] at hy; exact (Option.some.inj hy).symm)
          rw [posicion_cons_ne _ hcb, posicion_cons_ne _ hyb]
          omega
      · have hya : y ≠ a' := fun h => hca (by
          rw [h, ha] at hy; exact (Option.some.inj hy).symm)
        rw [posicion_cons_ne _ hca, posicion_cons_ne _ hya]
        by_cases hcb : c = b
        · have hyb : y = b' := hinj y b' b (hcb ▸ hy) hb
          rw [posicion_cons_eq _ hcb, posicion_cons_eq _ hyb]
          omega
        · have hyb : y ≠ b' := fun h => hcb (by
            rw [h, hb] at hy; exact (Option.some.inj hy).symm)
          rw [posicion_cons_ne _ hcb, posicion_cons_ne _ hyb, Nat.add_lt_add_iff_right,
            Nat.add_lt_add_iff_right, ih]

theorem posicion_filter_lt {α : Type} [DecidableEq α] (p : α → Bool) (a b : α)
    (ha : p a = true) (hb : p b = true) (l : List α) :
    posicion a (l.filter p) < posicion b (l.filter p) ↔ posicion a l < posicion b l := by
  rw [← List.filterMap_eq_filter]
  apply posicion_filterMap_lt (Option.guard fun x => p x = true)
  · intro x y c hx hy
    simp only [Option.guard_eq_some] at hx hy
    exact hx.1.trans hy.1.symm
  · simp [Option.guard_eq_some, ha]
  · simp [Option.guard_eq_some, hb]

theorem posicion_nuevoSet_lt {α : Type} [DecidableEq α] (a b : α) (l : List α) :
    posicion a (nuevoSet l) < posicion b (nuevoSet l) ↔ posicion a l < posicion b l := by
  induction l with
  | nil => simp [nuevoSet, posicion]
  | cons x l ih =>
    rw [nuevoSet_cons]
    by_cases hxa : x = a
    · rw [posicion_cons_eq _ hxa, posicion_cons_eq _ hxa]
      by_cases hxb : x = b
      · rw [posicion_cons_eq _ hxb, posicion_cons_eq _ hxb]
      · rw [posicion_cons_ne _ hxb, posicion_cons_ne _ hxb]; omega
    · rw [posicion_cons_ne _ hxa, posicion_cons_ne _ hxa]
      by_cases hxb : x = b
      · rw [posicion_cons_eq _ hxb, posicion_cons_eq _ hxb]; omega
      · rw [posicion_cons_ne _ hxb, posicion_cons_ne _ hxb, Nat.add_lt_add_iff_right,
          Nat.add_lt_add_iff_right,
          posicion_filter_lt _ a b (by simpa using Ne.symm hxa) (by simpa using Ne.symm hxb), ih]

theorem filtrarBoolean_mem (xs : List (Option String)) (t : String) :
    t ∈ filtrarBoolean xs ↔ t ≠ "" ∧ some t ∈ xs := by
  unfold filtrarBoolean
  rw [List.mem_filterMap]
  constructor
  · rintro ⟨o, ho, h⟩
    cases o with
    | none => exact Option.noConfusion h
    | some s =>
      by_cases hs : s = ""
      · simp [hs] at h
      · simp only [hs, if_false, Option.some.injEq] at h
        subst h; exact ⟨hs, ho⟩
  · rintro ⟨h1, h2⟩
    exact ⟨some t, h2, by simp [h1]⟩

theorem filtrarBoolean_iny (x y : Option String) (b : String)
    (hx : (match x with
      | none => none
      | some s => if s = "" then none else some s) = some b)
    (hy : (match y with
      | none => none
      | some s => if s = "" then none else some s) = some b) : x = y := by
  cases x with
  | none => exact Option.noConfusion hx
  | some s =>
    cases y with
    | none => exact Option.noConfusion hy
    | some u =>
      by_cases hs : s = ""
      · simp [hs] at hx
      · by_cases hu : u = ""
        · simp [hu] at hy
        · simp only [hs, hu, if_false, Option.some.injEq] at hx hy
          rw [hx, hy]

theorem filtrarBoolean_nodup (xs : List (Option String)) (h : xs.Nodup) :
    (filtrarBoolean xs).Nodup := by
  unfold filtrarBoolean
  apply List.Nodup.filterMap _ h
  intro x y b hx hy
  exact filtrarBoolean_iny x y b (Option.mem_def.mp hx) (Option.mem_def.mp hy)

theorem listaProfesores_mem (ps : List Planeacion) (as : List Avance) (es : List Evidencia)
    (t : String) :
    t ∈ listaProfesores ps as es ↔
      t ≠ "" ∧ ((∃ p ∈ ps, p.profesor = some t) ∨ (∃ a ∈ as, a.profesor = some t) ∨
        (∃ e ∈ es, e.profesor = some t)) := by
  unfold listaProfesores
  rw [filtrarBoolean_mem, nuevoSet_mem]
  simp only [List.mem_append, List.mem_map, or_assoc]

theorem listaProfesores_nodup (ps : List Planeacion) (as : List Avance)
    (es : List Evidencia) : (listaProfesores ps as es).Nodup :=
  filtrarBoolean_nodup _ (nuevoSet_nodup _)

theorem docentes_nombres (ciclo : Option String) (ahora : String) (ps : List Planeacion)
    (as : List Avance) (es : List Evidencia) :
    (datosInstitucional ciclo ahora ps as es).docentes.map (fun d => d.profesor)
      = listaProfesores ps as es := by
  simp only [datosInstitucional, List.map_map]
  exact (List.map_congr_left (fun _ _ => rfl)).trans (List.map_id _)

theorem docentesJSON_nombres (ciclo : Option String) (ahora : String) (ps : List Planeacion)
    (as : List Avance) (es : List Evidencia) :
    (reporteInstitucional ciclo ahora ps as es).docentes.map (fun d => d.profesor)
      = listaProfesores ps as es := by
  simp only [reporteInstitucional, List.map_map]
  exact (List.map_congr_left (fun _ _ => rfl)).trans (List.map_id _)

theorem listaProfesores_orden (ps : List Planeacion) (as : List Avance) (es : List Evidencia)
    (t1 t2 : String) (h1 : t1 ≠ "") (h2 : t2 ≠ "") :
    posicion t1 (listaProfesores ps as es) < posicion t2 (listaProfesores ps as es) ↔
      posicion (some t1) (ps.map (fun p => p.profesor) ++ as.map (fun a => a.profesor)
          ++ es.map (fun e => e.profesor))
        < posicion (some t2) (ps.map (fun p => p.profesor) ++ as.map (fun a => a.profesor)
          ++ es.map (fun e => e.profesor)) := by
  unfold listaProfesores filtrarBoolean
  exact (posicion_filterMap_lt _ filtrarBoolean_iny t1 t2 (some t1) (some t2) (by simp [h1])
    (by simp [h2]) _).trans (posicion_nuevoSet_lt _ _ _)

theorem proto_heredada : "__proto__" ∈ clavesHeredadas := by decide

theorem find_clave (T : Objeto) (k : String) (h : k ∈ T.map Prod.fst) :
    ∃ v, T.find? (fun e => e.1 = k) = some (k, v) ∧ (k, v) ∈ T := by
  cases hf : T.find? (fun e => decide (e.1 = k)) with
  | none =>
    rw [List.find?_eq_none] at hf
    obtain ⟨e, he, rfl⟩ := List.mem_map.mp h
    exact absurd (by simp) (hf e he)
  | some e =>
    have h1 : e.1 = k := by simpa using List.find?_some hf
    have h2 : e ∈ T := List.mem_of_find?_eq_some hf
    refine ⟨e.2, ?_, ?_⟩
    · rw [← h1]
    · rw [← h1]; exact h2

theorem incrementar_nuevo (T : Objeto) (k : String) (hk : k ∉ clavesHeredadas)
    (hnew : k ∉ T.map Prod.fst) : incrementar T k = T ++ [(k, .numero 1)] := by
  have hp : k ≠ "__proto__" := fun h => hk (h ▸ proto_heredada)
  have hnone : T.find? (fun e => decide (e.1 = k)) = none := by
    rw [List.find?_eq_none]
    intro e he hek
    exact hnew (List.mem_map.mpr ⟨e, he, by simpa using hek⟩)
  have hany : T.any (fun e => decide (e.1 = k)) = false := by
    rw [List.any_eq_false]
    intro e he hek
    exact hnew (List.mem_map.mpr ⟨e, he, by simpa using hek⟩)
  simp only [incrementar, Objeto.asignar, Objeto.leer, hnone, hk, if_false, hp, hany, masUno,
    Bool.false_eq_true]

theorem incrementar_existente (T : Objeto) (k : String) (n : Nat) (hk : k ∉ clavesHeredadas)
    (hnd : (T.map Prod.fst).Nodup) (hmem : (k, ValorJS.numero n) ∈ T) :
    incrementar T k = T.map (fun e => if e.1 = k then (k, .numero (n + 1)) else e) := by
  have hp : k ≠ "__proto__" := fun h => hk (h ▸ proto_heredada)
  obtain ⟨v, hf, hv⟩ := find_clave T k (List.mem_map.mpr ⟨_, hmem, rfl⟩)
  have hvn : (k, v) = (k, ValorJS.numero n) :=
    List.inj_on_of_nodup_map hnd hv hmem rfl
  have hany : T.any (fun e => decide (e.1 = k)) = true := by
    rw [List.any_eq_true]
    exact ⟨_, hmem, by simp⟩
  rw [hvn] at hf
  simp only [incrementar, Objeto.asignar, Objeto.leer, hf, hp, if_false, hany, if_true, masUno]

/-- On a key that names an inherited property the reducer does not count: `acc[k]` is the
inherited function, and what is stored is not a number. -/
theorem incrementar_heredada :
    incrementar [] "constructor" = [("constructor", .noNumerico)] ∧
      incrementar (incrementar [] "constructor") "constructor"
        = [("constructor", .noNumerico)] ∧
      incrementar [] "__proto__" = [] := by
  decide

/-- Invariant of the counting reducer over keys that are not inherited property names:
every key is an own property once, exactly the keys seen are present, and each holds the
number of times it was seen. -/
theorem tabla_invariante (l : List String) (hl : ∀ k ∈ l, k ∉ clavesHeredadas) :
    ((l.foldl incrementar []).map Prod.fst).Nodup ∧
      (∀ k, k ∈ (l.foldl incrementar []).map Prod.fst ↔ k ∈ l) ∧
      (∀ e ∈ l.foldl incrementar [],
        e.2 = ValorJS.numero (l.countP (fun x => decide (x = e.1)))) := by
  induction l using List.reverseRecOn with
  | nil => simp
  | append_singleton l k ih =>
    obtain ⟨hnd, hkeys, hvals⟩ := ih (fun x hx => hl x (List.mem_append_left _ hx))
    have hk : k ∉ clavesHeredadas := hl k (by simp)
    rw [List.foldl_append, List.foldl_cons, List.foldl_nil]
    by_cases hin : k ∈ (l.foldl incrementar []).map Prod.fst
    · obtain ⟨v, _, hv⟩ := find_clave _ k hin
      have hvk := hvals _ hv
      simp only at hvk
      rw [hvk] at hv
      rw [incrementar_existente _ k _ hk hnd hv]
      have hfst : (List.map (fun e : String × ValorJS =>
          if e.1 = k then (k, ValorJS.numero (l.countP (fun x => decide (x = k)) + 1)) else e)
          (l.foldl incrementar [])).map Prod.fst = (l.foldl incrementar []).map Prod.fst := by
        rw [List.map_map]
        apply List.map_congr_left
        intro e _
        by_cases he : e.1 = k <;> simp [he]
      refine ⟨by rw [hfst]; exact hnd, ?_, ?_⟩
      · intro x
        rw [hfst, hkeys, List.mem_append, List.mem_singleton]
        constructor
        · exact Or.inl
        · rintro (h | h)
          · exact h
          · rw [h]; exact (hkeys k).mp hin
      · intro e he
        obtain ⟨e0, he0, rfl⟩ := List.mem_map.mp he
        by_cases hek : e0.1 = k
        · simp [hek, List.countP_append]
        · have := hvals e0 he0
          have hne : ¬ (k = e0.1) := fun h => hek h.symm
          simp [hek, List.countP_append, this, hne]
    · rw [incrementar_nuevo _ k hk hin]
      have hkl : k ∉ l := fun h => hin ((hkeys k).mpr h)
      refine ⟨?_, ?_, ?_⟩
      · rw [List.map_append]
        exact List.Nodup.append hnd (List.nodup_singleton _) (by simpa using hin)
      · intro x
        rw [List.map_append, List.mem_append, hkeys, List.mem_append]
        simp
      · intro e he
        rcases List.mem_append.mp he with he | he
        · have hek : e.1 ≠ k := fun h =>
            hin (List.mem_map.mpr ⟨e, he, h⟩)
          have hne : ¬ (k = e.1) := fun h => hek h.symm
          simp [List.countP_append, hvals e he, hne]
        · simp only [List.mem_singleton] at he
          subst he
          have h0 : l.countP (fun x => decide (x = k)) = 0 := by
            rw [List.countP_eq_zero]
            intro x hx; simpa using fun h : x = k => hkl (h ▸ hx)
          simp [List.countP_append, h0]

theorem suma_conteos (K l : List String) (hnd : K.Nodup) (hmem : ∀ k, k ∈ K ↔ k ∈ l) :
    (K.map (fun k => l.countP (fun x => decide (x = k)))).sum = l.length := by
  have hperm : K.Perm l.dedup :=
    (List.perm_ext_iff_of_nodup hnd (List.nodup_dedup l)).mpr (fun a => by
      rw [hmem, List.mem_dedup])
  have h := List.sum_map_count_dedup_eq_length l
  rw [← h]
  have hc : ∀ k, l.countP (fun x => decide (x = k)) = l.count k := by
    intro k; simp [List.count, BEq.beq]
  simp only [hc]
  exact (hperm.map _).sum_eq

/-- What the counting reducer builds from a list of records keyed by `f`, when no key is an
inherited property name. -/
theorem tabla_de {α : Type} (f : α → String) (l : List α)
    (hl : ∀ x ∈ l, f x ∉ clavesHeredadas) :
    ((l.foldl (fun acc x => incrementar acc (f x)) []).map Prod.fst).Nodup ∧
      (∀ s, s ∈ (l.foldl (fun acc x => incrementar acc (f x)) []).map Prod.fst ↔
        ∃ x ∈ l, f x = s) ∧
      (∀ s, s ∈ (l.foldl (fun acc x => incrementar acc (f x)) []).map Prod.fst →
        (l.foldl (fun acc x => incrementar acc (f x)) []).leer s
          = some (.numero (l.countP (fun x => decide (f x = s))))) ∧
      (∃ ns : List Nat,
        (l.foldl (fun acc x => incrementar acc (f x)) []).map Prod.snd
          = ns.map ValorJS.numero ∧ ns.sum = l.length) := by
  have hfold : l.foldl (fun acc x => incrementar acc (f x)) []
      = (l.map f).foldl incrementar [] := by rw [List.foldl_map]
  obtain ⟨hnd, hkeys, hvals⟩ := tabla_invariante (l.map f) (by
    intro k hk
    obtain ⟨x, hx, rfl⟩ := List.mem_map.mp hk
    exact hl x hx)
  have hcount : ∀ s, (l.map f).countP (fun x => decide (x = s))
      = l.countP (fun x => decide (f x = s)) := by
    intro s; rw [List.countP_map]; rfl
  rw [hfold]
  refine ⟨hnd, ?_, ?_, ?_⟩
  · intro s; rw [hkeys, List.mem_map]
  · intro s hs
    obtain ⟨v, hf, hv⟩ := find_clave _ s hs
    have := hvals _ hv
    simp only at this
    simp only [Objeto.leer, hf, this, hcount]
  · refine ⟨((l.map f).foldl incrementar []).map
      (fun e => (l.map f).countP (fun x => decide (x = e.1))), ?_, ?_⟩
    · rw [List.map_map]
      apply List.map_congr_left
      intro e he
      exact hvals e he
    · have h := suma_conteos _ (l.map f) hnd hkeys
      rw [List.map_map] at h
      rw [List.length_map] at h
      exact h

theorem porcentaje_ceroOFijo (parte total : Nat) (h : parte ≤ total) :
    ceroOFijo (porcentaje parte total) (decide (total = 0)) (razon parte total) = true := by
  unfold porcentaje
  by_cases ht : total = 0
  · simp [ht, ceroOFijo]
  · obtain ⟨s, hs, h2, hl⟩ := toFixed2_fijo _ (razon_cota parte total h)
    simp only [ht, ne_eq, not_false_eq_true, if_true, hs, ceroOFijo, decide_False, Bool.not_false,
      h2, hl, decide_True, Bool.and_self]

theorem promedioAvance_ceroOFijo (avs : List Avance) (h : |mediaAvance avs| < 10 ^ 21) :
    ceroOFijo (promedioAvance avs) avs.isEmpty (mediaAvance avs) = true := by
  cases avs with
  | nil => simp [promedioAvance, ceroOFijo]
  | cons a l =>
    obtain ⟨s, hs, h2, hl⟩ := toFixed2_fijo _ h
    rw [promedioAvance_eq _ (List.cons_ne_nil a l), hs]
    simp only [ceroOFijo, List.isEmpty_cons, Bool.not_false, h2, hl, decide_True, Bool.and_self]

theorem aDoble_80 : aDoble 80 = 80 :=
  aDoble_id _ ⟨80, 0, by norm_num, by norm_num, by norm_num⟩

theorem aDoble_5 : aDoble 5 = 5 :=
  aDoble_id _ ⟨5, 0, by norm_num, by norm_num, by norm_num⟩

theorem aDoble_100 : aDoble 100 = 100 := aDoble_id _ esDoble_cien

theorem aDoble_1 : aDoble 1 = 1 := aDoble_id _ esDoble_uno

/-- All of a non-empty collection: the percentage is exactly 100. -/
theorem razon_todo (n : Nat) (h : n ≠ 0) : razon n n = 100 := by
  have hq : (n : ℚ) ≠ 0 := by exact_mod_cast h
  unfold razon multiplicar dividir
  rw [div_self hq, aDoble_1, one_mul, aDoble_100]

theorem razon_1_2 : razon 1 2 = 50 := by
  unfold razon multiplicar dividir
  have h1 : aDoble ((1 : ℕ) / (2 : ℕ) : ℚ) = 1 / 2 := by
    have : ((1 : ℕ) / (2 : ℕ) : ℚ) = 1 / 2 := by norm_num
    rw [this]
    exact aDoble_id _ ⟨1, -1, by norm_num, by norm_num, by norm_num⟩
  rw [h1, show ((1 : ℚ) / 2 * 100) = 50 by norm_num]
  exact aDoble_id _ ⟨50, 0, by norm_num, by norm_num, by norm_num⟩

/-! ## Properties of the reports -/

/-- C1. In the Ana scenario (two plans of "Ana", one approved and one with a rejected status,
whatever that status is called; one progress record of "Ana" at 80 percent, compliant; one
validated evidence of "Ana" worth 5 hours), whatever the subjects, names, cycles and cycle
filter, `obtenerDatosInstitucional` resolves to a report with exactly one teacher entry, for
"Ana", with the stated counts, average "80.00" and 5 hours, and with approval rate "50.00"
and compliance rate "100.00". -/
theorem C1_escenario_ana (db : Almacen) (ahora : String) (ciclo : Option String)
    (rechazado m1 m2 m3 n1 c1 c2 c3 c4 : String)
    (hr : rechazado ≠ "aprobado") (hh : rechazado ∉ clavesHeredadas)
    (hp : db.planeaciones (filtroCiclo ciclo) =
      .ok [⟨some "Ana", m1, "aprobado", c1⟩, ⟨some "Ana", m2, rechazado, c2⟩])
    (ha : db.avances (filtroCiclo ciclo) = .ok [⟨some "Ana", m3, 80, "cumplido", c3⟩])
    (he : db.evidencias (filtroCiclo ciclo) =
      .ok [⟨some "Ana", n1, some 5, "validada", c4⟩]) :
    ∃ rep, (obtenerDatosInstitucional db ahora ciclo).2 = .ok rep ∧
      rep.docentes =
        [{ profesor := "Ana"
           totalPlaneaciones := 2
           planeacionesPorEstado := [("aprobado", .numero 1), (rechazado, .numero 1)]
           totalAvances := 1
           promedioAvance := .cadena "80.00"
           cumplimientoAvances := [("cumplido", .numero 1)]
           totalEvidencias := 1
           horasCapacitacion := 5
           evidenciasValidadas := 1 }] ∧
      rep.totales.porcentajeAprobacion = .cadena "50.00" ∧
      rep.totales.porcentajeCumplimiento = .cadena "100.00" := by
  refine ⟨_, obtenerDatosInstitucional_ok db ahora ciclo hp ha he, ?_, ?_, ?_⟩
  · have hne : ("Ana" : String) ≠ "" := by decide
    have h1 : ¬ ("aprobado" = rechazado) := fun h => hr h.symm
    have h2 : ¬ ("aprobado" = "__proto__") := by decide
    have h3 : ¬ (rechazado = "__proto__") := fun h => hh (h ▸ proto_heredada)
    have h4 : ¬ ("cumplido" = "__proto__") := by decide
    have h5 : "aprobado" ∉ clavesHeredadas := by decide
    have h7 : "cumplido" ∉ clavesHeredadas := by decide
    simp [datosInstitucional, listaProfesores, nuevoSet, filtrarBoolean, detalleProfesor,
      promedioAvance, mediaAvance, sumaAvance, sumar, dividir, sumaHoras, oCero, incrementar,
      Objeto.asignar, Objeto.leer, masUno, hne, h1, h2, h3, h4, h5, hh, h7, aDoble_80, aDoble_5,
      toFixed2_80]
  · simp [datosInstitucional, porcentaje, List.filter, hr, razon_1_2, toFixed2_50]
  · simp [datosInstitucional, porcentaje, List.filter, razon_todo, toFixed2_100]

/-- C1 on a store that holds exactly the records of the scenario, the rejected status being
"rechazado". -/
theorem C1_escenario_ana_witness :
    ∃ rep, (obtenerDatosInstitucional (almacenFijo planesAna avancesAna evidenciasAna)
        "2024-06-01T00:00:00.000Z" none).2 = .ok rep ∧
      rep.docentes =
        [{ profesor := "Ana"
           totalPlaneaciones := 2
           planeacionesPorEstado := [("aprobado", .numero 1), ("rechazado", .numero 1)]
           totalAvances := 1
           promedioAvance := .cadena "80.00"
           cumplimientoAvances := [("cumplido", .numero 1)]
           totalEvidencias := 1
           horasCapacitacion := 5
           evidenciasValidadas := 1 }] ∧
      rep.totales.porcentajeAprobacion = .cadena "50.00" ∧
      rep.totales.porcentajeCumplimiento = .cadena "100.00" :=
  C1_escenario_ana (almacenFijo planesAna avancesAna evidenciasAna) _ none "rechazado"
    "Algebra" "Fisica" "Algebra" "Curso" "2024" "2024" "2024" "2024" (by decide) (by decide)
    rfl rfl rfl

/-- C2, as stated, fails: with one approved plan out of three the reported approval rate is
the text "33.33", which denotes 3333/100 and not 1/3 * 100. -/
theorem C2_contraejemplo :
    (datosInstitucional none "" planesTercio [] []).totales.porcentajeAprobacion
        = .cadena "33.33" ∧
      (datosInstitucional none "" planesTercio [] []).totales.porcentajeAprobacion.aNumero
        ≠ some (((planesTercio.countP (fun p => p.estado = "aprobado") : ℕ) : ℚ)
            / planesTercio.length * 100) := by
  have hv : (datosInstitucional none "" planesTercio [] []).totales.porcentajeAprobacion
      = .cadena "33.33" := by
    obtain ⟨r0, r1⟩ := razon_rango 1 3 (by norm_num)
    have e := razon_error 1 3 (by norm_num)
    rw [abs_le] at e
    obtain ⟨e1, e2⟩ := e
    simp [datosInstitucional, porcentaje, planesTercio, List.filter]
    norm_num at e1 e2
    rw [toFixed2_of_nonneg _ r0 (by linarith),
      centesimas_eq _ 3333 (by norm_num; linarith) (by norm_num; linarith)]
    simp [textoFijo, digitos]
    decide
  refine ⟨hv, ?_⟩
  rw [hv]
  have hl : leerDecimal "33.33" = some (3333 / 100) := by
    have := leerDecimal_fijo ['3', '3'] '3' '3' (by simp) (by decide) (by decide) (by decide)
    rw [show valorDigitos ['3', '3'] * 100 + valorDigitos ['3', '3'] = 3333 by decide] at this
    exact_mod_cast this
  simp only [Valor.aNumero, hl, planesTercio]
  simp [List.countP_cons]
  norm_num

/-- The percentage of the elements of a list that satisfy a test: the number 0 for the empty
list, and otherwise, for fewer than `2^32` elements, a number of hundredths within 0.005 of
the exact percentage. -/
theorem porcentaje_cercano {α : Type} (p : α → Bool) (l : List α) :
    (l = [] → porcentaje (l.countP p) l.length = .numero 0) ∧
      (l ≠ [] → l.length < 2 ^ 32 →
        ∃ k : ℕ, (porcentaje (l.countP p) l.length).aNumero = some ((k : ℚ) / 100) ∧
          |(k : ℚ) / 100 - (l.countP p : ℚ) / l.length * 100| ≤ 1 / 200) := by
  constructor
  · intro h; subst h; simp [porcentaje]
  · intro hne hn
    have hl : l.length ≠ 0 := fun h0 => hne (List.length_eq_zero.mp h0)
    have hle : l.countP p ≤ l.length := List.countP_le_length p
    obtain ⟨r0, _⟩ := razon_rango _ _ hle
    refine ⟨centesimas (razon (l.countP p) l.length), ?_, ?_⟩
    · rw [porcentaje_aNumero _ _ hle, if_neg hl, redondear2_nonneg _ r0]
    · rw [← redondear2_nonneg _ r0]
      exact razon_cercano _ _ hle hl hn

/-- C2, amended. The approval rate of both institutional reports is the number 0 when there
is no plan; otherwise it denotes a number of hundredths that is within 0.005 of the ratio of
approved plans to all plans, times 100: the nearest one, and either of the two nearest when
the exact value lies halfway. The compliance rate is the same with compliant progress
records. Both ratios are over all records, with or without teacher. The lists are shorter
than `2^32`, as every array is. -/
theorem C2_porcentajes (ciclo : Option String) (ahora : String) (ps : List Planeacion)
    (as : List Avance) (es : List Evidencia) :
    ((ps = [] →
        (datosInstitucional ciclo ahora ps as es).totales.porcentajeAprobacion = .numero 0) ∧
      (ps ≠ [] → ps.length < 2 ^ 32 →
        ∃ k : ℕ,
          (datosInstitucional ciclo ahora ps as es).totales.porcentajeAprobacion.aNumero
            = some ((k : ℚ) / 100) ∧
          |(k : ℚ) / 100 - (ps.countP (fun p => p.estado = "aprobado") : ℚ) / ps.length * 100|
            ≤ 1 / 200)) ∧
    ((as = [] →
        (datosInstitucional ciclo ahora ps as es).totales.porcentajeCumplimiento = .numero 0) ∧
      (as ≠ [] → as.length < 2 ^ 32 →
        ∃ k : ℕ,
          (datosInstitucional ciclo ahora ps as es).totales.porcentajeCumplimiento.aNumero
            = some ((k : ℚ) / 100) ∧
          |(k : ℚ) / 100
              - (as.countP (fun a => a.cumplimiento = "cumplido") : ℚ) / as.length * 100|
            ≤ 1 / 200)) ∧
    (reporteInstitucional ciclo ahora ps as es).resumenGeneral.porcentajeAprobacion =
      (datosInstitucional ciclo ahora ps as es).totales.porcentajeAprobacion ∧
    (reporteInstitucional ciclo ahora ps as es).resumenGeneral.porcentajeCumplimiento =
      (datosInstitucional ciclo ahora ps as es).totales.porcentajeCumplimiento := by
  have hP := porcentaje_cercano (fun p : Planeacion => decide (p.estado = "aprobado")) ps
  have hA := porcentaje_cercano (fun a : Avance => decide (a.cumplimiento = "cumplido")) as
  refine ⟨?_, ?_, rfl, rfl⟩
  · simpa only [datosInstitucional, length_filter_eq_countP] using hP
  · simpa only [datosInstitucional, length_filter_eq_countP] using hA

/-- C2 (amended) on three plans of which one is approved: the approval rate denotes a number
of hundredths within 0.005 of one third of 100. -/
theorem C2_porcentajes_witness :
    ∃ k : ℕ,
      (datosInstitucional none "" planesTercio [] []).totales.porcentajeAprobacion.aNumero
        = some ((k : ℚ) / 100) ∧
      |(k : ℚ) / 100 - (planesTercio.countP (fun p => p.estado = "aprobado") : ℚ)
          / planesTercio.length * 100| ≤ 1 / 200 :=
  (C2_porcentajes none "" planesTercio [] []).1.2 (by decide) (by decide)

/-- C3. With no progress record at all the overall compliance rate of both institutional
reports is the number 0; a teacher entry whose teacher has no progress record has average 0
in both reports; and when the store returns no progress record for a teacher, the teacher
report and the teacher export data are produced (status 200, no rejection) with
average 0. -/
theorem C3_sin_avances (db : Almacen) (ahora : String) (req : Peticion) (profesor : String)
    (ciclo : Option String) (ps : List Planeacion) (as : List Avance) (es : List Evidencia)
    (psT : List Planeacion) (esT : List Evidencia)
    (hq : req.profesor = some profesor) (hne : profesor ≠ "")
    (hp : db.planeaciones (filtroProfesor profesor req.ciclo) = .ok psT)
    (ha : db.avances (filtroProfesor profesor req.ciclo) = .ok [])
    (he : db.evidencias (filtroProfesor profesor req.ciclo) = .ok esT) :
    (datosInstitucional ciclo ahora ps [] es).totales.porcentajeCumplimiento = .numero 0 ∧
      (reporteInstitucional ciclo ahora ps [] es).resumenGeneral.porcentajeCumplimiento
        = .numero 0 ∧
      (∀ d ∈ (datosInstitucional ciclo ahora ps as es).docentes,
        (∀ a ∈ as, a.profesor ≠ some d.profesor) → d.promedioAvance = .numero 0) ∧
      (∀ d ∈ (reporteInstitucional ciclo ahora ps as es).docentes,
        (∀ a ∈ as, a.profesor ≠ some d.profesor) → d.resumen.promedioAvance = .numero 0) ∧
      (∃ r, (obtenerReportePorProfesor db ahora req).respuesta
          = { status := 200, cuerpo := .profesor r } ∧ r.promedioAvance = .numero 0) ∧
      (∃ d, (obtenerDatosProfesor db profesor req.ciclo).2 = .ok d ∧
          d.promedioAvance = .numero 0) := by
  have hf : ∀ t : String, (∀ a ∈ as, a.profesor ≠ some t) →
      as.filter (fun a => a.profesor = some t) = [] := by
    intro t ht
    rw [List.filter_eq_nil_iff]
    intro a ha; simpa using ht a ha
  refine ⟨by simp [datosInstitucional, porcentaje], by simp [reporteInstitucional, porcentaje],
    ?_, ?_, ?_, ?_⟩
  · intro d hd ht
    simp only [datosInstitucional, List.mem_map] at hd
    obtain ⟨t, _, rfl⟩ := hd
    simp only [detalleProfesor, hf t ht, promedioAvance_vacio]
  · intro d hd ht
    simp only [reporteInstitucional, List.mem_map] at hd
    obtain ⟨t, _, rfl⟩ := hd
    simp only [docenteJSON, hf t ht, promedioAvance_vacio]
  · exact ⟨_, obtenerReportePorProfesor_ok db ahora req profesor hq hne hp ha he,
      promedioAvance_vacio⟩
  · exact ⟨_, obtenerDatosProfesor_ok db profesor req.ciclo hp ha he, promedioAvance_vacio⟩

/-- C3 on a store without progress records for "Ana", and on the entry of "Ana" in a report
whose only progress record belongs to "Eva". -/
theorem C3_sin_avances_witness :
    (datosInstitucional none "" planesAna [] evidenciasAna).totales.porcentajeCumplimiento
        = .numero 0 ∧
      (detalleProfesor planesAna avancesEva evidenciasAna "Ana").promedioAvance = .numero 0 ∧
      (∃ r, (obtenerReportePorProfesor (almacenFijo planesAna [] evidenciasAna) ""
          { tipo := none, formato := none, ciclo := none, profesor := some "Ana" }).respuesta
          = { status := 200, cuerpo := .profesor r } ∧ r.promedioAvance = .numero 0) := by
  have h := C3_sin_avances (almacenFijo planesAna [] evidenciasAna) ""
    { tipo := none, formato := none, ciclo := none, profesor := some "Ana" } "Ana" none
    planesAna avancesEva evidenciasAna planesAna evidenciasAna rfl (by decide) rfl rfl rfl
  refine ⟨?_, h.2.2.1 (detalleProfesor planesAna avancesEva evidenciasAna "Ana") ?_ ?_,
    h.2.2.2.2.1⟩
  · simp [datosInstitucional, porcentaje]
  · simp only [datosInstitucional]
    exact List.mem_map.mpr ⟨"Ana", (listaProfesores_mem _ _ _ _).mpr
      ⟨by decide, Or.inl ⟨_, List.mem_cons_self _ _, rfl⟩⟩, rfl⟩
  · intro a ha
    simp only [avancesEva, List.mem_singleton] at ha
    subst ha
    decide

theorem sumaAvance_cuarenta : sumaAvance avancesCuarenta = 3 := by
  have hmem : ∀ a ∈ avancesCuarenta, a = avanceDe 1 ∨ a = avanceDe 0 := by
    intro a ha
    rcases List.mem_append.mp ha with h | h
    · exact Or.inl (List.eq_of_mem_replicate h)
    · exact Or.inr (List.eq_of_mem_replicate h)
  have hsum : (avancesCuarenta.map (fun a => aDoble a.porcentajeAvance)).sum = 3 := by
    simp only [avancesCuarenta, List.map_append, List.map_replicate, List.sum_append,
      List.sum_replicate, avanceDe, aDoble_1, aDoble_cero]
    norm_num
  have := foldl_sumar_exacta (fun a : Avance => aDoble a.porcentajeAvance) 0 (by norm_num)
    avancesCuarenta 0 ⟨0, by simp⟩
    (by
      intro a ha
      rcases hmem a ha with rfl | rfl
      · exact ⟨1, by simp [avanceDe, aDoble_1]⟩
      · exact ⟨0, by simp [avanceDe, aDoble_cero]⟩)
    (by rw [hsum]; norm_num)
  rw [hsum, zero_add] at this
  exact this

theorem length_cuarenta : avancesCuarenta.length = 40 := by
  simp [avancesCuarenta]

theorem media_cuarenta : media avancesCuarenta = 3 / 40 := by
  have hsum : (avancesCuarenta.map (fun a => aDoble a.porcentajeAvance)).sum = 3 := by
    simp only [avancesCuarenta, List.map_append, List.map_replicate, List.sum_append,
      List.sum_replicate, avanceDe, aDoble_1, aDoble_cero]
    norm_num
  unfold media
  rw [hsum, length_cuarenta]
  norm_num

theorem mediaAvance_cuarenta :
    mediaAvance avancesCuarenta = 5404319552844595 / 72057594037927936 := by
  unfold mediaAvance dividir
  rw [sumaAvance_cuarenta, length_cuarenta]
  exact aDoble_valor _ _ 5404319552844595 (-4) (by norm_num) (by norm_num) (by norm_num)
    (by norm_num [abs_lt]) (by norm_num)

theorem promedioAvance_cuarenta : promedioAvance avancesCuarenta = .cadena "0.07" := by
  unfold promedioAvance
  rw [if_pos (by rw [length_cuarenta]; norm_num), mediaAvance_cuarenta,
    toFixed2_of_nonneg _ (by norm_num) (by norm_num),
    centesimas_eq _ 7 (by norm_num) (by norm_num)]
  simp [textoFijo, digitos]
  decide

theorem aDoble_9999 : aDoble (9999 / 100) = 7036170730324623 / 70368744177664 :=
  aDoble_valor _ _ 7036170730324623 6 (by norm_num) (by norm_num) (by norm_num)
    (by norm_num [abs_lt]) (by norm_num)

theorem mediaAvance_casiCien :
    mediaAvance avancesCasiCien = 879565321755689 / 8796093022208 := by
  have h1 : aDoble (7036170730324623 / 70368744177664) = 7036170730324623 / 70368744177664 := by
    rw [← aDoble_9999]; exact aDoble_id _ (aDoble_esDoble _)
  have h2 : aDoble (7036170730324623 / 70368744177664 + 100)
      = 879565321755689 / 4398046511104 :=
    aDoble_valor_empate _ _ 7036522574045511 7036522574045512 7 (by norm_num) (by norm_num)
      (by norm_num) (by norm_num) (by norm_num) (by norm_num) (by norm_num)
  have h3 : aDoble (879565321755689 / 8796093022208) = 879565321755689 / 8796093022208 :=
    aDoble_valor _ _ 7036522574045512 6 (by norm_num) (by norm_num) (by norm_num)
      (by norm_num [abs_lt]) (by norm_num)
  simp only [mediaAvance, dividir, sumaAvance, avancesCasiCien, avanceDe, List.foldl_cons,
    List.foldl_nil, sumar, zero_add, aDoble_9999, aDoble_100, h1, h2, List.length_cons,
    List.length_nil]
  norm_num
  exact h3

theorem promedioAvance_casiCien : promedioAvance avancesCasiCien = .cadena "100.00" := by
  unfold promedioAvance
  rw [if_pos (by simp [avancesCasiCien]), mediaAvance_casiCien,
    toFixed2_of_nonneg _ (by norm_num) (by norm_num),
    centesimas_eq _ 10000 (by norm_num) (by norm_num)]
  simp [textoFijo, digitos]
  decide

theorem media_casiCien :
    media avancesCasiCien = (7036170730324623 / 70368744177664 + 100) / 2 := by
  simp only [media, avancesCasiCien, avanceDe, List.map_cons, List.map_nil, List.sum_cons,
    List.sum_nil, aDoble_9999, aDoble_100, List.length_cons, List.length_nil]
  norm_num

theorem filtro_ana (l : List Avance) (h : ∀ a ∈ l, a.profesor = some "Ana") :
    l.filter (fun a => a.profesor = some "Ana") = l :=
  List.filter_eq_self.mpr (fun a ha => by simpa using h a ha)

theorem leerDecimal_007 : leerDecimal "0.07" = some (7 / 100) := by
  have := leerDecimal_fijo ['0'] '0' '7' (by simp) (by decide) (by decide) (by decide)
  rw [show valorDigitos ['0'] * 100 + valorDigitos ['0', '7'] = 7 by decide] at this
  rw [show ("0.07" : String) = String.mk (['0'] ++ ['.', '0', '7']) by decide, this]
  norm_num

theorem leerDecimal_100 : leerDecimal "100.00" = some 100 := by
  have := leerDecimal_fijo ['1', '0', '0'] '0' '0' (by simp) (by decide) (by decide)
    (by decide)
  rw [show valorDigitos ['1', '0', '0'] * 100 + valorDigitos ['0', '0'] = 10000 by decide]
    at this
  rw [show ("100.00" : String) = String.mk (['1', '0', '0'] ++ ['.', '0', '0']) by decide,
    this]
  norm_num

/-- C4, as stated, fails. With three progress records at 1 percent and thirty-seven at 0
percent the exact mean is 0.075, which rounded to two decimals is 0.08, and the reported
average is "0.07": the quotient 3 / 40 is the double just below 0.075. With two progress
records at 99.99 and 100 percent the reported average is "100.00", which differs from the
exact mean of the two numbers read by more than 0.005: the sum of the two doubles is rounded
upwards. Both hold in the teacher report and in the entry of the institutional report. -/
theorem C4_contraejemplo :
    ((∃ r, (obtenerReportePorProfesor (almacenFijo [] avancesCuarenta []) "" peticionAna).respuesta
          = { status := 200, cuerpo := .profesor r } ∧ r.promedioAvance = .cadena "0.07") ∧
      (detalleProfesor [] avancesCuarenta [] "Ana").promedioAvance = .cadena "0.07" ∧
      (Valor.cadena "0.07").aNumero = some (7 / 100) ∧
      media avancesCuarenta = 3 / 40 ∧
      redondear2 (media avancesCuarenta) = 8 / 100) ∧
    ((∃ r, (obtenerReportePorProfesor (almacenFijo [] avancesCasiCien []) "" peticionAna).respuesta
          = { status := 200, cuerpo := .profesor r } ∧ r.promedioAvance = .cadena "100.00") ∧
      (detalleProfesor [] avancesCasiCien [] "Ana").promedioAvance = .cadena "100.00" ∧
      (Valor.cadena "100.00").aNumero = some 100 ∧
      1 / 200 < |100 - media avancesCasiCien|) := by
  have hmem : ∀ a ∈ avancesCuarenta, a.profesor = some "Ana" := by
    intro a ha
    rcases List.mem_append.mp ha with h | h
    · rw [List.eq_of_mem_replicate h]; rfl
    · rw [List.eq_of_mem_replicate h]; rfl
  have hmem2 : ∀ a ∈ avancesCasiCien, a.profesor = some "Ana" := by
    intro a ha
    simp only [avancesCasiCien, List.mem_cons, List.mem_singleton, List.not_mem_nil,
      or_false] at ha
    rcases ha with rfl | rfl <;> rfl
  refine ⟨⟨⟨_, obtenerReportePorProfesor_ok (almacenFijo [] avancesCuarenta []) ""
      peticionAna "Ana" rfl (by decide) rfl rfl rfl, promedioAvance_cuarenta⟩, ?_,
      leerDecimal_007, media_cuarenta, ?_⟩,
    ⟨⟨_, obtenerReportePorProfesor_ok (almacenFijo [] avancesCasiCien []) ""
      peticionAna "Ana" rfl (by decide) rfl rfl rfl, promedioAvance_casiCien⟩, ?_,
      leerDecimal_100, ?_⟩⟩
  · simp only [detalleProfesor, filtro_ana _ hmem, promedioAvance_cuarenta]
  · rw [media_cuarenta, redondear2_nonneg _ (by norm_num),
      centesimas_eq _ 8 (by norm_num) (by norm_num)]
    norm_num
  · simp only [detalleProfesor, filtro_ana _ hmem2, promedioAvance_casiCien]
  · rw [media_casiCien, abs_of_nonneg (by norm_num)]
    norm_num

/-- The average over a non-empty list of fewer than `2^32` progress records whose
percentages lie between 0 and 100. -/
theorem promedioAvance_cercano (avs : List Avance) (hne : avs ≠ [])
    (h : ∀ a ∈ avs, 0 ≤ a.porcentajeAvance ∧ a.porcentajeAvance ≤ 100)
    (hn : avs.length < 2 ^ 32) : promedioCercano (promedioAvance avs) avs := by
  obtain ⟨r0, r1⟩ := mediaAvance_rango avs h hn
  have hb : |mediaAvance avs| < 10 ^ 21 := by
    rw [abs_of_nonneg r0]
    calc mediaAvance avs ≤ 100 := r1
      _ < 10 ^ 21 := by norm_num
  refine ⟨centesimas (mediaAvance avs), ?_, ?_, ?_⟩
  · rw [promedioAvance_eq _ hne, toFixed2_aNumero _ hb, redondear2_nonneg _ r0]
  · rw [← redondear2_nonneg _ r0]
    have e1 := redondear2_cerca (mediaAvance avs)
    have e2 := mediaAvance_error avs hne h hn
    rw [abs_le] at e1 e2 ⊢
    constructor <;> linarith [e1.1, e1.2, e2.1, e2.2]
  · intro hent
    rw [← redondear2_nonneg _ r0]
    apply mediaAvance_entera avs hne _ hn
    intro a ha
    obtain ⟨m, hm⟩ := hent a ha
    refine ⟨m, ?_, hm⟩
    have := (h a ha).2
    rw [hm] at this
    exact_mod_cast this

/-- C4, amended. The percentages lie between 0 and 100 and the lists are shorter than `2^32`.
For a teacher entry of either institutional report whose teacher has at least one progress
record, the average denotes a number of hundredths that differs from the exact mean of
`porcentajeAvance` over the progress records of that teacher by at most 0.005 plus the
rounding errors of the additions and of the division, `(n + 1) * 100 / 2^53` for `n`
records, and by at most 0.005 when the percentages are whole numbers; the teacher report and
the teacher export data query the store for that teacher and do the same over the progress
records returned. -/
theorem C4_promedio (db : Almacen) (ahora : String) (req : Peticion) (profesor : String)
    (ciclo : Option String) (ps : List Planeacion) (as : List Avance) (es : List Evidencia)
    (psT : List Planeacion) (asT : List Avance) (esT : List Evidencia)
    (hq : req.profesor = some profesor) (hne : profesor ≠ "")
    (hp : db.planeaciones (filtroProfesor profesor req.ciclo) = .ok psT)
    (ha : db.avances (filtroProfesor profesor req.ciclo) = .ok asT)
    (he : db.evidencias (filtroProfesor profesor req.ciclo) = .ok esT)
    (hT : asT ≠ [])
    (hrT : ∀ a ∈ asT, 0 ≤ a.porcentajeAvance ∧ a.porcentajeAvance ≤ 100)
    (hr : ∀ a ∈ as, 0 ≤ a.porcentajeAvance ∧ a.porcentajeAvance ≤ 100)
    (hnT : asT.length < 2 ^ 32) (hn : as.length < 2 ^ 32) :
    (∀ d ∈ (datosInstitucional ciclo ahora ps as es).docentes,
        (∃ a ∈ as, a.profesor = some d.profesor) →
        promedioCercano d.promedioAvance (as.filter (fun a => a.profesor = some d.profesor))) ∧
      (∀ d ∈ (reporteInstitucional ciclo ahora ps as es).docentes,
        (∃ a ∈ as, a.profesor = some d.profesor) →
        promedioCercano d.resumen.promedioAvance
          (as.filter (fun a => a.profesor = some d.profesor))) ∧
      (filtroProfesor profesor req.ciclo).profesor = some profesor ∧
      (∃ r, (obtenerReportePorProfesor db ahora req).respuesta
          = { status := 200, cuerpo := .profesor r } ∧
          promedioCercano r.promedioAvance asT) ∧
      (∃ d, (obtenerDatosProfesor db profesor req.ciclo).2 = .ok d ∧
          promedioCercano d.promedioAvance asT) := by
  have hroll : ∀ t : String, (∃ a ∈ as, a.profesor = some t) →
      promedioCercano (promedioAvance (as.filter (fun a => a.profesor = some t)))
        (as.filter (fun a => a.profesor = some t)) := by
    intro t ht
    have hf : as.filter (fun a => a.profesor = some t) ≠ [] := by
      obtain ⟨a, ha1, ha2⟩ := ht
      exact List.ne_nil_of_mem (List.mem_filter.mpr ⟨ha1, by simpa using ha2⟩)
    exact promedioAvance_cercano _ hf (fun a ha => hr a (List.mem_of_mem_filter ha))
      (lt_of_le_of_lt (List.length_filter_le _ _) hn)
  have hrep := promedioAvance_cercano asT hT hrT hnT
  refine ⟨?_, ?_, ?_,
    ⟨_, obtenerReportePorProfesor_ok db ahora req profesor hq hne hp ha he, hrep⟩,
    ⟨_, obtenerDatosProfesor_ok db profesor req.ciclo hp ha he, hrep⟩⟩
  · intro d hd ht
    simp only [datosInstitucional, List.mem_map] at hd
    obtain ⟨t, _, rfl⟩ := hd
    exact hroll t ht
  · intro d hd ht
    simp only [reporteInstitucional, List.mem_map] at hd
    obtain ⟨t, _, rfl⟩ := hd
    exact hroll t ht
  · unfold filtroProfesor; split <;> rfl

/-- C4 (amended) for the entry of "Ana" among mixed records, whose percentages are whole
numbers, and for a store that returns the single progress record of the Ana scenario. -/
theorem C4_promedio_witness :
    promedioCercano (detalleProfesor planesAna avancesMixtos evidenciasAna "Ana").promedioAvance
        (avancesMixtos.filter (fun a => a.profesor = some "Ana")) ∧
      (∃ r, (obtenerReportePorProfesor (almacenFijo planesAna avancesAna evidenciasAna) ""
          peticionAna).respuesta = { status := 200, cuerpo := .profesor r } ∧
          promedioCercano r.promedioAvance avancesAna) := by
  have h := C4_promedio (almacenFijo planesAna avancesAna evidenciasAna) ""
    peticionAna "Ana" none
    planesAna avancesMixtos evidenciasAna planesAna avancesAna evidenciasAna
    rfl (by decide) rfl rfl rfl (by simp [avancesAna])
    (by intro a ha; simp [avancesAna] at ha; subst ha; norm_num)
    (by
      intro a ha
      simp [avancesMixtos] at ha
      rcases ha with rfl | rfl | rfl | rfl <;> norm_num)
    (by simp [avancesAna]) (by simp [avancesMixtos])
  refine ⟨h.1 (detalleProfesor planesAna avancesMixtos evidenciasAna "Ana") ?_
    ⟨_, List.mem_cons_self _ _, rfl⟩, h.2.2.2.1⟩
  simp only [datosInstitucional]
  exact List.mem_map.mpr ⟨"Ana", (listaProfesores_mem _ _ _ _).mpr
    ⟨by decide, Or.inl ⟨_, List.mem_cons_self _ _, rfl⟩⟩, rfl⟩

theorem aDoble_decimo : aDoble (1 / 10) = 3602879701896397 / 36028797018963968 :=
  aDoble_valor _ _ 7205759403792794 (-4) (by norm_num) (by norm_num) (by norm_num)
    (by norm_num [abs_lt]) (by norm_num)

theorem aDoble_quinto : aDoble (1 / 5) = 3602879701896397 / 18014398509481984 :=
  aDoble_valor _ _ 7205759403792794 (-3) (by norm_num) (by norm_num) (by norm_num)
    (by norm_num [abs_lt]) (by norm_num)

theorem sumaHoras_decimales :
    sumaHoras evidenciasDecimales = 1351079888211149 / 4503599627370496 := by
  have h1 : aDoble (3602879701896397 / 36028797018963968)
      = 3602879701896397 / 36028797018963968 := by
    rw [← aDoble_decimo]; exact aDoble_id _ (aDoble_esDoble _)
  have h2 : aDoble (3602879701896397 / 36028797018963968 + 3602879701896397 / 18014398509481984)
      = 1351079888211149 / 4503599627370496 :=
    aDoble_valor_empate _ _ 5404319552844595 5404319552844596 (-2) (by norm_num)
      (by norm_num) (by norm_num) (by norm_num) (by norm_num) (by norm_num) (by norm_num)
  simp only [sumaHoras, evidenciasDecimales, List.foldl_cons, List.foldl_nil, sumar, oCero,
    zero_add, aDoble_decimo, aDoble_quinto, h1, h2]

theorem sumaExacta_decimales :
    sumaExacta evidenciasDecimales = 10808639105689191 / 36028797018963968 := by
  simp only [sumaExacta, evidenciasDecimales, List.map_cons, List.map_nil, List.sum_cons,
    List.sum_nil, oCero, aDoble_decimo, aDoble_quinto]
  norm_num

/-- C5, as stated, fails: for two evidence records worth 0.1 and 0.2 hours the total of the
institutional report, and the hours of the teacher entry, are 0.30000000000000004 (the
double 1351079888211149 / 2^52), which is neither the sum 3/10 of the two values nor the
exact sum of the two doubles read from the records. -/
theorem C5_contraejemplo :
    (datosInstitucional none "" [] [] evidenciasDecimales).totales.horasCapacitacionTotales
        = 1351079888211149 / 4503599627370496 ∧
      (detalleProfesor [] [] evidenciasDecimales "Ana").horasCapacitacion
        = 1351079888211149 / 4503599627370496 ∧
      (datosInstitucional none "" [] [] evidenciasDecimales).totales.horasCapacitacionTotales
        ≠ (evidenciasDecimales.map (fun e => e.horasAcreditadas.getD 0)).sum ∧
      (datosInstitucional none "" [] [] evidenciasDecimales).totales.horasCapacitacionTotales
        ≠ sumaExacta evidenciasDecimales := by
  have hf : evidenciasDecimales.filter (fun e => e.profesor = some "Ana")
      = evidenciasDecimales := by
    apply List.filter_eq_self.mpr
    intro e he
    simp only [evidenciasDecimales, List.mem_cons, List.mem_singleton, List.not_mem_nil,
      or_false] at he
    rcases he with rfl | rfl <;> simp
  have ht : (datosInstitucional none "" [] [] evidenciasDecimales).totales.horasCapacitacionTotales
      = 1351079888211149 / 4503599627370496 := sumaHoras_decimales
  refine ⟨ht, ?_, ?_, ?_⟩
  · simp only [detalleProfesor, hf]
    exact sumaHoras_decimales
  · rw [ht]
    simp only [evidenciasDecimales, List.map_cons, List.map_nil, List.sum_cons, List.sum_nil,
      Option.getD_some]
    norm_num
  · rw [ht, sumaExacta_decimales]
    norm_num

/-- C5, amended. Both institutional reports carry the same total of hours, and the hours of
every teacher entry are the total over the evidence of that teacher. Without evidence the
total is 0, and records without `horasAcreditadas` can be left out: a missing value counts
as 0. The total is the exact sum of `horasAcreditadas` when the hours are multiples of
`1 / 2^j` and the sum is at most `2^53 / 2^j` (whole hours for `j = 0`, half hours for
`j = 1`); for hours between 0 and `B` and `n` records with `n * B ≤ 2^53` it differs from
the exact sum of the numbers read by at most `n * n * B / 2^53`, the rounding error of the
additions. -/
theorem C5_horas (ciclo : Option String) (ahora : String) (ps : List Planeacion)
    (as : List Avance) (es : List Evidencia) :
    (reporteInstitucional ciclo ahora ps as es).resumenGeneral.horasCapacitacionTotales
        = (datosInstitucional ciclo ahora ps as es).totales.horasCapacitacionTotales ∧
      (∀ d ∈ (datosInstitucional ciclo ahora ps as es).docentes,
        d.horasCapacitacion = (datosInstitucional ciclo ahora ps as
          (es.filter (fun e => e.profesor = some d.profesor))).totales.horasCapacitacionTotales) ∧
      (∀ d ∈ (reporteInstitucional ciclo ahora ps as es).docentes,
        d.resumen.horasCapacitacion = (datosInstitucional ciclo ahora ps as
          (es.filter (fun e => e.profesor = some d.profesor))).totales.horasCapacitacionTotales) ∧
      (datosInstitucional ciclo ahora ps as []).totales.horasCapacitacionTotales = 0 ∧
      (datosInstitucional ciclo ahora ps as es).totales.horasCapacitacionTotales
        = (datosInstitucional ciclo ahora ps as
            (es.filter (fun e => e.horasAcreditadas.isSome))).totales.horasCapacitacionTotales ∧
      (∀ j : ℕ, j ≤ 1074 →
        (∀ e ∈ es, ∀ h, e.horasAcreditadas = some h → ∃ m : ℕ, h = (m : ℚ) / 2 ^ j) →
        (es.map (fun e => e.horasAcreditadas.getD 0)).sum ≤ 2 ^ 53 / 2 ^ j →
        (datosInstitucional ciclo ahora ps as es).totales.horasCapacitacionTotales
          = (es.map (fun e => e.horasAcreditadas.getD 0)).sum) ∧
      (∀ B : ℕ, 0 < B →
        (∀ e ∈ es, ∀ h, e.horasAcreditadas = some h → 0 ≤ h ∧ h ≤ B) →
        es.length * B ≤ 2 ^ 53 →
        |(datosInstitucional ciclo ahora ps as es).totales.horasCapacitacionTotales
            - sumaExacta es| ≤ ((es.length : ℚ) * es.length * B) / 2 ^ 53) := by
  refine ⟨rfl, ?_, ?_, rfl, sumaHoras_filtro es, ?_, ?_⟩
  · intro d hd
    simp only [datosInstitucional, List.mem_map] at hd
    obtain ⟨t, _, rfl⟩ := hd
    rfl
  · intro d hd
    simp only [reporteInstitucional, List.mem_map] at hd
    obtain ⟨t, _, rfl⟩ := hd
    rfl
  · intro j hj hm hs
    exact sumaHoras_exacta j hj es hm hs
  · intro B hB hr hn
    exact sumaHoras_error B hB es hr hn

/-- C5 (amended) on mixed evidence, whose hours are multiples of one half: the total is the
exact sum 13/2, and the record without hours can be left out. -/
theorem C5_horas_witness :
    (datosInstitucional none "" planesAna avancesAna evidenciasMixtas).totales.horasCapacitacionTotales
        = (evidenciasMixtas.map (fun e => e.horasAcreditadas.getD 0)).sum ∧
      (datosInstitucional none "" planesAna avancesAna evidenciasMixtas).totales.horasCapacitacionTotales
        = (datosInstitucional none "" planesAna avancesAna
            (evidenciasMixtas.filter (fun e => e.horasAcreditadas.isSome))).totales.horasCapacitacionTotales :=
  ⟨(C5_horas none "" planesAna avancesAna evidenciasMixtas).2.2.2.2.2.1 1 (by norm_num)
      (by
        intro e he h hh
        simp only [evidenciasMixtas, List.mem_cons, List.mem_singleton, List.not_mem_nil,
          or_false] at he
        rcases he with rfl | rfl | rfl
        · exact ⟨10, by simp at hh; rw [← hh]; norm_num⟩
        · exact ⟨3, by simp at hh; rw [← hh]; norm_num⟩
        · simp at hh)
      (by
        simp only [evidenciasMixtas, List.map_cons, List.map_nil, List.sum_cons, List.sum_nil,
          Option.getD_some, Option.getD_none]
        norm_num),
    (C5_horas none "" planesAna avancesAna evidenciasMixtas).2.2.2.2.1⟩

/-- C6. A name is in the teacher list used for grouping exactly when it is non-empty and is
the teacher of some plan, progress or evidence record; the list has no repetition, and it is
the list of teacher names of the entries of both institutional reports. For one plan of "A",
one progress record without teacher and one evidence with empty teacher, the reports have
exactly one entry, for "A". -/
theorem C6_lista_profesores (ciclo : Option String) (ahora : String) (ps : List Planeacion)
    (as : List Avance) (es : List Evidencia) (t : String) :
    (t ∈ listaProfesores ps as es ↔
      t ≠ "" ∧ ((∃ p ∈ ps, p.profesor = some t) ∨ (∃ a ∈ as, a.profesor = some t) ∨
        (∃ e ∈ es, e.profesor = some t))) ∧
      (listaProfesores ps as es).Nodup ∧
      (listaProfesores ps as es).count t = (if t ∈ listaProfesores ps as es then 1 else 0) ∧
      (datosInstitucional ciclo ahora ps as es).docentes.map (fun d => d.profesor)
        = listaProfesores ps as es ∧
      (reporteInstitucional ciclo ahora ps as es).docentes.map (fun d => d.profesor)
        = listaProfesores ps as es ∧
      (datosInstitucional ciclo ahora [planDeA] [avanceSinProfesor]
          [evidenciaProfesorVacio]).docentes.map (fun d => d.profesor) = ["A"] ∧
      (reporteInstitucional ciclo ahora [planDeA] [avanceSinProfesor]
          [evidenciaProfesorVacio]).docentes.map (fun d => d.profesor) = ["A"] := by
  refine ⟨listaProfesores_mem ps as es t, listaProfesores_nodup ps as es, ?_,
    docentes_nombres ciclo ahora ps as es, docentesJSON_nombres ciclo ahora ps as es, ?_, ?_⟩
  · by_cases h : t ∈ listaProfesores ps as es
    · rw [if_pos h]; exact List.count_eq_one_of_mem (listaProfesores_nodup ps as es) h
    · rw [if_neg h]; exact List.count_eq_zero_of_not_mem h
  · rw [docentes_nombres]
    simp [listaProfesores, nuevoSet, filtrarBoolean, planDeA, avanceSinProfesor,
      evidenciaProfesorVacio]
  · rw [docentesJSON_nombres]
    simp [listaProfesores, nuevoSet, filtrarBoolean, planDeA, avanceSinProfesor,
      evidenciaProfesorVacio]

/-- C7. In both institutional reports, for two teachers that have an entry, the entry of the
first precedes the entry of the second exactly when the first record of the first teacher
precedes the first record of the second in the concatenation of plans, progress records and
evidence. -/
theorem C7_orden_docentes (ciclo : Option String) (ahora : String) (ps : List Planeacion)
    (as : List Avance) (es : List Evidencia) (t1 t2 : String)
    (h1 : t1 ∈ (datosInstitucional ciclo ahora ps as es).docentes.map (fun d => d.profesor))
    (h2 : t2 ∈ (datosInstitucional ciclo ahora ps as es).docentes.map (fun d => d.profesor)) :
    (posicion t1 ((datosInstitucional ciclo ahora ps as es).docentes.map (fun d => d.profesor))
        < posicion t2
            ((datosInstitucional ciclo ahora ps as es).docentes.map (fun d => d.profesor)) ↔
      posicion (some t1) (ps.map (fun p => p.profesor) ++ as.map (fun a => a.profesor)
          ++ es.map (fun e => e.profesor))
        < posicion (some t2) (ps.map (fun p => p.profesor) ++ as.map (fun a => a.profesor)
          ++ es.map (fun e => e.profesor))) ∧
    (posicion t1 ((reporteInstitucional ciclo ahora ps as es).docentes.map (fun d => d.profesor))
        < posicion t2
            ((reporteInstitucional ciclo ahora ps as es).docentes.map (fun d => d.profesor)) ↔
      posicion (some t1) (ps.map (fun p => p.profesor) ++ as.map (fun a => a.profesor)
          ++ es.map (fun e => e.profesor))
        < posicion (some t2) (ps.map (fun p => p.profesor) ++ as.map (fun a => a.profesor)
          ++ es.map (fun e => e.profesor))) := by
  rw [docentes_nombres] at h1 h2
  have e1 : t1 ≠ "" := ((listaProfesores_mem ps as es t1).mp h1).1
  have e2 : t2 ≠ "" := ((listaProfesores_mem ps as es t2).mp h2).1
  rw [docentes_nombres, docentesJSON_nombres]
  exact ⟨listaProfesores_orden ps as es t1 t2 e1 e2, listaProfesores_orden ps as es t1 t2 e1 e2⟩

/-- C7 on mixed records: "Eva" first appears in the progress records and "Ana" in the plans,
so the entry of "Ana" comes first. -/
theorem C7_orden_docentes_witness :
    (posicion "Ana" ((datosInstitucional none "" planesAna avancesMixtos
          evidenciasMixtas).docentes.map (fun d => d.profesor))
        < posicion "Eva" ((datosInstitucional none "" planesAna avancesMixtos
          evidenciasMixtas).docentes.map (fun d => d.profesor)) ↔
      posicion (some "Ana") (planesAna.map (fun p => p.profesor)
          ++ avancesMixtos.map (fun a => a.profesor)
          ++ evidenciasMixtas.map (fun e => e.profesor))
        < posicion (some "Eva") (planesAna.map (fun p => p.profesor)
          ++ avancesMixtos.map (fun a => a.profesor)
          ++ evidenciasMixtas.map (fun e => e.profesor))) ∧
    (posicion "Ana" ((reporteInstitucional none "" planesAna avancesMixtos
          evidenciasMixtas).docentes.map (fun d => d.profesor))
        < posicion "Eva" ((reporteInstitucional none "" planesAna avancesMixtos
          evidenciasMixtas).docentes.map (fun d => d.profesor)) ↔
      posicion (some "Ana") (planesAna.map (fun p => p.profesor)
          ++ avancesMixtos.map (fun a => a.profesor)
          ++ evidenciasMixtas.map (fun e => e.profesor))
        < posicion (some "Eva") (planesAna.map (fun p => p.profesor)
          ++ avancesMixtos.map (fun a => a.profesor)
          ++ evidenciasMixtas.map (fun e => e.profesor))) :=
  C7_orden_docentes none "" planesAna avancesMixtos evidenciasMixtas "Ana" "Eva"
    (by rw [docentes_nombres, listaProfesores_mem]
        exact ⟨by decide, Or.inl ⟨_, List.mem_cons_self _ _, rfl⟩⟩)
    (by rw [docentes_nombres, listaProfesores_mem]
        exact ⟨by decide, Or.inr (Or.inl ⟨_, List.mem_cons_of_mem _ (List.mem_cons_self _ _),
          rfl⟩)⟩)

/-- C8. In every teacher entry of the export data, when no status of the teacher's plans is
the name of a property inherited from `Object.prototype` (the schema's status values are
not), `planeacionesPorEstado` has each key once, has key `s` exactly when one of the
teacher's plans has status `s`, holds for it the number of the teacher's plans with status
`s`, and its values are numbers that add up to `totalPlaneaciones`; likewise
`cumplimientoAvances` over the teacher's progress records and `totalAvances`. -/
theorem C8_tablas_de_frecuencia (ciclo : Option String) (ahora : String)
    (ps : List Planeacion) (as : List Avance) (es : List Evidencia) (d : DetalleProfesor)
    (s : String) (hd : d ∈ (datosInstitucional ciclo ahora ps as es).docentes)
    (hE : ∀ p ∈ ps, p.profesor = some d.profesor → p.estado ∉ clavesHeredadas)
    (hC : ∀ a ∈ as, a.profesor = some d.profesor → a.cumplimiento ∉ clavesHeredadas) :
    ((d.planeacionesPorEstado.map Prod.fst).Nodup ∧
      (s ∈ d.planeacionesPorEstado.map Prod.fst ↔
        ∃ p ∈ ps, p.profesor = some d.profesor ∧ p.estado = s) ∧
      (s ∈ d.planeacionesPorEstado.map Prod.fst →
        d.planeacionesPorEstado.leer s = some (.numero
          ((ps.filter (fun p => p.profesor = some d.profesor)).countP
            (fun p => p.estado = s)))) ∧
      (∃ ns : List Nat, d.planeacionesPorEstado.map Prod.snd = ns.map ValorJS.numero ∧
        ns.sum = d.totalPlaneaciones)) ∧
    ((d.cumplimientoAvances.map Prod.fst).Nodup ∧
      (s ∈ d.cumplimientoAvances.map Prod.fst ↔
        ∃ a ∈ as, a.profesor = some d.profesor ∧ a.cumplimiento = s) ∧
      (s ∈ d.cumplimientoAvances.map Prod.fst →
        d.cumplimientoAvances.leer s = some (.numero
          ((as.filter (fun a => a.profesor = some d.profesor)).countP
            (fun a => a.cumplimiento = s)))) ∧
      (∃ ns : List Nat, d.cumplimientoAvances.map Prod.snd = ns.map ValorJS.numero ∧
        ns.sum = d.totalAvances)) := by
  simp only [datosInstitucional, List.mem_map] at hd
  obtain ⟨t, _, rfl⟩ := hd
  have hp := tabla_de (fun p : Planeacion => p.estado)
    (ps.filter (fun p => p.profesor = some t)) (by
      intro p hp
      obtain ⟨h1, h2⟩ := List.mem_filter.mp hp
      exact hE p h1 (by simpa using h2))
  have ha := tabla_de (fun a : Avance => a.cumplimiento)
    (as.filter (fun a => a.profesor = some t)) (by
      intro a ha
      obtain ⟨h1, h2⟩ := List.mem_filter.mp ha
      exact hC a h1 (by simpa using h2))
  refine ⟨⟨hp.1, ?_, hp.2.2.1 s, hp.2.2.2⟩, ⟨ha.1, ?_, ha.2.2.1 s, ha.2.2.2⟩⟩
  · rw [show (detalleProfesor ps as es t).planeacionesPorEstado
        = (ps.filter (fun p => p.profesor = some t)).foldl
            (fun acc p => incrementar acc p.estado) [] from rfl, hp.2.1 s]
    simp only [List.mem_filter, decide_eq_true_eq, and_assoc]
    rfl
  · rw [show (detalleProfesor ps as es t).cumplimientoAvances
        = (as.filter (fun a => a.profesor = some t)).foldl
            (fun acc a => incrementar acc a.cumplimiento) [] from rfl, ha.2.1 s]
    simp only [List.mem_filter, decide_eq_true_eq, and_assoc]
    rfl

/-- C8 on the entry of "Ana" built from her two plans and three of four progress records:
the key "aprobado" is present and holds the number of her approved plans. -/
theorem C8_tablas_de_frecuencia_witness :
    (∀ p ∈ planesAna, p.profesor = some "Ana" → p.estado ∉ clavesHeredadas) ∧
      (∀ a ∈ avancesMixtos, a.profesor = some "Ana" → a.cumplimiento ∉ clavesHeredadas) ∧
      ("aprobado" ∈ (detalleProfesor planesAna avancesMixtos evidenciasAna
          "Ana").planeacionesPorEstado.map Prod.fst ↔
        ∃ p ∈ planesAna, p.profesor = some "Ana" ∧ p.estado = "aprobado") ∧
      (∃ ns : List Nat, (detalleProfesor planesAna avancesMixtos evidenciasAna
          "Ana").cumplimientoAvances.map Prod.snd = ns.map ValorJS.numero ∧ ns.sum = 3) := by
  have hE : ∀ p ∈ planesAna, p.profesor = some "Ana" → p.estado ∉ clavesHeredadas := by
    intro p hp _
    simp only [planesAna, List.mem_cons, List.mem_singleton, List.not_mem_nil, or_false] at hp
    rcases hp with rfl | rfl <;> decide
  have hC : ∀ a ∈ avancesMixtos, a.profesor = some "Ana" → a.cumplimiento ∉ clavesHeredadas := by
    intro a ha _
    simp only [avancesMixtos, List.mem_cons, List.mem_singleton, List.not_mem_nil,
      or_false] at ha
    rcases ha with rfl | rfl | rfl | rfl <;> decide
  have hd : detalleProfesor planesAna avancesMixtos evidenciasAna "Ana"
      ∈ (datosInstitucional none "" planesAna avancesMixtos evidenciasAna).docentes := by
    simp only [datosInstitucional]
    exact List.mem_map.mpr ⟨"Ana", (listaProfesores_mem _ _ _ _).mpr
      ⟨by decide, Or.inl ⟨_, List.mem_cons_self _ _, rfl⟩⟩, rfl⟩
  have h := C8_tablas_de_frecuencia none "" planesAna avancesMixtos evidenciasAna
    (detalleProfesor planesAna avancesMixtos evidenciasAna "Ana") "aprobado" hd hE hC
  exact ⟨hE, hC, h.1.2.1, h.2.2.2.2⟩

/-- C9, as stated, fails: with no record at all the approval rate of the JSON report is the
number 0, written `0` in the body, which has no digits after a decimal point. -/
theorem C9_contraejemplo :
    (reporteInstitucional none "" [] [] []).resumenGeneral.porcentajeAprobacion = .numero 0 ∧
      (reporteInstitucional none "" [] [] []).resumenGeneral.porcentajeAprobacion.textoJSON
        = some "0" ∧
      tieneDosDecimales "0" = false := by
  refine ⟨by simp [reporteInstitucional, porcentaje], ?_, by decide⟩
  simp [reporteInstitucional, porcentaje, Valor.textoJSON]

/-- The average field over fewer than `2^32` progress records whose percentages lie between
0 and 100: the number 0 for no record, and otherwise fixed text of the computed average. -/
theorem promedioAvance_forma_rango (avs : List Avance)
    (h : ∀ a ∈ avs, 0 ≤ a.porcentajeAvance ∧ a.porcentajeAvance ≤ 100)
    (hn : avs.length < 2 ^ 32) :
    ceroOFijo (promedioAvance avs) avs.isEmpty (mediaAvance avs) = true := by
  obtain ⟨r0, r1⟩ := mediaAvance_rango avs h hn
  apply promedioAvance_ceroOFijo
  rw [abs_of_nonneg r0]
  calc mediaAvance avs ≤ 100 := r1
    _ < 10 ^ 21 := by norm_num

/-- C9, amended. Each percentage or average field of the JSON institutional report and of
the teacher report is the number 0 when its collection (all plans, all progress records, the
teacher's progress records) is empty; otherwise it is text with exactly two digits after the
decimal point that reads back as the computed ratio or average (the argument of `toFixed`)
rounded to two decimal places. For the averages the percentages lie between 0 and 100 and
the list of progress records is shorter than `2^32`, as every array is. -/
theorem C9_formato (db : Almacen) (ahora : String) (req : Peticion) (profesor : String)
    (ciclo : Option String) (ps : List Planeacion) (as : List Avance) (es : List Evidencia)
    (psT : List Planeacion) (asT : List Avance) (esT : List Evidencia)
    (hq : req.profesor = some profesor) (hne : profesor ≠ "")
    (hp : db.planeaciones (filtroProfesor profesor req.ciclo) = .ok psT)
    (ha : db.avances (filtroProfesor profesor req.ciclo) = .ok asT)
    (he : db.evidencias (filtroProfesor profesor req.ciclo) = .ok esT) :
    ceroOFijo (reporteInstitucional ciclo ahora ps as es).resumenGeneral.porcentajeAprobacion
        ps.isEmpty (razon (ps.countP (fun p => p.estado = "aprobado")) ps.length) = true ∧
      ceroOFijo (reporteInstitucional ciclo ahora ps as es).resumenGeneral.porcentajeCumplimiento
        as.isEmpty (razon (as.countP (fun a => a.cumplimiento = "cumplido")) as.length)
        = true ∧
      ((∀ a ∈ as, 0 ≤ a.porcentajeAvance ∧ a.porcentajeAvance ≤ 100) → as.length < 2 ^ 32 →
        ∀ d ∈ (reporteInstitucional ciclo ahora ps as es).docentes,
          ceroOFijo d.resumen.promedioAvance
            (as.filter (fun a => a.profesor = some d.profesor)).isEmpty
            (mediaAvance (as.filter (fun a => a.profesor = some d.profesor))) = true) ∧
      ((∀ a ∈ asT, 0 ≤ a.porcentajeAvance ∧ a.porcentajeAvance ≤ 100) → asT.length < 2 ^ 32 →
        ∃ r, (obtenerReportePorProfesor db ahora req).respuesta
          = { status := 200, cuerpo := .profesor r } ∧
          ceroOFijo r.promedioAvance asT.isEmpty (mediaAvance asT) = true) := by
  have hvacio : ∀ {α : Type} (l : List α), l.isEmpty = decide (l.length = 0) := by
    intro α l; cases l <;> simp
  refine ⟨?_, ?_, ?_, ?_⟩
  · simp only [reporteInstitucional, length_filter_eq_countP, hvacio ps]
    exact porcentaje_ceroOFijo _ _ (List.countP_le_length _)
  · simp only [reporteInstitucional, length_filter_eq_countP, hvacio as]
    exact porcentaje_ceroOFijo _ _ (List.countP_le_length _)
  · intro hr hn d hd
    simp only [reporteInstitucional, List.mem_map] at hd
    obtain ⟨t, _, rfl⟩ := hd
    exact promedioAvance_forma_rango _ (fun a ha => hr a (List.mem_of_mem_filter ha))
      (lt_of_le_of_lt (List.length_filter_le _ _) hn)
  · intro hr hn
    exact ⟨_, obtenerReportePorProfesor_ok db ahora req profesor hq hne hp ha he,
      promedioAvance_forma_rango _ hr hn⟩

/-- C9 (amended) on the Ana scenario: the average of her teacher report is text with two
decimals that reads back as the computed average rounded to two decimals. -/
theorem C9_formato_witness :
    ∃ r, (obtenerReportePorProfesor (almacenFijo planesAna avancesAna evidenciasAna) ""
        peticionAna).respuesta = { status := 200, cuerpo := .profesor r } ∧
      ceroOFijo r.promedioAvance avancesAna.isEmpty (mediaAvance avancesAna) = true :=
  (C9_formato (almacenFijo planesAna avancesAna evidenciasAna) "" peticionAna "Ana" none
    planesAna avancesMixtos evidenciasAna planesAna avancesAna evidenciasAna
    rfl (by decide) rfl rfl rfl).2.2.2
    (by intro a ha; simp [avancesAna] at ha; subst ha; norm_num)
    (by simp [avancesAna])

/-- C10. A teacher-report request whose `profesor` parameter is absent or empty is answered
with status 400 and the message that the parameter is required, and no store query is
issued. -/
theorem C10_profesor_requerido (db : Almacen) (ahora : String) (req : Peticion)
    (h : req.profesor = none ∨ req.profesor = some "") :
    obtenerReportePorProfesor db ahora req =
      { consultas := []
        respuesta := { status := 400, cuerpo := .mensaje "Se requiere el parámetro profesor" } } := by
  rcases h with h | h <;> simp [obtenerReportePorProfesor, h]

/-- C10 on a request without parameters, against a store that holds the Ana scenario. -/
theorem C10_profesor_requerido_witness :
    obtenerReportePorProfesor (almacenFijo planesAna avancesAna evidenciasAna) ""
        { tipo := none, formato := none, ciclo := none, profesor := none } =
      { consultas := []
        respuesta := { status := 400, cuerpo := .mensaje "Se requiere el parámetro profesor" } } :=
  C10_profesor_requerido _ _ _ (Or.inl rfl)

/-! ## Export requests -/

theorem esVerdadero_some (s : String) (h : s ≠ "") : esVerdadero (some s) = true := by
  simp [esVerdadero, h]

theorem esVerdadero_iff (o : Option String) :
    esVerdadero o = true ↔ ∃ s, o = some s ∧ s ≠ "" := by
  cases o with
  | none => simp [esVerdadero]
  | some s => simp [esVerdadero]

theorem cabeceraValida_append (a b : String) :
    cabeceraValida (a ++ b) = (cabeceraValida a && cabeceraValida b) := by
  simp [cabeceraValida, String.data_append, List.all_append]

theorem cabecera_pdf (nombre : String) :
    cabeceraValida ("attachment; filename=" ++ nombre ++ ".pdf") = cabeceraValida nombre := by
  rw [cabeceraValida_append, cabeceraValida_append,
    show cabeceraValida "attachment; filename=" = true by decide,
    show cabeceraValida ".pdf" = true by decide]
  simp

theorem cabecera_xlsx (nombre : String) :
    cabeceraValida ("attachment; filename=" ++ nombre ++ ".xlsx") = cabeceraValida nombre := by
  rw [cabeceraValida_append, cabeceraValida_append,
    show cabeceraValida "attachment; filename=" = true by decide,
    show cabeceraValida ".xlsx" = true by decide]
  simp

theorem generarArchivo_objeto (f : String) (d : DatosExportar) (nombre : String) :
    generarArchivo f (.objeto d) nombre =
      if f = "pdf" then
        if cabeceraValida nombre then
          { status := 200
            cuerpo := .archivo "application/pdf" ("attachment; filename=" ++ nombre ++ ".pdf")
              (.objeto d) }
        else { status := 200, cuerpo := .sinRespuesta }
      else if f = "excel" then
        if cabeceraValida nombre then
          { status := 200
            cuerpo := .archivo "application/vnd.openxmlformats-officedocument.spreadsheetml.sheet"
              ("attachment; filename=" ++ nombre ++ ".xlsx") (.objeto d) }
        else { status := 200, cuerpo := .sinRespuesta }
      else
        { status := 400, cuerpo := .mensaje "Formato no soportado. Use \"excel\" o \"pdf\"." } := by
  simp [generarArchivo, cabecera_pdf, cabecera_xlsx]

/-- With type and format present, an export request is answered by the file generator on
the data of its type, unless a query rejects. -/
theorem exportarReporte_valido (db : Almacen) (ahora : String) (req : Peticion) (f : String)
    (hf : req.formato = some f) (hne : f ≠ "")
    (htipo : req.tipo = some "institucional" ∨
      (req.tipo = some "profesor" ∧ esVerdadero req.profesor = true)) :
    (∃ e, (exportarReporte db ahora req).respuesta = { status := 500, cuerpo := .mensaje e }) ∨
      ∃ d nombre, (exportarReporte db ahora req).respuesta
        = generarArchivo f (.objeto d) nombre := by
  rcases htipo with ht | ⟨ht, hp⟩
  · have h1 : (!esVerdadero (some "institucional") || !esVerdadero (some f)) = false := by
      simp [esVerdadero, hne]
    simp only [exportarReporte, ht, hf, h1, Bool.false_eq_true, if_false, if_true,
      Option.getD_some]
    cases (obtenerDatosInstitucional db ahora req.ciclo).2 with
    | error e => exact Or.inl ⟨e, rfl⟩
    | ok data => exact Or.inr ⟨_, _, rfl⟩
  · obtain ⟨p, hp1, hp2⟩ := (esVerdadero_iff _).mp hp
    have h1 : (!esVerdadero (some "profesor") || !esVerdadero (some f)) = false := by
      simp [esVerdadero, hne]
    have h2 : ¬ (some "profesor" = some "institucional") := by decide
    simp only [exportarReporte, ht, hf, h1, Bool.false_eq_true, if_false, h2, if_true,
      Option.getD_some, hp1, hp2]
    cases (obtenerDatosProfesor db p req.ciclo).2 with
    | error e => exact Or.inl ⟨e, rfl⟩
    | ok data => exact Or.inr ⟨_, _, rfl⟩

/-- The same, on a store whose queries resolve: the file generator decides the answer, and
its file name can be carried by a header exactly when the request has a valid name. -/
theorem exportarReporte_resuelve (db : Almacen) (ahora : String) (req : Peticion) (f : String)
    (hf : req.formato = some f) (hne : f ≠ "")
    (htipo : req.tipo = some "institucional" ∨
      (req.tipo = some "profesor" ∧ esVerdadero req.profesor = true))
    (hdb : db.resuelve) :
    ∃ d nombre, (exportarReporte db ahora req).respuesta
        = generarArchivo f (.objeto d) nombre ∧
      (cabeceraValida nombre = true ↔ nombreValido req) := by
  rcases htipo with ht | ⟨ht, hp⟩
  · have h1 : (!esVerdadero (some "institucional") || !esVerdadero (some f)) = false := by
      simp [esVerdadero, hne]
    obtain ⟨⟨ps, hps⟩, ⟨as, has⟩, es, hes⟩ := hdb (filtroCiclo req.ciclo)
    simp only [exportarReporte, ht, hf, h1, Bool.false_eq_true, if_false, if_true,
      Option.getD_some, obtenerDatosInstitucional_ok db ahora req.ciclo hps has hes]
    exact ⟨_, _, rfl, fun _ => Or.inl ht, fun _ => by decide⟩
  · obtain ⟨p, hp1, hp2⟩ := (esVerdadero_iff _).mp hp
    have h1 : (!esVerdadero (some "profesor") || !esVerdadero (some f)) = false := by
      simp [esVerdadero, hne]
    have h2 : ¬ (some "profesor" = some "institucional") := by decide
    obtain ⟨⟨ps, hps⟩, ⟨as, has⟩, es, hes⟩ := hdb (filtroProfesor p req.ciclo)
    simp only [exportarReporte, ht, hf, h1, Bool.false_eq_true, if_false, h2, if_true,
      Option.getD_some, hp1, hp2, obtenerDatosProfesor_ok db p req.ciclo hps has hes]
    refine ⟨_, _, rfl, ?_⟩
    rw [cabeceraValida_append, show cabeceraValida "reporte-profesor-" = true by decide,
      Bool.true_and]
    constructor
    · intro h; exact Or.inr ⟨p, hp1, h⟩
    · rintro (h | ⟨q, hq1, hq2⟩)
      · rw [ht] at h; exact absurd h h2
      · rw [hp1] at hq1
        rw [Option.some.inj hq1]; exact hq2

theorem almacenFijo_resuelve (ps : List Planeacion) (as : List Avance) (es : List Evidencia) :
    (almacenFijo ps as es).resuelve :=
  fun _ => ⟨⟨ps, rfl⟩, ⟨as, rfl⟩, es, rfl⟩

/-- C11, as stated, fails: when a query of the store rejects, the institutional export in
the format "csv" is answered with status 500 and the message of the rejection, not with the
unsupported-format answer of status 400; the data is fetched before the format is looked
at. -/
theorem C11_contraejemplo :
    (exportarReporte (almacenCaido "sin conexión") "" peticionCsv).respuesta
        = { status := 500, cuerpo := .mensaje "sin conexión" } ∧
      (exportarReporte (almacenCaido "sin conexión") "" peticionCsv).respuesta.status ≠ 400 := by
  constructor <;> decide

/-- C11, amended. For an export request with a valid type (institutional, or teacher with a
non-empty teacher name) and a non-empty format. When the format is neither "pdf" nor
"excel", the answer is the unsupported-format message with status 400 if the queries of the
store resolve, and otherwise the message of the rejection with status 500; it is never a
file. A file in the answer implies that the format is "pdf" or "excel". The store
resolving, a file is sent exactly when the format is "pdf" or "excel" and the file name can
be carried by a header (the report is institutional or the teacher name has only tabs and
non-control Latin-1 characters); it is then sent with status 200 and a name ending in
`.pdf`, respectively `.xlsx`; with another teacher name nothing is sent. -/
theorem C11_formato_no_soportado (db : Almacen) (ahora : String) (req : Peticion) (f : String)
    (hf : req.formato = some f) (hne : f ≠ "")
    (htipo : req.tipo = some "institucional" ∨
      (req.tipo = some "profesor" ∧ esVerdadero req.profesor = true)) :
    (f ≠ "pdf" → f ≠ "excel" →
        ((exportarReporte db ahora req).respuesta
            = { status := 400
                cuerpo := .mensaje "Formato no soportado. Use \"excel\" o \"pdf\"." } ∨
          ∃ e, (exportarReporte db ahora req).respuesta
            = { status := 500, cuerpo := .mensaje e }) ∧
        (db.resuelve → (exportarReporte db ahora req).respuesta
          = { status := 400
              cuerpo := .mensaje "Formato no soportado. Use \"excel\" o \"pdf\"." })) ∧
      ((∃ ct cd d, (exportarReporte db ahora req).respuesta.cuerpo = .archivo ct cd d) →
        f = "pdf" ∨ f = "excel") ∧
      (db.resuelve →
        ((∃ ct cd d, (exportarReporte db ahora req).respuesta.cuerpo = .archivo ct cd d) ↔
          ((f = "pdf" ∨ f = "excel") ∧ nombreValido req))) ∧
      (db.resuelve → nombreValido req → f = "pdf" →
        ∃ nombre d, (exportarReporte db ahora req).respuesta
          = { status := 200
              cuerpo := .archivo "application/pdf"
                ("attachment; filename=" ++ nombre ++ ".pdf") d }) ∧
      (db.resuelve → nombreValido req → f = "excel" →
        ∃ nombre d, (exportarReporte db ahora req).respuesta
          = { status := 200
              cuerpo := .archivo
                "application/vnd.openxmlformats-officedocument.spreadsheetml.sheet"
                ("attachment; filename=" ++ nombre ++ ".xlsx") d }) ∧
      (db.resuelve → ¬ nombreValido req → (f = "pdf" ∨ f = "excel") →
        (exportarReporte db ahora req).respuesta.cuerpo = .sinRespuesta) := by
  refine ⟨?_, ?_, ?_, ?_, ?_, ?_⟩
  · intro h1 h2
    refine ⟨?_, ?_⟩
    · rcases exportarReporte_valido db ahora req f hf hne htipo with ⟨e, he⟩ | ⟨d, n, hd⟩
      · exact Or.inr ⟨_, he⟩
      · rw [hd, generarArchivo_objeto, if_neg h1, if_neg h2]
        exact Or.inl rfl
    · intro hdb
      obtain ⟨d, n, hd, _⟩ := exportarReporte_resuelve db ahora req f hf hne htipo hdb
      rw [hd, generarArchivo_objeto, if_neg h1, if_neg h2]
  · rintro ⟨ct, cd, d, h⟩
    by_contra hno
    push_neg at hno
    rcases exportarReporte_valido db ahora req f hf hne htipo with ⟨e, he⟩ | ⟨d2, n, hd⟩
    · rw [he] at h; exact Cuerpo.noConfusion h
    · rw [hd, generarArchivo_objeto, if_neg hno.1, if_neg hno.2] at h
      exact Cuerpo.noConfusion h
  · intro hdb
    obtain ⟨d, n, hd, hv⟩ := exportarReporte_resuelve db ahora req f hf hne htipo hdb
    rw [hd, generarArchivo_objeto, ← hv]
    by_cases h1 : f = "pdf"
    · by_cases hc : cabeceraValida n = true <;> simp [h1, hc]
    · by_cases h2 : f = "excel"
      · by_cases hc : cabeceraValida n = true <;> simp [h2, hc]
      · simp [h1, h2]
  · intro hdb hn h1
    obtain ⟨d, n, hd, hv⟩ := exportarReporte_resuelve db ahora req f hf hne htipo hdb
    rw [hd, generarArchivo_objeto, if_pos h1, if_pos (hv.mpr hn)]
    exact ⟨_, _, rfl⟩
  · intro hdb hn h2
    obtain ⟨d, n, hd, hv⟩ := exportarReporte_resuelve db ahora req f hf hne htipo hdb
    have h1 : f ≠ "pdf" := by rw [h2]; decide
    rw [hd, generarArchivo_objeto, if_neg h1, if_pos h2, if_pos (hv.mpr hn)]
    exact ⟨_, _, rfl⟩
  · intro hdb hn hfmt
    obtain ⟨d, n, hd, hv⟩ := exportarReporte_resuelve db ahora req f hf hne htipo hdb
    have hc : ¬ (cabeceraValida n = true) := fun h => hn (hv.mp h)
    rw [hd, generarArchivo_objeto]
    rcases hfmt with h1 | h2
    · rw [if_pos h1, if_neg hc]
    · have h1 : f ≠ "pdf" := by rw [h2]; decide
      rw [if_neg h1, if_pos h2, if_neg hc]

/-- C11 (amended) on the institutional export in the format "csv", against the store of the
Ana scenario: the answer is the unsupported-format message with status 400; and on the PDF
export of the teacher report of "Łukasz", whose name a header cannot carry: nothing is
sent. -/
theorem C11_formato_no_soportado_witness :
    (exportarReporte (almacenFijo planesAna avancesAna evidenciasAna) "" peticionCsv).respuesta
        = { status := 400
            cuerpo := .mensaje "Formato no soportado. Use \"excel\" o \"pdf\"." } ∧
      (exportarReporte (almacenFijo planesAna avancesAna evidenciasAna) ""
        peticionLukasz).respuesta.cuerpo = .sinRespuesta :=
  ⟨((C11_formato_no_soportado (almacenFijo planesAna avancesAna evidenciasAna) "" peticionCsv
      "csv" rfl (by decide) (Or.inl rfl)).1 (by decide) (by decide)).2
      (almacenFijo_resuelve _ _ _),
    (C11_formato_no_soportado (almacenFijo planesAna avancesAna evidenciasAna) ""
      peticionLukasz "pdf" rfl (by decide) (Or.inr ⟨rfl, by decide⟩)).2.2.2.2.2
      (almacenFijo_resuelve _ _ _)
      (by
        rintro (h | ⟨p, hp, hv⟩)
        · exact absurd h (by decide)
        · have : p = "Łukasz" := (Option.some.inj hp).symm
          subst this
          exact absurd hv (by decide))
      (Or.inl rfl)⟩

theorem generarArchivo_objeto_status (f : String) (d : DatosExportar) (nombre : String) :
    (generarArchivo f (.objeto d) nombre).status = 200 ∨
      (generarArchivo f (.objeto d) nombre).status = 400 := by
  rw [generarArchivo_objeto]
  by_cases h1 : f = "pdf"
  · by_cases hc : cabeceraValida nombre = true <;> simp [h1, hc]
  · by_cases h2 : f = "excel"
    · by_cases hc : cabeceraValida nombre = true <;> simp [h2, hc]
    · simp [h1, h2]

theorem exportarReporte_status (db : Almacen) (ahora : String) (req : Peticion) :
    (exportarReporte db ahora req).respuesta.status = 200 ∨
      (exportarReporte db ahora req).respuesta.status = 400 ∨
      (exportarReporte db ahora req).respuesta.status = 500 := by
  unfold exportarReporte
  split
  · exact Or.inr (Or.inl rfl)
  · split
    · dsimp only
      split
      · rcases generarArchivo_objeto_status (req.formato.getD "") _ "reporte-institucional"
          with h | h
        · exact Or.inl h
        · exact Or.inr (Or.inl h)
      · exact Or.inr (Or.inr rfl)
    · split
      · split
        · exact Or.inr (Or.inl rfl)
        · split
          · exact Or.inr (Or.inl rfl)
          · dsimp only
            split
            · rcases generarArchivo_objeto_status (req.formato.getD "") _ _ with h | h
              · exact Or.inl h
              · exact Or.inr (Or.inl h)
            · exact Or.inr (Or.inr rfl)
      · exact Or.inr (Or.inl rfl)

/-- C12, evaluated. The PDF export of the teacher report of "Nonexistent" against an empty
store queries the three models, finds nothing, and still answers 200 with a PDF attachment
that carries the counts 0, 0, 0 and the average 0; and no export request whatever is
answered with status 404. -/
theorem C12_sin_datos_exporta_archivo :
    exportarReporte (almacenFijo [] [] []) "" peticionSinDatos =
      { consultas := [.planeacion ⟨some "Nonexistent", none⟩,
          .avance ⟨some "Nonexistent", none⟩, .evidencia ⟨some "Nonexistent", none⟩]
        respuesta :=
          { status := 200
            cuerpo := .archivo "application/pdf"
              "attachment; filename=reporte-profesor-Nonexistent.pdf"
              (.objeto (.profesor
                { tipo := "profesor", profesor := "Nonexistent", periodo := "Todos",
                  planeaciones := 0, avances := 0, evidencias := 0,
                  promedioAvance := .numero 0 })) } } ∧
      ∀ (db : Almacen) (ahora : String) (req : Peticion),
        (exportarReporte db ahora req).respuesta.status ≠ 404 := by
  refine ⟨by decide, ?_⟩
  intro db ahora req
  rcases exportarReporte_status db ahora req with h | h | h <;> rw [h] <;> decide

/-- C13. An export request without type or without format is answered 400; with both
present, type "profesor" without teacher name is answered 400; with both present, a type
other than "institucional" and "profesor" is answered 400 with the invalid-type message; in
the three cases no query is issued. A file in the answer implies that the type is
"institucional", or "profesor" with a non-empty teacher name. -/
theorem C13_validacion_exportar (db : Almacen) (ahora : String) (req : Peticion) :
    ((esVerdadero req.tipo = false ∨ esVerdadero req.formato = false) →
        exportarReporte db ahora req =
          { consultas := []
            respuesta :=
              { status := 400, cuerpo := .mensaje "Debe especificar tipo y formato." } }) ∧
      (esVerdadero req.formato = true → req.tipo = some "profesor" →
        esVerdadero req.profesor = false →
        exportarReporte db ahora req =
          { consultas := []
            respuesta :=
              { status := 400
                cuerpo := .mensaje "Debe especificar el nombre del profesor." } }) ∧
      (esVerdadero req.tipo = true → esVerdadero req.formato = true →
        req.tipo ≠ some "institucional" → req.tipo ≠ some "profesor" →
        exportarReporte db ahora req =
          { consultas := []
            respuesta := { status := 400, cuerpo := .mensaje "Tipo de reporte inválido." } }) ∧
      (∀ ct cd d, (exportarReporte db ahora req).respuesta.cuerpo = .archivo ct cd d →
        req.tipo = some "institucional" ∨
          (req.tipo = some "profesor" ∧ esVerdadero req.profesor = true)) := by
  refine ⟨?_, ?_, ?_, ?_⟩
  · intro h
    have hc : (!esVerdadero req.tipo || !esVerdadero req.formato) = true := by
      rcases h with h | h <;> simp [h]
    simp only [exportarReporte, hc, if_true]
  · intro hf ht hp
    have hc : (!esVerdadero (some "profesor") || !esVerdadero req.formato) = false := by
      rw [hf]; decide
    have h2 : ¬ (some "profesor" = some "institucional") := by decide
    have h3 : req.profesor = none ∨ req.profesor = some "" := by
      cases hq : req.profesor with
      | none => exact Or.inl rfl
      | some s =>
        rw [hq] at hp
        by_cases hs : s = ""
        · exact Or.inr (by rw [hs])
        · exact absurd (esVerdadero_some s hs) (by rw [hp]; decide)
    rcases h3 with h3 | h3 <;>
      simp only [exportarReporte, ht, hc, Bool.false_eq_true, if_false, h2, if_true, h3]
  · intro ht hf h1 h2
    have hc : (!esVerdadero req.tipo || !esVerdadero req.formato) = false := by
      rw [ht, hf]; decide
    simp only [exportarReporte, hc, Bool.false_eq_true, if_false, h1, h2]
  · intro ct cd d h
    by_cases h1 : req.tipo = some "institucional"
    · exact Or.inl h1
    · by_cases h2 : req.tipo = some "profesor"
      · refine Or.inr ⟨h2, ?_⟩
        by_contra hp
        have hp2 : esVerdadero req.profesor = false := by simpa using hp
        have h3 : req.profesor = none ∨ req.profesor = some "" := by
          cases hq : req.profesor with
          | none => exact Or.inl rfl
          | some s =>
            rw [hq] at hp2
            by_cases hs : s = ""
            · exact Or.inr (by rw [hs])
            · exact absurd (esVerdadero_some s hs) (by rw [hp2]; decide)
        have h4 : ¬ (some "profesor" = some "institucional") := by decide
        unfold exportarReporte at h
        rw [h2] at h
        split at h
        · exact Cuerpo.noConfusion h
        · rcases h3 with h3 | h3 <;>
            simp only [h4, if_false, if_true, h3] at h <;> exact Cuerpo.noConfusion h
      · unfold exportarReporte at h
        split at h
        · exact Cuerpo.noConfusion h
        · simp only [h1, if_false, h2] at h
          exact Cuerpo.noConfusion h

/-- C13 on three requests against the store of the Ana scenario: no format; type "profesor"
without teacher; type "alumno". -/
theorem C13_validacion_exportar_witness :
    exportarReporte (almacenFijo planesAna avancesAna evidenciasAna) ""
        { tipo := some "institucional", formato := none, ciclo := none, profesor := none } =
      { consultas := []
        respuesta := { status := 400, cuerpo := .mensaje "Debe especificar tipo y formato." } } ∧
    exportarReporte (almacenFijo planesAna avancesAna evidenciasAna) ""
        { tipo := some "profesor", formato := some "pdf", ciclo := none, profesor := none } =
      { consultas := []
        respuesta :=
          { status := 400, cuerpo := .mensaje "Debe especificar el nombre del profesor." } } ∧
    exportarReporte (almacenFijo planesAna avancesAna evidenciasAna) ""
        { tipo := some "alumno", formato := some "pdf", ciclo := none, profesor := none } =
      { consultas := []
        respuesta := { status := 400, cuerpo := .mensaje "Tipo de reporte inválido." } } :=
  ⟨(C13_validacion_exportar _ _ _).1 (Or.inr rfl),
    (C13_validacion_exportar _ _ _).2.1 rfl rfl rfl,
    (C13_validacion_exportar _ _ _).2.2.1 rfl rfl (by decide) (by decide)⟩

/-! ## Role middlewares -/

/-- C14. On a request that carries an authenticated user, `esCoordinadorOAdmin` and
`esAdminOCoordinador` each call `next` exactly when the role is "coordinador" or "admin",
and otherwise answer with status 403 (and do not call `next`); so the two let the same
users through, and whoever `esAdmin` lets through, both let through. -/
theorem C14_roles (u : Usuario) :
    (esCoordinadorOAdmin (some u) = .siguiente ↔
        (u.rol = some "coordinador" ∨ u.rol = some "admin")) ∧
      (esAdminOCoordinador (some u) = .siguiente ↔
        (u.rol = some "coordinador" ∨ u.rol = some "admin")) ∧
      (¬ (u.rol = some "coordinador" ∨ u.rol = some "admin") →
        esCoordinadorOAdmin (some u) = .responde
            { status := 403
              cuerpo := .mensaje
                "Acceso denegado. Se requieren permisos de coordinador o administrador." } ∧
          esAdminOCoordinador (some u) = .responde
            { status := 403
              cuerpo := .mensaje
                "Acceso denegado. Solo administradores o coordinadores pueden realizar esta acción." }) ∧
      (esCoordinadorOAdmin (some u) = .siguiente ↔ esAdminOCoordinador (some u) = .siguiente) ∧
      (esAdmin (some u) = .siguiente →
        esCoordinadorOAdmin (some u) = .siguiente ∧
          esAdminOCoordinador (some u) = .siguiente) := by
  have hA : esCoordinadorOAdmin (some u) = .siguiente ↔
      (u.rol = some "coordinador" ∨ u.rol = some "admin") := by
    unfold esCoordinadorOAdmin
    by_cases h : u.rol ∈ [some "coordinador", some "admin"]
    · simp only [h, not_true_eq_false, if_false, true_iff]
      simpa using h
    · simp only [h, not_false_eq_true, if_true, false_iff]
      simpa using h
  have hB : esAdminOCoordinador (some u) = .siguiente ↔
      (u.rol = some "coordinador" ∨ u.rol = some "admin") := by
    unfold esAdminOCoordinador
    by_cases h : u.rol ≠ some "admin" ∧ u.rol ≠ some "coordinador"
    · simp only [h, ne_eq, not_false_eq_true, and_self, if_true, false_iff]
      tauto
    · simp only [h, if_false, true_iff]
      by_contra hc
      exact h ⟨fun h1 => hc (Or.inr h1), fun h2 => hc (Or.inl h2)⟩
  refine ⟨hA, hB, ?_, hA.trans hB.symm, ?_⟩
  · intro hn
    constructor
    · have h : u.rol ∉ [some "coordinador", some "admin"] := by simpa using hn
      simp only [esCoordinadorOAdmin, h, not_false_eq_true, if_true]
    · have h : u.rol ≠ some "admin" ∧ u.rol ≠ some "coordinador" :=
        ⟨fun h1 => hn (Or.inr h1), fun h2 => hn (Or.inl h2)⟩
      simp only [esAdminOCoordinador, h, ne_eq, not_false_eq_true, and_self, if_true]
  · intro h
    have hadmin : u.rol = some "admin" := by
      unfold esAdmin at h
      by_contra hc
      simp only [ne_eq, hc, not_false_eq_true, if_true] at h
      exact Paso.noConfusion h
    exact ⟨hA.mpr (Or.inr hadmin), hB.mpr (Or.inr hadmin)⟩

/-- C14 on a teacher ("docente"), who is turned away with 403 by both middlewares, and on an
administrator, whom `esAdmin` and therefore both middlewares let through. -/
theorem C14_roles_witness :
    (esCoordinadorOAdmin (some { rol := some "docente" }) = .responde
        { status := 403
          cuerpo := .mensaje
            "Acceso denegado. Se requieren permisos de coordinador o administrador." } ∧
      esAdminOCoordinador (some { rol := some "docente" }) = .responde
        { status := 403
          cuerpo := .mensaje
            "Acceso denegado. Solo administradores o coordinadores pueden realizar esta acción." }) ∧
    (esCoordinadorOAdmin (some { rol := some "admin" }) = .siguiente ∧
      esAdminOCoordinador (some { rol := some "admin" }) = .siguiente) :=
  ⟨(C14_roles { rol := some "docente" }).2.2.1 (by decide),
    (C14_roles { rol := some "admin" }).2.2.2.2 (by decide)⟩

/-! ## Store failures -/

/-- C15, evaluated. When the plan query rejects with the message `e`, the three report
handlers answer 500 with `e` itself as the message; they do not read the operating mode, so
the answer is the same in production. The global error handler, given the same error in
production mode, answers with the placeholder "Something went wrong" instead, and gives the
message only in development mode. -/
theorem C15_detalle_expuesto (e ahora nombre pila : String) :
    (obtenerReporteInstitucionalJSON (almacenCaido e) ahora
        { tipo := none, formato := none, ciclo := none, profesor := none }).respuesta
        = { status := 500, cuerpo := .mensaje e } ∧
      (obtenerReportePorProfesor (almacenCaido e) ahora
        { tipo := none, formato := none, ciclo := none, profesor := some "Ana" }).respuesta
        = { status := 500, cuerpo := .mensaje e } ∧
      (exportarReporte (almacenCaido e) ahora
        { tipo := some "institucional", formato := some "pdf", ciclo := none,
          profesor := none }).respuesta
        = { status := 500, cuerpo := .mensaje e } ∧
      (exportarReporte (almacenCaido e) ahora
        { tipo := some "profesor", formato := some "excel", ciclo := none,
          profesor := some "Ana" }).respuesta
        = { status := 500, cuerpo := .mensaje e } ∧
      (nombre ≠ "ValidationError" → nombre ≠ "CastError" →
        manejadorGlobal (some "production")
            { name := nombre, message := e, stack := pila, errors := [] }
          = (500, { message := "Error interno del servidor", errors := none,
                    error := some "Something went wrong", details := none }) ∧
        manejadorGlobal (some "development")
            { name := nombre, message := e, stack := pila, errors := [] }
          = (500, { message := "Error interno del servidor", errors := none,
                    error := some e, details := some pila })) := by
  refine ⟨rfl, ?_, ?_, ?_, ?_⟩
  · simp [obtenerReportePorProfesor, buscarTodo, almacenCaido]
  · simp [exportarReporte, obtenerDatosInstitucional, buscarTodo, almacenCaido, esVerdadero]
  · simp [exportarReporte, obtenerDatosProfesor, buscarTodo, almacenCaido, esVerdadero]
  · intro h1 h2
    simp [manejadorGlobal, h1, h2]

/-- C15 (evaluated) on a refused connection: the institutional report answers 500 with the
driver's message, and the global handler hides that message in production mode. -/
theorem C15_detalle_expuesto_witness :
    (obtenerReporteInstitucionalJSON (almacenCaido "connect ECONNREFUSED 127.0.0.1:27017") ""
        { tipo := none, formato := none, ciclo := none, profesor := none }).respuesta
        = { status := 500, cuerpo := .mensaje "connect ECONNREFUSED 127.0.0.1:27017" } ∧
      manejadorGlobal (some "production")
          { name := "MongoNetworkError", message := "connect ECONNREFUSED 127.0.0.1:27017",
            stack := "", errors := [] }
        = (500, { message := "Error interno del servidor", errors := none,
                  error := some "Something went wrong", details := none }) :=
  ⟨(C15_detalle_expuesto "connect ECONNREFUSED 127.0.0.1:27017" "" "MongoNetworkError" "").1,
    ((C15_detalle_expuesto "connect ECONNREFUSED 127.0.0.1:27017" "" "MongoNetworkError"
      "").2.2.2.2 (by decide) (by decide)).1⟩

/-! ## Counts per teacher -/

theorem suma_indicador (K : List String) (hnd : K.Nodup) (o : Option String) :
    (K.map (fun t => if o = some t then 1 else 0)).sum = if o ∈ K.map some then 1 else 0 := by
  induction K with
  | nil => simp
  | cons t K ih =>
    have ht : t ∉ K := (List.nodup_cons.mp hnd).1
    have ih2 := ih (List.nodup_cons.mp hnd).2
    rw [List.map_cons, List.sum_cons, ih2]
    by_cases h : o = some t
    · have hno : o ∉ K.map some := by
        rw [h]; simp [ht]
      simp [h, ht]
    · by_cases hk : o ∈ K.map some
      · simp only [h, if_false, hk, if_true, zero_add, List.map_cons, List.mem_cons, or_true]
      · simp only [h, if_false, hk, zero_add, List.map_cons, List.mem_cons, or_self]

theorem suma_filtros {α : Type} (f : α → Option String) (l : List α) (K : List String)
    (hnd : K.Nodup) :
    (K.map (fun t => (l.filter (fun x => decide (f x = some t))).length)).sum
      = l.countP (fun x => decide (f x ∈ K.map some)) := by
  induction l with
  | nil => simp
  | cons x l ih =>
    have hstep : ∀ t, ((x :: l).filter (fun y => decide (f y = some t))).length
        = (if f x = some t then 1 else 0) + (l.filter (fun y => decide (f y = some t))).length := by
      intro t
      by_cases h : f x = some t
      · simp [List.filter_cons, h]; omega
      · simp [List.filter_cons, h]
    simp only [hstep, List.sum_map_add, ih, suma_indicador K hnd (f x), List.countP_cons,
      decide_eq_true_eq]
    omega

theorem suma_docentes {α : Type} (f : α → Option String) (l : List α)
    (ps : List Planeacion) (as : List Avance) (es : List Evidencia)
    (hcub : ∀ x ∈ l, esVerdadero (f x) = true →
      ∀ t, f x = some t → t ∈ listaProfesores ps as es) :
    ((listaProfesores ps as es).map
        (fun t => (l.filter (fun x => decide (f x = some t))).length)).sum
      = l.countP (fun x => esVerdadero (f x)) := by
  rw [suma_filtros f l _ (listaProfesores_nodup ps as es)]
  apply List.countP_congr
  intro x hx
  simp only [decide_eq_true_eq, List.mem_map]
  constructor
  · rintro ⟨t, ht, hft⟩
    rw [← hft]
    exact esVerdadero_some t ((listaProfesores_mem ps as es t).mp ht).1
  · intro hv
    obtain ⟨s, hs, _⟩ := (esVerdadero_iff _).mp hv
    exact ⟨s, hcub x hx hv s hs, hs.symm⟩

theorem countP_eq_length_iff {α : Type} (p : α → Bool) (l : List α) :
    l.countP p = l.length ↔ ∀ x ∈ l, p x = true :=
  List.countP_eq_length

theorem docentes_map (ciclo : Option String) (ahora : String) (ps : List Planeacion)
    (as : List Avance) (es : List Evidencia) {β : Type} (g : DetalleProfesor → β) :
    (datosInstitucional ciclo ahora ps as es).docentes.map g
      = (listaProfesores ps as es).map (fun t => g (detalleProfesor ps as es t)) := by
  simp only [datosInstitucional, List.map_map]
  rfl

theorem docentesJSON_map (ciclo : Option String) (ahora : String) (ps : List Planeacion)
    (as : List Avance) (es : List Evidencia) {β : Type} (g : DocenteJSON → β) :
    (reporteInstitucional ciclo ahora ps as es).docentes.map g
      = (listaProfesores ps as es).map (fun t => g (docenteJSON ps as es t)) := by
  simp only [reporteInstitucional, List.map_map]
  rfl

/-- C16. In the export data, the totals of plans over all teacher entries add up to the
number of plans that have a non-empty teacher; the sum is at most the overall
`totalPlaneaciones`, with equality exactly when every plan has a non-empty teacher; the
same holds for progress records and evidence; and `totalProfesores` is the number of
entries. The JSON report has the same sums and the same overall counts. -/
theorem C16_particion (ciclo : Option String) (ahora : String) (ps : List Planeacion)
    (as : List Avance) (es : List Evidencia) :
    (((datosInstitucional ciclo ahora ps as es).docentes.map (fun d => d.totalPlaneaciones)).sum
        = ps.countP (fun p => esVerdadero p.profesor) ∧
      ((datosInstitucional ciclo ahora ps as es).docentes.map (fun d => d.totalPlaneaciones)).sum
        ≤ (datosInstitucional ciclo ahora ps as es).resumenGeneral.totalPlaneaciones ∧
      (((datosInstitucional ciclo ahora ps as es).docentes.map
            (fun d => d.totalPlaneaciones)).sum
          = (datosInstitucional ciclo ahora ps as es).resumenGeneral.totalPlaneaciones ↔
        ∀ p ∈ ps, esVerdadero p.profesor = true)) ∧
    (((datosInstitucional ciclo ahora ps as es).docentes.map (fun d => d.totalAvances)).sum
        = as.countP (fun a => esVerdadero a.profesor) ∧
      ((datosInstitucional ciclo ahora ps as es).docentes.map (fun d => d.totalAvances)).sum
        ≤ (datosInstitucional ciclo ahora ps as es).resumenGeneral.totalAvances ∧
      (((datosInstitucional ciclo ahora ps as es).docentes.map (fun d => d.totalAvances)).sum
          = (datosInstitucional ciclo ahora ps as es).resumenGeneral.totalAvances ↔
        ∀ a ∈ as, esVerdadero a.profesor = true)) ∧
    (((datosInstitucional ciclo ahora ps as es).docentes.map (fun d => d.totalEvidencias)).sum
        = es.countP (fun e => esVerdadero e.profesor) ∧
      ((datosInstitucional ciclo ahora ps as es).docentes.map (fun d => d.totalEvidencias)).sum
        ≤ (datosInstitucional ciclo ahora ps as es).resumenGeneral.totalEvidencias ∧
      (((datosInstitucional ciclo ahora ps as es).docentes.map
            (fun d => d.totalEvidencias)).sum
          = (datosInstitucional ciclo ahora ps as es).resumenGeneral.totalEvidencias ↔
        ∀ e ∈ es, esVerdadero e.profesor = true)) ∧
    (datosInstitucional ciclo ahora ps as es).resumenGeneral.totalProfesores
      = (datosInstitucional ciclo ahora ps as es).docentes.length ∧
    (((reporteInstitucional ciclo ahora ps as es).docentes.map
          (fun d => d.resumen.totalPlaneaciones)).sum
        = ps.countP (fun p => esVerdadero p.profesor) ∧
      ((reporteInstitucional ciclo ahora ps as es).docentes.map
          (fun d => d.resumen.totalAvances)).sum
        = as.countP (fun a => esVerdadero a.profesor) ∧
      ((reporteInstitucional ciclo ahora ps as es).docentes.map
          (fun d => d.resumen.totalEvidencias)).sum
        = es.countP (fun e => esVerdadero e.profesor) ∧
      (reporteInstitucional ciclo ahora ps as es).resumenGeneral.totalPlaneaciones = ps.length ∧
      (reporteInstitucional ciclo ahora ps as es).resumenGeneral.totalAvances = as.length ∧
      (reporteInstitucional ciclo ahora ps as es).resumenGeneral.totalEvidencias = es.length ∧
      (reporteInstitucional ciclo ahora ps as es).resumenGeneral.totalProfesores
        = (reporteInstitucional ciclo ahora ps as es).docentes.length) := by
  have hP : ((listaProfesores ps as es).map
      (fun t => (ps.filter (fun p => decide (p.profesor = some t))).length)).sum
      = ps.countP (fun p => esVerdadero p.profesor) :=
    suma_docentes (fun p : Planeacion => p.profesor) ps ps as es (fun x hx hv t ht =>
      (listaProfesores_mem ps as es t).mpr
        ⟨by rintro rfl; rw [ht] at hv; exact absurd hv (by decide), Or.inl ⟨x, hx, ht⟩⟩)
  have hA : ((listaProfesores ps as es).map
      (fun t => (as.filter (fun a => decide (a.profesor = some t))).length)).sum
      = as.countP (fun a => esVerdadero a.profesor) :=
    suma_docentes (fun a : Avance => a.profesor) as ps as es (fun x hx hv t ht =>
      (listaProfesores_mem ps as es t).mpr
        ⟨by rintro rfl; rw [ht] at hv; exact absurd hv (by decide),
          Or.inr (Or.inl ⟨x, hx, ht⟩)⟩)
  have hE : ((listaProfesores ps as es).map
      (fun t => (es.filter (fun e => decide (e.profesor = some t))).length)).sum
      = es.countP (fun e => esVerdadero e.profesor) :=
    suma_docentes (fun e : Evidencia => e.profesor) es ps as es (fun x hx hv t ht =>
      (listaProfesores_mem ps as es t).mpr
        ⟨by rintro rfl; rw [ht] at hv; exact absurd hv (by decide),
          Or.inr (Or.inr ⟨x, hx, ht⟩)⟩)
  have hrP : ((datosInstitucional ciclo ahora ps as es).docentes.map
      (fun d => d.totalPlaneaciones)).sum = ps.countP (fun p => esVerdadero p.profesor) := by
    rw [docentes_map]; exact hP
  have hrA : ((datosInstitucional ciclo ahora ps as es).docentes.map
      (fun d => d.totalAvances)).sum = as.countP (fun a => esVerdadero a.profesor) := by
    rw [docentes_map]; exact hA
  have hrE : ((datosInstitucional ciclo ahora ps as es).docentes.map
      (fun d => d.totalEvidencias)).sum = es.countP (fun e => esVerdadero e.profesor) := by
    rw [docentes_map]; exact hE
  refine ⟨⟨hrP, ?_, ?_⟩, ⟨hrA, ?_, ?_⟩, ⟨hrE, ?_, ?_⟩, ?_, ?_, ?_, ?_, rfl, rfl, rfl, ?_⟩
  · rw [hrP]; exact List.countP_le_length _
  · rw [hrP]; exact countP_eq_length_iff _ ps
  · rw [hrA]; exact List.countP_le_length _
  · rw [hrA]; exact countP_eq_length_iff _ as
  · rw [hrE]; exact List.countP_le_length _
  · rw [hrE]; exact countP_eq_length_iff _ es
  · simp [datosInstitucional]
  · rw [docentesJSON_map]; exact hP
  · rw [docentesJSON_map]; exact hA
  · rw [docentesJSON_map]; exact hE
  · simp [reporteInstitucional]

/-- C16 on three plans of which one has no teacher: the entries account for two plans, one
fewer than the overall total of three. -/
theorem C16_particion_witness :
    ((datosInstitucional none "" planesTercio avancesAna evidenciasAna).docentes.map
        (fun d => d.totalPlaneaciones)).sum = 2 ∧
      (datosInstitucional none "" planesTercio avancesAna
        evidenciasAna).resumenGeneral.totalPlaneaciones = 3 := by
  refine ⟨?_, rfl⟩
  rw [(C16_particion none "" planesTercio avancesAna evidenciasAna).1.1]
  decide


/-! ## The two institutional reports side by side -/

/-- C17. When the three queries for the cycle filter resolve, the JSON endpoint and the
export data builder issue the same queries and build reports that agree: the same teacher
names in the same order, with the same counts of plans, progress records and evidence, the
same average and the same hours for each teacher; the same overall counts; the same
approval rate, compliance rate and total hours. -/
theorem C17_reportes_coinciden (db : Almacen) (ahora : String) (req : Peticion)
    (ps : List Planeacion) (as : List Avance) (es : List Evidencia)
    (hp : db.planeaciones (filtroCiclo req.ciclo) = .ok ps)
    (ha : db.avances (filtroCiclo req.ciclo) = .ok as)
    (he : db.evidencias (filtroCiclo req.ciclo) = .ok es) :
    ∃ j r,
      (obtenerReporteInstitucionalJSON db ahora req).respuesta
        = { status := 200, cuerpo := .institucional j } ∧
      (obtenerDatosInstitucional db ahora req.ciclo).2 = .ok r ∧
      (obtenerReporteInstitucionalJSON db ahora req).consultas
        = (obtenerDatosInstitucional db ahora req.ciclo).1 ∧
      j.docentes.map (fun d => d.profesor) = r.docentes.map (fun d => d.profesor) ∧
      j.docentes.map (fun d => (d.profesor, d.resumen.totalPlaneaciones, d.resumen.totalAvances,
          d.resumen.totalEvidencias, d.resumen.promedioAvance, d.resumen.horasCapacitacion))
        = r.docentes.map (fun d => (d.profesor, d.totalPlaneaciones, d.totalAvances,
          d.totalEvidencias, d.promedioAvance, d.horasCapacitacion)) ∧
      j.resumenGeneral.totalProfesores = r.resumenGeneral.totalProfesores ∧
      j.resumenGeneral.totalPlaneaciones = r.resumenGeneral.totalPlaneaciones ∧
      j.resumenGeneral.totalAvances = r.resumenGeneral.totalAvances ∧
      j.resumenGeneral.totalEvidencias = r.resumenGeneral.totalEvidencias ∧
      j.resumenGeneral.porcentajeAprobacion = r.totales.porcentajeAprobacion ∧
      j.resumenGeneral.porcentajeCumplimiento = r.totales.porcentajeCumplimiento ∧
      j.resumenGeneral.horasCapacitacionTotales = r.totales.horasCapacitacionTotales := by
  refine ⟨reporteInstitucional req.ciclo ahora ps as es,
    datosInstitucional req.ciclo ahora ps as es, ?_,
    obtenerDatosInstitucional_ok db ahora req.ciclo hp ha he, ?_, ?_, ?_,
    rfl, rfl, rfl, rfl, rfl, rfl, rfl⟩
  · simp only [obtenerReporteInstitucionalJSON, buscarTodo_ok db _ hp ha he]
  · simp only [obtenerReporteInstitucionalJSON, buscarTodo_ok db _ hp ha he,
      obtenerDatosInstitucional]
  · rw [docentes_nombres, docentesJSON_nombres]
  · rw [docentes_map, docentesJSON_map]
    rfl

/-- C17 on the store of the Ana scenario. -/
theorem C17_reportes_coinciden_witness :
    ∃ j r,
      (obtenerReporteInstitucionalJSON (almacenFijo planesAna avancesAna evidenciasAna) ""
          { tipo := none, formato := none, ciclo := none, profesor := none }).respuesta
        = { status := 200, cuerpo := .institucional j } ∧
      (obtenerDatosInstitucional (almacenFijo planesAna avancesAna evidenciasAna) "" none).2
        = .ok r ∧
      j.docentes.map (fun d => d.profesor) = r.docentes.map (fun d => d.profesor) ∧
      j.resumenGeneral.porcentajeAprobacion = r.totales.porcentajeAprobacion := by
  obtain ⟨j, r, h1, h2, _, h4, _, _, _, _, _, h10, _, _⟩ :=
    C17_reportes_coinciden (almacenFijo planesAna avancesAna evidenciasAna) ""
      { tipo := none, formato := none, ciclo := none, profesor := none }
      planesAna avancesAna evidenciasAna rfl rfl rfl
  exact ⟨j, r, h1, h2, h4, h10⟩

/-! ## Ranges of the percentages -/

theorem centesimas_le (x : ℚ) (h0 : 0 ≤ x) (h1 : x ≤ 100) : centesimas x ≤ 10000 := by
  have h := (centesimas_cota x h0).1
  have h2 : (centesimas x : ℚ) < 10001 := by linarith
  have h3 : centesimas x < 10001 := by exact_mod_cast h2
  omega

theorem redondear2_rango (x : ℚ) (h0 : 0 ≤ x) (h1 : x ≤ 100) :
    0 ≤ redondear2 x ∧ redondear2 x ≤ 100 := by
  have hc : (centesimas x : ℚ) ≤ 10000 := by exact_mod_cast centesimas_le x h0 h1
  have hp : (0 : ℚ) ≤ centesimas x := by positivity
  simp only [redondear2, not_lt.mpr h0, if_false]
  constructor
  · positivity
  · linarith

theorem redondear2_cien (x : ℚ) (h0 : 0 ≤ x) (h1 : x ≤ 100) :
    redondear2 x = 100 ↔ 19999 / 200 ≤ x := by
  obtain ⟨hl, hu⟩ := centesimas_cota x h0
  simp only [redondear2, not_lt.mpr h0, if_false]
  constructor
  · intro h
    have hc : (centesimas x : ℚ) = 10000 := by linarith
    linarith
  · intro h
    have hle : centesimas x ≤ 10000 := centesimas_le x h0 h1
    have hge : (9999 : ℚ) < centesimas x := by linarith
    have hge2 : 9999 < centesimas x := by exact_mod_cast hge
    have hc : centesimas x = 10000 := by omega
    rw [hc]; norm_num

theorem aDoble_umbral : aDoble (19999 / 20000) = 9006748894778255 / 9007199254740992 :=
  aDoble_valor _ _ 9006748894778255 (-1) (by norm_num) (by norm_num) (by norm_num)
    (by norm_num [abs_lt]) (by norm_num)

theorem aDoble_umbral_cien :
    aDoble (9006748894778255 / 9007199254740992 * 100) = 879565321755689 / 8796093022208 :=
  aDoble_valor _ _ 7036522574045512 6 (by norm_num) (by norm_num) (by norm_num)
    (by norm_num [abs_lt]) (by norm_num)

/-- At least 99.995 percent of a non-empty collection: the computed percentage is at least
99.995. -/
theorem razon_umbral_sup (parte total : Nat) (ht : total ≠ 0)
    (h : 19999 * total ≤ 20000 * parte) : 19999 / 200 ≤ razon parte total := by
  have hpos : (0 : ℚ) < total := by
    have : 0 < total := Nat.pos_of_ne_zero ht
    exact_mod_cast this
  have hq : (19999 : ℚ) / 20000 ≤ (parte : ℚ) / total := by
    rw [le_div_iff₀ hpos]
    have : (19999 : ℚ) * total ≤ 20000 * parte := by exact_mod_cast h
    linarith
  have h1 : 9006748894778255 / 9007199254740992 ≤ dividir parte total := by
    have := aDoble_mono _ _ hq
    rwa [aDoble_umbral] at this
  have h2 : 879565321755689 / 8796093022208 ≤ razon parte total := by
    have := aDoble_mono (9006748894778255 / 9007199254740992 * 100) (dividir parte total * 100)
      (by linarith)
    rwa [aDoble_umbral_cien] at this
  calc (19999 : ℚ) / 200 ≤ 879565321755689 / 8796093022208 := by norm_num
    _ ≤ razon parte total := h2

/-- For fewer than `2^32` elements, a computed percentage of at least 99.995 means that at
least 99.995 percent of the collection are counted. -/
theorem razon_umbral_inf (parte total : Nat) (hle : parte ≤ total) (ht : total ≠ 0)
    (hn : total < 2 ^ 32) (h : 19999 / 200 ≤ razon parte total) :
    19999 * total ≤ 20000 * parte := by
  have hpos : (0 : ℚ) < total := by
    have : 0 < total := Nat.pos_of_ne_zero ht
    exact_mod_cast this
  have hn2 : (total : ℚ) < 2 ^ 32 := by exact_mod_cast hn
  have e := razon_error parte total hle
  rw [abs_le] at e
  have h1 : (19999 : ℚ) / 200 - 200 / 2 ^ 53 ≤ (parte : ℚ) / total * 100 := by linarith [e.2]
  have h2 : ((19999 : ℚ) / 200 - 200 / 2 ^ 53) * total ≤ 100 * parte := by
    have := mul_le_mul_of_nonneg_right h1 hpos.le
    have e2 : (parte : ℚ) / total * 100 * total = 100 * parte := by field_simp; ring
    rw [e2] at this
    exact this
  have h3 : (19999 : ℚ) * total < 20000 * parte + 1 := by
    have : (200 : ℚ) * (200 / 2 ^ 53 * total) < 1 := by
      calc (200 : ℚ) * (200 / 2 ^ 53 * total) ≤ 200 * (200 / 2 ^ 53 * 2 ^ 32) := by
            gcongr
        _ < 1 := by norm_num
    nlinarith
  have h4 : 19999 * total < 20000 * parte + 1 := by exact_mod_cast h3
  omega

/-- The number a percentage field denotes: it lies in [0, 100], and, for a total below
`2^32`, it is 100 exactly when the total is not 0 and the part is at least 99.995 percent of
it. -/
theorem porcentaje_rango (parte total : Nat) (h : parte ≤ total) :
    ∃ v, (porcentaje parte total).aNumero = some v ∧ 0 ≤ v ∧ v ≤ 100 ∧
      (total < 2 ^ 32 → (v = 100 ↔ total ≠ 0 ∧ 19999 * total ≤ 20000 * parte)) ∧
      (total ≠ 0 → 19999 * total ≤ 20000 * parte → v = 100) := by
  refine ⟨_, porcentaje_aNumero parte total h, ?_⟩
  by_cases ht : total = 0
  · simp [ht]
  · obtain ⟨r0, r1⟩ := razon_rango parte total h
    simp only [ht, if_false, ne_eq, not_false_eq_true, true_and]
    refine ⟨(redondear2_rango _ r0 r1).1, (redondear2_rango _ r0 r1).2, ?_, ?_⟩
    · intro hn
      rw [redondear2_cien _ r0 r1]
      exact ⟨razon_umbral_inf parte total h ht hn, razon_umbral_sup parte total ht⟩
    · intro _ hx
      rw [redondear2_cien _ r0 r1]
      exact razon_umbral_sup parte total ht hx

theorem promedioAvance_rango (avs : List Avance)
    (h : ∀ a ∈ avs, 0 ≤ a.porcentajeAvance ∧ a.porcentajeAvance ≤ 100)
    (hn : avs.length < 2 ^ 32) :
    ∃ v, (promedioAvance avs).aNumero = some v ∧ 0 ≤ v ∧ v ≤ 100 := by
  by_cases hne : avs = []
  · subst hne
    exact ⟨0, by simp [promedioAvance, Valor.aNumero], le_refl _, by norm_num⟩
  · obtain ⟨m0, m1⟩ := mediaAvance_rango avs h hn
    have hb : |mediaAvance avs| < 10 ^ 21 := by
      rw [abs_of_nonneg m0]
      calc mediaAvance avs ≤ 100 := m1
        _ < 10 ^ 21 := by norm_num
    refine ⟨redondear2 (mediaAvance avs), ?_, redondear2_rango _ m0 m1⟩
    rw [promedioAvance_eq _ hne]
    exact toFixed2_aNumero _ hb

/-- C18, as stated, fails: with 24999 approved plans out of 25000 the approval rate is the
text "100.00", which denotes 100, although one plan is not approved. -/
theorem C18_contraejemplo :
    (datosInstitucional none "" planesCasiTodos [] []).totales.porcentajeAprobacion
        = .cadena "100.00" ∧
      (datosInstitucional none "" planesCasiTodos [] []).totales.porcentajeAprobacion.aNumero
        = some 100 ∧
      ¬ (planesCasiTodos ≠ [] ∧ ∀ p ∈ planesCasiTodos, p.estado = "aprobado") := by
  have hlen : planesCasiTodos.length = 25000 := by
    have h : planesCasiTodos.length = 24999 + 1 := by
      unfold planesCasiTodos
      rw [List.length_append, List.length_replicate, List.length_singleton]
    exact h
  have h1 : decide (planAprobado.estado = "aprobado") = true := by decide
  have h2 : decide (planPendiente.estado = "aprobado") = false := by decide
  have hcnt : (planesCasiTodos.filter (fun p => decide (p.estado = "aprobado"))).length
      = 24999 := by
    simp only [planesCasiTodos, List.filter_append, List.filter_replicate, h1, if_true,
      List.filter_cons, h2, Bool.false_eq_true, if_false, List.filter_nil, List.append_nil,
      List.length_replicate]
  have hv : (datosInstitucional none "" planesCasiTodos [] []).totales.porcentajeAprobacion
      = .cadena "100.00" := by
    obtain ⟨r0, r1⟩ := razon_rango 24999 25000 (by norm_num)
    have r2 := razon_umbral_sup 24999 25000 (by norm_num) (by norm_num)
    simp only [datosInstitucional, hcnt, hlen, porcentaje]
    rw [if_pos (by norm_num), toFixed2_of_nonneg _ r0 (by linarith),
      centesimas_eq _ 10000 (by norm_num; linarith) (by norm_num; linarith)]
    simp [textoFijo, digitos]
    decide
  refine ⟨hv, ?_, ?_⟩
  · rw [hv]
    have := leerDecimal_fijo ['1', '0', '0'] '0' '0' (by simp) (by decide) (by decide)
      (by decide)
    rw [show valorDigitos ['1', '0', '0'] * 100 + valorDigitos ['0', '0'] = 10000 by decide]
      at this
    simp only [Valor.aNumero]
    rw [show ("100.00" : String) = String.mk (['1', '0', '0'] ++ ['.', '0', '0']) by decide,
      this]
    norm_num
  · rintro ⟨_, hall⟩
    have := hall planPendiente
      (List.mem_append_right _ (List.mem_singleton_self planPendiente))
    exact absurd this (by decide)

/-- The percentage of the elements of a list that satisfy a test: range, when it is 100, and
the two consequences for a list whose elements all satisfy the test and for a list of fewer
than 20000 elements. -/
theorem porcentaje_conteo {α : Type} (p : α → Bool) (l : List α) :
    (∃ v, (porcentaje (l.countP p) l.length).aNumero = some v ∧ 0 ≤ v ∧ v ≤ 100 ∧
        (l.length < 2 ^ 32 →
          (v = 100 ↔ l ≠ [] ∧ 19999 * l.length ≤ 20000 * l.countP p))) ∧
      ((l ≠ [] ∧ ∀ x ∈ l, p x = true) →
        (porcentaje (l.countP p) l.length).aNumero = some 100) ∧
      (l.length < 20000 →
        ((porcentaje (l.countP p) l.length).aNumero = some 100 ↔
          l ≠ [] ∧ ∀ x ∈ l, p x = true)) := by
  obtain ⟨v, hv, h0, h1, hiff, hsup⟩ :=
    porcentaje_rango (l.countP p) l.length (List.countP_le_length p)
  have hne : l ≠ [] ↔ l.length ≠ 0 := by
    constructor
    · exact fun h h0 => h (List.length_eq_zero.mp h0)
    · exact fun h h0 => h (by rw [h0]; rfl)
  have hle : l.countP p ≤ l.length := List.countP_le_length p
  have hall : (∀ x ∈ l, p x = true) ↔ l.countP p = l.length := List.countP_eq_length.symm
  have hsome : (porcentaje (l.countP p) l.length).aNumero = some 100 ↔ v = 100 := by
    rw [hv]
    exact ⟨fun h => Option.some.inj h, fun h => by rw [h]⟩
  refine ⟨⟨v, hv, h0, h1, ?_⟩, ?_, ?_⟩
  · intro hn
    rw [hiff hn, hne]
  · rintro ⟨hl, hp⟩
    rw [hsome]
    exact hsup (hne.mp hl) (by rw [hall.mp hp]; omega)
  · intro hlt
    have hn : l.length < 2 ^ 32 := lt_trans hlt (by norm_num)
    rw [hsome, hiff hn, hne, hall]
    constructor
    · rintro ⟨hn, hc⟩
      exact ⟨hn, by omega⟩
    · rintro ⟨hn, hc⟩
      exact ⟨hn, by rw [hc]; omega⟩

/-- C18, amended. The approval rate and the compliance rate of both institutional reports
denote numbers in [0, 100]. The approval rate denotes 100 exactly when there is a plan and
at least 99.995 percent of the plans are approved: so whenever there is a plan and every
plan is approved, and, for fewer than 20000 plans, only then. The same holds for the
compliance rate and the compliant progress records. When every `porcentajeAvance` lies in
[0, 100], so does the number every average denotes. Where a list of arbitrary length is
concerned, it is shorter than `2^32`, as every array is. -/
theorem C18_rangos (ciclo : Option String) (ahora : String) (ps : List Planeacion)
    (as : List Avance) (es : List Evidencia) :
    ((∃ v, (datosInstitucional ciclo ahora ps as es).totales.porcentajeAprobacion.aNumero
          = some v ∧ 0 ≤ v ∧ v ≤ 100 ∧
        (ps.length < 2 ^ 32 → (v = 100 ↔ ps ≠ [] ∧
          19999 * ps.length ≤ 20000 * ps.countP (fun p => p.estado = "aprobado")))) ∧
      ((ps ≠ [] ∧ ∀ p ∈ ps, p.estado = "aprobado") →
        (datosInstitucional ciclo ahora ps as es).totales.porcentajeAprobacion.aNumero
          = some 100) ∧
      (ps.length < 20000 →
        ((datosInstitucional ciclo ahora ps as es).totales.porcentajeAprobacion.aNumero
            = some 100 ↔
          ps ≠ [] ∧ ∀ p ∈ ps, p.estado = "aprobado"))) ∧
    ((∃ v, (datosInstitucional ciclo ahora ps as es).totales.porcentajeCumplimiento.aNumero
          = some v ∧ 0 ≤ v ∧ v ≤ 100 ∧
        (as.length < 2 ^ 32 → (v = 100 ↔ as ≠ [] ∧
          19999 * as.length ≤ 20000 * as.countP (fun a => a.cumplimiento = "cumplido")))) ∧
      ((as ≠ [] ∧ ∀ a ∈ as, a.cumplimiento = "cumplido") →
        (datosInstitucional ciclo ahora ps as es).totales.porcentajeCumplimiento.aNumero
          = some 100) ∧
      (as.length < 20000 →
        ((datosInstitucional ciclo ahora ps as es).totales.porcentajeCumplimiento.aNumero
            = some 100 ↔
          as ≠ [] ∧ ∀ a ∈ as, a.cumplimiento = "cumplido"))) ∧
    (reporteInstitucional ciclo ahora ps as es).resumenGeneral.porcentajeAprobacion
      = (datosInstitucional ciclo ahora ps as es).totales.porcentajeAprobacion ∧
    (reporteInstitucional ciclo ahora ps as es).resumenGeneral.porcentajeCumplimiento
      = (datosInstitucional ciclo ahora ps as es).totales.porcentajeCumplimiento ∧
    ((∀ a ∈ as, 0 ≤ a.porcentajeAvance ∧ a.porcentajeAvance ≤ 100) → as.length < 2 ^ 32 →
      (∀ d ∈ (datosInstitucional ciclo ahora ps as es).docentes,
        ∃ v, d.promedioAvance.aNumero = some v ∧ 0 ≤ v ∧ v ≤ 100) ∧
      (∀ d ∈ (reporteInstitucional ciclo ahora ps as es).docentes,
        ∃ v, d.resumen.promedioAvance.aNumero = some v ∧ 0 ≤ v ∧ v ≤ 100)) ∧
    (∀ avs : List Avance, (∀ a ∈ avs, 0 ≤ a.porcentajeAvance ∧ a.porcentajeAvance ≤ 100) →
      avs.length < 2 ^ 32 →
      ∃ v, (promedioAvance avs).aNumero = some v ∧ 0 ≤ v ∧ v ≤ 100) := by
  have hP := porcentaje_conteo (fun p : Planeacion => decide (p.estado = "aprobado")) ps
  have hA := porcentaje_conteo (fun a : Avance => decide (a.cumplimiento = "cumplido")) as
  simp only [decide_eq_true_eq] at hP hA
  refine ⟨?_, ?_, rfl, rfl, ?_, promedioAvance_rango⟩
  · simpa only [datosInstitucional, length_filter_eq_countP] using hP
  · simpa only [datosInstitucional, length_filter_eq_countP] using hA
  · intro h hn
    constructor
    · intro d hd
      simp only [datosInstitucional, List.mem_map] at hd
      obtain ⟨t, _, rfl⟩ := hd
      exact promedioAvance_rango _ (fun a ha => h a (List.mem_of_mem_filter ha))
        (lt_of_le_of_lt (List.length_filter_le _ _) hn)
    · intro d hd
      simp only [reporteInstitucional, List.mem_map] at hd
      obtain ⟨t, _, rfl⟩ := hd
      exact promedioAvance_rango _ (fun a ha => h a (List.mem_of_mem_filter ha))
        (lt_of_le_of_lt (List.length_filter_le _ _) hn)

/-- C18 (amended) on the Ana scenario with both plans approved: the approval rate denotes
100; and the average of "Ana" over records at 80, 85 and 86 percent denotes a number in
[0, 100]. -/
theorem C18_rangos_witness :
    (datosInstitucional none "" [planAprobado, planAprobado] avancesMixtos
        evidenciasAna).totales.porcentajeAprobacion.aNumero = some 100 ∧
      ∃ v, (detalleProfesor [planAprobado, planAprobado] avancesMixtos evidenciasAna
        "Ana").promedioAvance.aNumero = some v ∧ 0 ≤ v ∧ v ≤ 100 := by
  have h := C18_rangos none "" [planAprobado, planAprobado] avancesMixtos evidenciasAna
  refine ⟨h.1.2.1 ⟨by simp, ?_⟩, (h.2.2.2.2.1 ?_ (by simp [avancesMixtos])).1 _ ?_⟩
  · intro p hp
    simp only [List.mem_cons, List.mem_singleton, List.not_mem_nil, or_false, or_self] at hp
    subst hp; rfl
  · intro a ha
    simp only [avancesMixtos, List.mem_cons, List.mem_singleton, List.not_mem_nil,
      or_false] at ha
    rcases ha with rfl | rfl | rfl | rfl <;> norm_num
  · simp only [datosInstitucional]
    exact List.mem_map.mpr ⟨"Ana", (listaProfesores_mem _ _ _ _).mpr
      ⟨by decide, Or.inl ⟨_, List.mem_cons_self _ _, rfl⟩⟩, rfl⟩

end SistemaPlaneaciones
